import Mathlib

/-!
# ep-engine store facade: a shallow embedding of `ep.cc`

The public operations of `EventuallyPersistentStore` are embedded as pure
functions on an explicit store state.  A `RCPtr<VBucket>` obtained from the
vbucket map is represented by the index of that vbucket in the map, so that a
write through the pointer is a write to the map entry.  Calls that leave
`ep.cc` (hash-table mutations, dispatcher schedules, engine notifications,
callbacks) are recorded, in call order, in the `trace` of the store.
-/

set_option autoImplicit false

namespace EPEngine

/-! ## Enumerations -/

/-- Modelled from the spec: the four vbucket states of §3 (the type is declared
outside `src/`). -/
inductive vbucket_state_t where
  | vbucket_state_active
  | vbucket_state_replica
  | vbucket_state_pending
  | vbucket_state_dead
  deriving DecidableEq, Repr

/-- Modelled from the spec: the external error kinds of §7 (declared outside
`src/`). -/
inductive ENGINE_ERROR_CODE where
  | ENGINE_SUCCESS
  | ENGINE_KEY_ENOENT
  | ENGINE_KEY_EEXISTS
  | ENGINE_ENOMEM
  | ENGINE_NOT_STORED
  | ENGINE_EINVAL
  | ENGINE_EWOULDBLOCK
  | ENGINE_NOT_MY_VBUCKET
  | ENGINE_TMPFAIL
  deriving DecidableEq, Repr

/-- Modelled from the spec: `mutation_type` of §4.1, the result of a hash-table
`set` or `softDelete` (declared outside `src/`). -/
inductive mutation_type_t where
  | NOT_FOUND
  | INVALID_CAS
  | WAS_CLEAN
  | WAS_DIRTY
  | IS_LOCKED
  | NOMEM
  | INVALID_VBUCKET
  deriving DecidableEq, Repr

/-- Modelled from the spec: `add_type` of §4.1, the result of a hash-table `add`
(declared outside `src/`). -/
inductive add_type_t where
  | ADD_SUCCESS
  | ADD_NOMEM
  | ADD_EXISTS
  | ADD_UNDEL
  deriving DecidableEq, Repr

/-- Modelled from the spec: the operation of a queued item, §3 (declared outside
`src/`). -/
inductive queue_operation where
  | queue_op_set
  | queue_op_del
  | queue_op_flush
  | queue_op_empty
  | queue_op_commit
  deriving DecidableEq, Repr

/-- Kind of background fetch. -/
inductive bg_fetch_type_t where
  | BG_FETCH_VALUE
  | BG_FETCH_METADATA
  deriving DecidableEq, Repr

/-- Dispatcher priorities used by the operations embedded here. -/
inductive Priority where
  | VBucketPersistHighPriority
  | VBucketPersistLowPriority
  | VBMemoryDeletionPriority
  | VBucketDeletionPriority
  | BgFetcherGetMetaPriority
  | VKeyStatBgFetcherPriority
  deriving DecidableEq, Repr

/-- The dispatchers a task can be scheduled on. -/
inductive DispatcherId where
  | dispatcher
  | roDispatcher
  | nonIODispatcher
  deriving DecidableEq, Repr

/-! ## Records -/

/-- A `const void *cookie`; `none` is the null pointer. -/
abbrev Cookie := Option Nat

/-- Modelled from the spec: the wire-level item of §3 (`Item` is declared outside
`src/`). -/
structure Item where
  key : String
  vbucketId : Nat
  cas : Nat
  seqno : Nat
  exptime : Nat
  flags : Nat
  id : Int
  value : Option String
  deriving DecidableEq, Repr

/-- Modelled from the spec: `ItemMetaData` (declared outside `src/`), the cas,
seqno, flags and expiry read from it by `deleteItem`. -/
structure ItemMetaData where
  cas : Nat
  seqno : Nat
  flags : Nat
  exptime : Nat
  deriving DecidableEq, Repr

/-- Modelled from the spec: the queued item of §3, built by `queueDirty` as
`QueuedItem(key, vbid, op, rowid, seqno)`. -/
structure QueuedItem where
  key : String
  vbid : Nat
  op : queue_operation
  rowid : Int
  seqno : Nat
  deriving DecidableEq, Repr

/-- Modelled from the spec: the in-memory stored value of §3 (`StoredValue` is
declared outside `src/`); `lock_expiry` is the 32-bit `locked-until` field and
`0` means unlocked, `dataAge` is the time read by `getDataAge()` and `pendingId`
the flag of a row-id assignment in flight. -/
structure StoredValue where
  key : String
  value : Option String
  cas : Nat
  seqno : Nat
  exptime : Nat
  flags : Nat
  id : Int
  lock_expiry : Nat
  resident : Bool
  dirty : Bool
  deleted : Bool
  referenced : Bool
  dataAge : Nat
  pendingId : Bool
  deriving DecidableEq, Repr

/-- One vbucket's hash table: its stored values, in chain order. -/
abbrev HashTable := List StoredValue

/-- Modelled from the spec: `GetValue` (declared outside `src/`), the value
handed back by reads: an optional item, a status and a row id, as in
`GetValue(Item *v, status, id)`. -/
structure GetValue where
  value : Option Item
  status : ENGINE_ERROR_CODE
  id : Int
  deriving DecidableEq, Repr

/-- Tasks handed to a dispatcher by the operations embedded here. -/
inductive Task where
  | SnapshotVBucketsCallback (p : Priority)
  | VBucketMemoryDeletionCallback (vbid : Nat)
  | VBucketDeletionCallback (vbid : Nat) (cookie : Cookie)
  | BGFetchCallback (key : String) (vbucket : Nat) (rowid : Int) (cookie : Cookie)
      (type : bg_fetch_type_t)
  deriving DecidableEq, Repr

/-- Calls that leave `ep.cc`, plus the calls of `queueDirty`, in call order. -/
inductive Event where
  | ht_set (vb : Nat) (itm : Item) (trackReference : Bool)
  | ht_set_meta (vb : Nat) (itm : Item) (cas : Nat) (allowExisting trackReference : Bool)
  | ht_add (vb : Nat) (itm : Item)
  | ht_softDelete (vb : Nat) (key : String) (cas : Nat) (use_meta : Bool)
  | queueDirty (vb : Nat) (key : String) (vbid : Nat) (op : queue_operation) (seqno : Nat)
      (rowid : Int) (tapBackfill : Bool)
  | flusherWake
  | queueBGFetchItem (vb : Nat) (key : String) (rowid : Int) (cookie : Cookie)
  | schedule (d : DispatcherId) (t : Task) (p : Priority)
  | notifyNotificationThread
  | notifyIOComplete (cookie : Cookie)
  | ioComplete (cookie : Cookie) (status : ENGINE_ERROR_CODE)
  | callback (rv : GetValue)
  deriving DecidableEq, Repr

/-- Modelled from the spec: the vbucket of §3 (`VBucket` is declared outside
`src/`): id, state, hash table, pending-op cookies, the open checkpoint of the
checkpoint manager and the backfill queue. -/
structure VBucket where
  id : Nat
  state : vbucket_state_t
  ht : HashTable
  pendingOps : List Cookie
  openCheckpointId : Nat
  checkpoint : List QueuedItem
  backfill : List QueuedItem
  deriving DecidableEq, Repr

/-- Modelled from the spec: `VBucketMap` (declared outside `src/`), §3: a mapping
vbucket-id → vbucket plus per-id flags `bucket-deletion` and
`persistence-checkpoint-id`, and two global one-shot flags telling whether a
high- or low-priority vbucket-state-snapshot task is scheduled. -/
structure VBucketMap where
  buckets : List (Option VBucket)
  bucketDeletion : List Bool
  persistenceCheckpointIds : List Nat
  highPriorityVbSnapshot : Bool
  lowPriorityVbSnapshot : Bool
  deriving DecidableEq, Repr

/-- The counters of `EPStats` touched by the operations embedded here; `expired`
stands for the expiration counters behind `incExpirationStat`. -/
structure EPStats where
  numNotMyVBuckets : Nat
  numOpsSetMeta : Nat
  numOpsDelMeta : Nat
  expired : Nat
  queue_size : Nat
  flusher_todo : Nat
  totalEnqueued : Nat
  deriving DecidableEq, Repr

/-- State of an `EventuallyPersistentStore`. -/
structure EventuallyPersistentStore where
  vbuckets : VBucketMap
  stats : EPStats
  doPersistence : Bool
  inconsistentSlaveCheckpoint : Bool
  multiBGFetchEnabled : Bool
  trace : List Event
  deriving DecidableEq, Repr

/-- The hash-table mutations whose bodies are outside `src/`
(`HashTable::set`, `HashTable::add`, `HashTable::unlocked_softDelete`), taken
as parameters: each returns its result code and the table it leaves behind;
`set` also returns the row id written through `row_id`. `set_meta` is the
overload `set(itm, cas, row_id, allowExisting, true, trackReference)`, whose
fifth argument is `true` at every call site. The stored value passed to
`unlocked_softDelete` is named by its key. -/
structure HashTableOps where
  set : HashTable → Item → Bool → mutation_type_t × Int × HashTable
  set_meta : HashTable → Item → Nat → Bool → Bool → mutation_type_t × Int × HashTable
  add : HashTable → Item → add_type_t × HashTable
  unlocked_softDelete : HashTable → String → Nat → mutation_type_t × HashTable
  unlocked_softDelete_meta :
    HashTable → String → Nat → ItemMetaData → mutation_type_t × HashTable

open vbucket_state_t ENGINE_ERROR_CODE mutation_type_t add_type_t queue_operation

/-! ## Vbucket map and vbucket helpers -/

/-- Modelled from the spec: `VBucketMap::getBucket`, the vbucket stored under
an id, if any. -/
def VBucketMap.getBucket (m : VBucketMap) (id : Nat) : Option VBucket :=
  m.buckets.getD id none

/-- Modelled from the spec: `VBucketMap::removeBucket`, which empties the slot
of an id. -/
def VBucketMap.removeBucket (m : VBucketMap) (id : Nat) : VBucketMap :=
  { m with buckets := m.buckets.set id none }

/-- Modelled from the spec: `VBucketMap::addBucket`, which stores a vbucket
under its own id. -/
def VBucketMap.addBucket (m : VBucketMap) (vb : VBucket) : VBucketMap :=
  { m with buckets := m.buckets.set vb.id (some vb) }

/-- Modelled from the spec: `VBucketMap::setPersistenceCheckpointId`. -/
def VBucketMap.setPersistenceCheckpointId (m : VBucketMap) (id chk : Nat) : VBucketMap :=
  { m with persistenceCheckpointIds := m.persistenceCheckpointIds.set id chk }

/-- Modelled from the spec: `VBucketMap::setBucketDeletion`, the per-id
`bucket-deletion` flag; the call reports whether it changed the flag. -/
def VBucketMap.setBucketDeletion (m : VBucketMap) (id : Nat) (delBucket : Bool) :
    Bool × VBucketMap :=
  if m.bucketDeletion.getD id false = delBucket then (false, m)
  else (true, { m with bucketDeletion := m.bucketDeletion.set id delBucket })

/-- Modelled from the spec: `VBucketMap::setHighPriorityVbSnapshotFlag`, the
one-shot flag of a scheduled high-priority snapshot; the call reports whether
it changed the flag. -/
def VBucketMap.setHighPriorityVbSnapshotFlag (m : VBucketMap) (highPriority : Bool) :
    Bool × VBucketMap :=
  if m.highPriorityVbSnapshot = highPriority then (false, m)
  else (true, { m with highPriorityVbSnapshot := highPriority })

/-- Modelled from the spec: `VBucketMap::setLowPriorityVbSnapshotFlag`, the
one-shot flag of a scheduled low-priority snapshot; the call reports whether it
changed the flag. -/
def VBucketMap.setLowPriorityVbSnapshotFlag (m : VBucketMap) (lowPriority : Bool) :
    Bool × VBucketMap :=
  if m.lowPriorityVbSnapshot = lowPriority then (false, m)
  else (true, { m with lowPriorityVbSnapshot := lowPriority })

/-- Modelled from the spec: `VBucket::addPendingOp` (§4.2, "queue cookie,
return would-block"): the cookie joins the pending-op list. -/
def VBucket.addPendingOp (vb : VBucket) (cookie : Cookie) : Bool × VBucket :=
  (true, { vb with pendingOps := vb.pendingOps ++ [cookie] })

/-- Modelled from the spec: `VBucket::setState`, the state write behind a
transition of §4.2. -/
def VBucket.setState (vb : VBucket) (to_ : vbucket_state_t) : VBucket :=
  { vb with state := to_ }

/-- Modelled from the spec: `CheckpointManager::queueDirty` (§4.3): appends to
the open checkpoint and reports whether the item is new to it. -/
def VBucket.checkpointQueueDirty (vb : VBucket) (itm : QueuedItem) : Bool × VBucket :=
  (!(vb.checkpoint.any (fun q => q.key == itm.key)),
   { vb with checkpoint := vb.checkpoint ++ [itm] })

/-- Modelled from the spec: `VBucket::queueBackfillItem`, an append to the
vbucket's backfill queue. -/
def VBucket.queueBackfillItem (vb : VBucket) (itm : QueuedItem) : Bool × VBucket :=
  (true, { vb with backfill := vb.backfill ++ [itm] })

/-! ## Stored values and hash-table lookup -/

/-- Modelled from the spec: `StoredValue::isExpired` (declared outside `src/`);
expiry is in seconds since the epoch and `0` means never (§3). -/
def StoredValue.isExpired (v : StoredValue) (asOf : Nat) : Bool :=
  v.exptime != 0 && decide (v.exptime < asOf)

/-- Modelled from the spec: `StoredValue::isLocked` (declared outside `src/`);
`locked-until = 0` means unlocked, and a lock holds for all `now` before the
lock expiry (§3, §8 property 3). -/
def StoredValue.isLocked (v : StoredValue) (curtime : Nat) : Bool :=
  v.lock_expiry != 0 && decide (curtime < v.lock_expiry)

/-- Modelled from the spec: `StoredValue::lock`, a write of the `locked-until`
field (§3). -/
def StoredValue.lock (v : StoredValue) (expiry : Nat) : StoredValue :=
  { v with lock_expiry := expiry }

/-- Modelled from the spec: `StoredValue::unlock`; `locked-until = 0` is
unlocked (§3). -/
def StoredValue.unlock (v : StoredValue) : StoredValue :=
  { v with lock_expiry := 0 }

/-- Modelled from the spec: `StoredValue::setCas`, a write of the cas field
(§3). -/
def StoredValue.setCas (v : StoredValue) (cas : Nat) : StoredValue :=
  { v with cas := cas }

/-- Modelled from the spec: `StoredValue::setExptime`, a write of the expiry
field (§3). -/
def StoredValue.setExptime (v : StoredValue) (exptime : Nat) : StoredValue :=
  { v with exptime := exptime }

/-- Modelled from the spec: `StoredValue::markDirty`; dirty means the memory
state differs from the persisted state (glossary). -/
def StoredValue.markDirty (v : StoredValue) : StoredValue :=
  { v with dirty := true }

/-- Modelled from the spec: `StoredValue::toItem(lck, vbucket)`, the wire-level
record of a stored value (§3): key, value, flags, expiry, cas, seqno, row id and
the vbucket id. The spec gives the lock argument no effect on these fields. -/
def StoredValue.toItem (v : StoredValue) (_lck : Bool) (vbucket : Nat) : Item :=
  ⟨v.key, vbucket, v.cas, v.seqno, v.exptime, v.flags, v.id, v.value⟩

/-- The first stored value with the given key, deleted or not. -/
def HashTable.lookup (ht : HashTable) (key : String) : Option StoredValue :=
  ht.find? (fun v => v.key == key)

/-- A write through a `StoredValue*`: the first stored value with the given
key is replaced by its image. -/
def HashTable.modify (ht : HashTable) (key : String) (f : StoredValue → StoredValue) :
    HashTable :=
  match ht with
  | [] => []
  | v :: rest => if v.key = key then f v :: rest else v :: HashTable.modify rest key f

/-- The object behind a `StoredValue*` after a hash-table call: the entry now
stored under the key, or the value last read if the call removed the entry. -/
def HashTable.deref (ht : HashTable) (key : String) (old : StoredValue) : StoredValue :=
  (HashTable.lookup ht key).getD old

/-- Modelled from the spec: `StoredValue::referenced()`, which sets the
referenced bit (§3, "bit set on access"). -/
def StoredValue.reference (v : StoredValue) : StoredValue :=
  { v with referenced := true }

/-- Modelled from the spec: `HashTable::unlocked_find(key, bucket, want_deleted,
track_ref)` (§4.1): the stored value of the key, hidden when it is deleted and
deleted values are not wanted; the referenced bit is set on access (§3). -/
def HashTable.unlocked_find (ht : HashTable) (key : String)
    (wantsDeleted trackReference : Bool) : Option StoredValue × HashTable :=
  let ht1 := if trackReference then HashTable.modify ht key StoredValue.reference else ht
  match HashTable.lookup ht1 key with
  | some v => if wantsDeleted || !v.deleted then (some v, ht1) else (none, ht1)
  | none => (none, ht1)

namespace EventuallyPersistentStore

/-- Write a vbucket back through its pointer. -/
def putVB (s : EventuallyPersistentStore) (i : Nat) (vb : VBucket) :
    EventuallyPersistentStore :=
  { s with vbuckets := { s.vbuckets with buckets := s.vbuckets.buckets.set i (some vb) } }

/-- Append one event to the trace. -/
def emit (s : EventuallyPersistentStore) (e : Event) : EventuallyPersistentStore :=
  { s with trace := s.trace ++ [e] }

/-- The statement `++stats.numNotMyVBuckets`. -/
def incNumNotMyVBuckets (s : EventuallyPersistentStore) : EventuallyPersistentStore :=
  { s with stats := { s.stats with numNotMyVBuckets := s.stats.numNotMyVBuckets + 1 } }

/-- Modelled from the spec: the one-argument `getVBucket(vbid)` (declared outside
`src/`), which resolves the vbucket of an id (§4.10). -/
def getVBucket (s : EventuallyPersistentStore) (vbid : Nat) : Option VBucket :=
  s.vbuckets.getBucket vbid

/-- Two-argument `getVBucket(vbid, wanted_state)`: a missing vbucket counts as
dead. -/
def getVBucketIn (s : EventuallyPersistentStore) (vbid : Nat) (wanted_state : vbucket_state_t) :
    Option VBucket :=
  let vb := s.vbuckets.getBucket vbid
  let found_state := match vb with
    | some b => b.state
    | none => vbucket_state_dead
  if found_state = wanted_state then vb else none

/-- The statistics block of `queueDirty` run when the item was accepted:
`++stats.queue_size` (waking the flusher when it becomes 1 with nothing left to
flush) and `++stats.totalEnqueued`. -/
def enqueued (s : EventuallyPersistentStore) : EventuallyPersistentStore :=
  let qs := s.stats.queue_size + 1
  let s1 := { s with stats := { s.stats with queue_size := qs } }
  let s2 := if qs = 1 ∧ s1.stats.flusher_todo = 0 then s1.emit Event.flusherWake else s1
  { s2 with stats := { s2.stats with totalEnqueued := s2.stats.totalEnqueued + 1 } }

/-- `queueDirty(vb, key, vbid, op, seqno, rowid, tapBackfill)` (ep.cc
2218-2239); `vb` is the map index behind the pointer. The per-vbucket queue
statistics of `doStatsForQueueing` are not kept. -/
def queueDirty (s : EventuallyPersistentStore) (vb : Nat) (key : String) (vbid : Nat)
    (op : queue_operation) (seqno : Nat) (rowid : Int) (tapBackfill : Bool) :
    EventuallyPersistentStore :=
  let s1 := s.emit (Event.queueDirty vb key vbid op seqno rowid tapBackfill)
  if s1.doPersistence then
    match s1.getVBucket vb with
    | some b =>
      let itm : QueuedItem := ⟨key, vbid, op, rowid, seqno⟩
      let r := if tapBackfill then b.queueBackfillItem itm else b.checkpointQueueDirty itm
      if r.1 then (s1.putVB vb r.2).enqueued else s1.putVB vb r.2
    | none => s1
  else s1

/-- `EventuallyPersistentStore::set` (ep.cc 739-789). -/
def set (ops : HashTableOps) (s : EventuallyPersistentStore) (itm : Item)
    (cookie : Cookie) (force trackReference : Bool) :
    ENGINE_ERROR_CODE × EventuallyPersistentStore :=
  match s.getVBucket itm.vbucketId with
  | none => (ENGINE_NOT_MY_VBUCKET, s.incNumNotMyVBuckets)
  | some vb =>
    if vb.state = vbucket_state_dead then
      (ENGINE_NOT_MY_VBUCKET, s.incNumNotMyVBuckets)
    else if vb.state = vbucket_state_replica ∧ force = false then
      (ENGINE_NOT_MY_VBUCKET, s.incNumNotMyVBuckets)
    else
      let p := if vb.state = vbucket_state_pending ∧ force = false
        then vb.addPendingOp cookie else (false, vb)
      if p.1 then (ENGINE_EWOULDBLOCK, s.putVB itm.vbucketId p.2)
      else
        let vb := p.2
        let cas_op := itm.cas ≠ 0
        let r := ops.set vb.ht itm trackReference
        let mtype := r.1
        let row_id := r.2.1
        let s := (s.putVB itm.vbucketId { vb with ht := r.2.2 }).emit
          (Event.ht_set itm.vbucketId itm trackReference)
        match mtype with
        | NOMEM => (ENGINE_ENOMEM, s)
        | INVALID_CAS => (ENGINE_KEY_EEXISTS, s)
        | IS_LOCKED => (ENGINE_KEY_EEXISTS, s)
        | NOT_FOUND =>
          if cas_op then (ENGINE_KEY_ENOENT, s)
          else (ENGINE_SUCCESS,
            s.queueDirty itm.vbucketId itm.key itm.vbucketId queue_op_set itm.seqno row_id false)
        | WAS_DIRTY => (ENGINE_SUCCESS,
            s.queueDirty itm.vbucketId itm.key itm.vbucketId queue_op_set itm.seqno row_id false)
        | WAS_CLEAN => (ENGINE_SUCCESS,
            s.queueDirty itm.vbucketId itm.key itm.vbucketId queue_op_set itm.seqno row_id false)
        | INVALID_VBUCKET => (ENGINE_NOT_MY_VBUCKET, s)

/-- `EventuallyPersistentStore::add` (ep.cc 791-820). -/
def add (ops : HashTableOps) (s : EventuallyPersistentStore) (itm : Item) (cookie : Cookie) :
    ENGINE_ERROR_CODE × EventuallyPersistentStore :=
  match s.getVBucket itm.vbucketId with
  | none => (ENGINE_NOT_MY_VBUCKET, s.incNumNotMyVBuckets)
  | some vb =>
    if vb.state = vbucket_state_dead ∨ vb.state = vbucket_state_replica then
      (ENGINE_NOT_MY_VBUCKET, s.incNumNotMyVBuckets)
    else
      let p := if vb.state = vbucket_state_pending then vb.addPendingOp cookie else (false, vb)
      if p.1 then (ENGINE_EWOULDBLOCK, s.putVB itm.vbucketId p.2)
      else if itm.cas ≠ 0 then (ENGINE_NOT_STORED, s)
      else
        let vb := p.2
        let r := ops.add vb.ht itm
        let s := (s.putVB itm.vbucketId { vb with ht := r.2 }).emit
          (Event.ht_add itm.vbucketId itm)
        match r.1 with
        | ADD_NOMEM => (ENGINE_ENOMEM, s)
        | ADD_EXISTS => (ENGINE_NOT_STORED, s)
        | ADD_SUCCESS => (ENGINE_SUCCESS,
            s.queueDirty itm.vbucketId itm.key itm.vbucketId queue_op_set itm.seqno (-1) false)
        | ADD_UNDEL => (ENGINE_SUCCESS,
            s.queueDirty itm.vbucketId itm.key itm.vbucketId queue_op_set itm.seqno (-1) false)

/-- `EventuallyPersistentStore::addTAPBackfillItem` (ep.cc 822-867). -/
def addTAPBackfillItem (ops : HashTableOps) (s : EventuallyPersistentStore) (itm : Item)
    (meta trackReference : Bool) : ENGINE_ERROR_CODE × EventuallyPersistentStore :=
  match s.getVBucket itm.vbucketId with
  | none => (ENGINE_NOT_MY_VBUCKET, s.incNumNotMyVBuckets)
  | some vb =>
    if vb.state = vbucket_state_dead ∨
        (vb.state = vbucket_state_active ∧ s.inconsistentSlaveCheckpoint = false) then
      (ENGINE_NOT_MY_VBUCKET, s.incNumNotMyVBuckets)
    else
      let r := if meta then ops.set_meta vb.ht itm 0 true trackReference
        else ops.set vb.ht itm trackReference
      let mtype := r.1
      let row_id := r.2.1
      let s := (s.putVB itm.vbucketId { vb with ht := r.2.2 }).emit
        (if meta then Event.ht_set_meta itm.vbucketId itm 0 true trackReference
          else Event.ht_set itm.vbucketId itm trackReference)
      match mtype with
      | NOMEM => (ENGINE_ENOMEM, s)
      | INVALID_CAS => (ENGINE_KEY_EEXISTS, s)
      | IS_LOCKED => (ENGINE_KEY_EEXISTS, s)
      | WAS_DIRTY => (ENGINE_SUCCESS, s)
      | NOT_FOUND => (ENGINE_SUCCESS,
          s.queueDirty itm.vbucketId itm.key itm.vbucketId queue_op_set itm.seqno row_id true)
      | WAS_CLEAN => (ENGINE_SUCCESS,
          s.queueDirty itm.vbucketId itm.key itm.vbucketId queue_op_set itm.seqno row_id true)
      | INVALID_VBUCKET => (ENGINE_NOT_MY_VBUCKET, s)

/-- `EventuallyPersistentStore::setWithMeta` (ep.cc 1315-1365). -/
def setWithMeta (ops : HashTableOps) (s : EventuallyPersistentStore) (itm : Item) (cas : Nat)
    (cookie : Cookie) (force allowExisting trackReference : Bool) :
    ENGINE_ERROR_CODE × EventuallyPersistentStore :=
  match s.getVBucket itm.vbucketId with
  | none => (ENGINE_NOT_MY_VBUCKET, s.incNumNotMyVBuckets)
  | some vb =>
    if vb.state = vbucket_state_dead then
      (ENGINE_NOT_MY_VBUCKET, s.incNumNotMyVBuckets)
    else if vb.state = vbucket_state_replica ∧ force = false then
      (ENGINE_NOT_MY_VBUCKET, s.incNumNotMyVBuckets)
    else
      let p := if vb.state = vbucket_state_pending ∧ force = false
        then vb.addPendingOp cookie else (false, vb)
      if p.1 then (ENGINE_EWOULDBLOCK, s.putVB itm.vbucketId p.2)
      else
        let vb := p.2
        let r := ops.set_meta vb.ht itm cas allowExisting trackReference
        let mtype := r.1
        let row_id := r.2.1
        let s := (s.putVB itm.vbucketId { vb with ht := r.2.2 }).emit
          (Event.ht_set_meta itm.vbucketId itm cas allowExisting trackReference)
        let out : ENGINE_ERROR_CODE × EventuallyPersistentStore := match mtype with
          | NOMEM => (ENGINE_ENOMEM, s)
          | INVALID_CAS => (ENGINE_KEY_EEXISTS, s)
          | IS_LOCKED => (ENGINE_KEY_EEXISTS, s)
          | INVALID_VBUCKET => (ENGINE_NOT_MY_VBUCKET, s)
          | WAS_DIRTY => (ENGINE_SUCCESS,
              s.queueDirty itm.vbucketId itm.key itm.vbucketId queue_op_set itm.seqno row_id false)
          | WAS_CLEAN => (ENGINE_SUCCESS,
              s.queueDirty itm.vbucketId itm.key itm.vbucketId queue_op_set itm.seqno row_id false)
          | NOT_FOUND => (ENGINE_KEY_ENOENT, s)
        if out.1 = ENGINE_SUCCESS then
          (out.1, { out.2 with
            stats := { out.2.stats with numOpsSetMeta := out.2.stats.numOpsSetMeta + 1 } })
        else out

/-- `EventuallyPersistentStore::scheduleVBSnapshot` (ep.cc 940-952). -/
def scheduleVBSnapshot (s : EventuallyPersistentStore) (p : Priority) :
    EventuallyPersistentStore :=
  let r := if p = Priority.VBucketPersistHighPriority
    then s.vbuckets.setHighPriorityVbSnapshotFlag true
    else s.vbuckets.setLowPriorityVbSnapshotFlag true
  let s1 := { s with vbuckets := r.2 }
  if r.1 = false then s1
  else s1.emit (Event.schedule DispatcherId.dispatcher (Task.SnapshotVBucketsCallback p) p)

/-- `EventuallyPersistentStore::setVBucketState` (ep.cc 912-938). -/
def setVBucketState (s : EventuallyPersistentStore) (vbid : Nat) (to_ : vbucket_state_t) :
    EventuallyPersistentStore :=
  match s.vbuckets.getBucket vbid with
  | some vb =>
    if to_ = vb.state then s
    else
      let vb1 := vb.setState to_
      let s1 := s.putVB vbid vb1
      let s2 := if vb1.state = vbucket_state_pending ∧ to_ = vbucket_state_active
        then s1.emit Event.notifyNotificationThread else s1
      s2.scheduleVBSnapshot Priority.VBucketPersistLowPriority
  | none =>
    let start_chk_id := if to_ = vbucket_state_active then 2 else 0
    let newvb : VBucket := ⟨vbid, to_, [], [], start_chk_id, [], []⟩
    let m := (s.vbuckets.addBucket newvb).setPersistenceCheckpointId vbid 0
    ({ s with vbuckets := m }).scheduleVBSnapshot Priority.VBucketPersistHighPriority

/-- Modelled from the spec: `VBucket::fireAllOps` (§4.2): the queued pending-op
cookies are handed back so their callers can retry, and the list is emptied. -/
def fireAllOps (s : EventuallyPersistentStore) (i : Nat) (vb : VBucket) :
    EventuallyPersistentStore :=
  { s.putVB i { vb with pendingOps := [] } with
    trace := s.trace ++ vb.pendingOps.map Event.notifyIOComplete }

/-- `EventuallyPersistentStore::firePendingVBucketOps` (ep.cc 631-639). -/
def firePendingVBucketOps (s : EventuallyPersistentStore) : EventuallyPersistentStore :=
  (List.range s.vbuckets.buckets.length).foldl
    (fun acc i => match acc.getVBucketIn i vbucket_state_active with
      | some vb => acc.fireAllOps i vb
      | none => acc) s

/-- `EventuallyPersistentStore::scheduleVBDeletion` (ep.cc 978-991); the
vbucket is passed by value because it has left the map. -/
def scheduleVBDeletion (s : EventuallyPersistentStore) (vb : VBucket) (cookie : Cookie) :
    EventuallyPersistentStore :=
  let s1 := s.emit (Event.schedule DispatcherId.nonIODispatcher
    (Task.VBucketMemoryDeletionCallback vb.id) Priority.VBMemoryDeletionPriority)
  let r := s1.vbuckets.setBucketDeletion vb.id true
  let s2 := { s1 with vbuckets := r.2 }
  if r.1 then
    s2.emit (Event.schedule DispatcherId.dispatcher
      (Task.VBucketDeletionCallback vb.id cookie) Priority.VBucketDeletionPriority)
  else s2

/-- `EventuallyPersistentStore::deleteVBucket` (ep.cc 993-1013). -/
def deleteVBucket (s : EventuallyPersistentStore) (vbid : Nat) (c : Cookie) :
    ENGINE_ERROR_CODE × EventuallyPersistentStore :=
  match s.vbuckets.getBucket vbid with
  | none => (ENGINE_NOT_MY_VBUCKET, s)
  | some vb =>
    if vb.state = vbucket_state_dead then
      let s1 := { s with vbuckets := s.vbuckets.removeBucket vbid }
      let s2 := s1.scheduleVBSnapshot Priority.VBucketPersistHighPriority
      let s3 := s2.scheduleVBDeletion vb c
      if c.isSome then (ENGINE_EWOULDBLOCK, s3) else (ENGINE_SUCCESS, s3)
    else (ENGINE_EINVAL, s)

/-- Modelled from the spec: `incExpirationStat(vb, false)` (declared outside
`src/`), which counts one more expired item. -/
def incExpirationStat (s : EventuallyPersistentStore) : EventuallyPersistentStore :=
  { s with stats := { s.stats with expired := s.stats.expired + 1 } }

/-- A write through a `StoredValue*` held on a value of vbucket `vb`. -/
def modifyValue (s : EventuallyPersistentStore) (vb : Nat) (key : String)
    (f : StoredValue → StoredValue) : EventuallyPersistentStore :=
  match s.getVBucket vb with
  | some b => s.putVB vb { b with ht := HashTable.modify b.ht key f }
  | none => s

/-- `EventuallyPersistentStore::fetchValidValue` (ep.cc 681-698); `now` is
`ep_real_time()`. `StoredValue::touch` is declared outside `src/` and the spec
names no effect of it on the fields kept here. -/
def fetchValidValue (ops : HashTableOps) (s : EventuallyPersistentStore) (vb : Nat)
    (key : String) (wantDeleted trackReference : Bool) (now : Nat) :
    Option StoredValue × EventuallyPersistentStore :=
  match s.getVBucket vb with
  | none => (none, s)
  | some b =>
    let f := HashTable.unlocked_find b.ht key wantDeleted trackReference
    let s1 := s.putVB vb { b with ht := f.2 }
    match f.1 with
    | none => (none, s1)
    | some v =>
      if v.deleted = false then
        if v.isExpired now then
          let s2 := s1.incExpirationStat
          let d := ops.unlocked_softDelete f.2 key 0
          let s3 := (s2.putVB vb { b with ht := d.2 }).emit (Event.ht_softDelete vb key 0 false)
          let v1 := HashTable.deref d.2 key v
          (none, s3.queueDirty vb key b.id queue_op_del v1.seqno v1.id false)
        else (some v, s1)
      else (some v, s1)

/-- `EventuallyPersistentStore::bgFetch` (ep.cc 1178-1208). An assertion that
fails gives no result: `assert(vb)` on the multi-fetch path (ep.cc 1187), and
`assert(cookie)` in the constructor of `BGFetchCallback` (ep.cc 134), which the
single-fetch path runs at ep.cc 1198. The counter `bgFetchQueue` is not kept:
the `BGFetchCounter` of the callback just built (declared outside `src/`) holds
it above zero when `assert(bgFetchQueue > 0)` (ep.cc 1201) reads it. -/
def bgFetch (s : EventuallyPersistentStore) (key : String) (vbucket : Nat) (rowid : Int)
    (cookie : Cookie) (type : bg_fetch_type_t) : Option EventuallyPersistentStore :=
  if s.multiBGFetchEnabled = true ∧ type ≠ bg_fetch_type_t.BG_FETCH_METADATA then
    match s.getVBucket vbucket with
    | none => none
    | some _ => some (s.emit (Event.queueBGFetchItem vbucket key rowid cookie))
  else
    if cookie.isSome then
      some (s.emit (Event.schedule DispatcherId.roDispatcher
        (Task.BGFetchCallback key vbucket rowid cookie type) Priority.BgFetcherGetMetaPriority))
    else none

/-- `EventuallyPersistentStore::getAndUpdateTtl` (ep.cc 1367-1426); `now` is
`ep_real_time()` and `curtime` is `ep_current_time()`. There is no result when
an assertion of `bgFetch` fails. -/
def getAndUpdateTtl (ops : HashTableOps) (s : EventuallyPersistentStore) (key : String)
    (vbucket : Nat) (cookie : Cookie) (queueBG : Bool) (exptime : Nat) (now curtime : Nat) :
    Option (GetValue × EventuallyPersistentStore) :=
  match s.getVBucket vbucket with
  | none => some (⟨none, ENGINE_NOT_MY_VBUCKET, -1⟩, s.incNumNotMyVBuckets)
  | some vb =>
    if vb.state = vbucket_state_dead then
      some (⟨none, ENGINE_NOT_MY_VBUCKET, -1⟩, s.incNumNotMyVBuckets)
    else if vb.state = vbucket_state_replica then
      some (⟨none, ENGINE_NOT_MY_VBUCKET, -1⟩, s.incNumNotMyVBuckets)
    else
      let p := if vb.state = vbucket_state_pending then vb.addPendingOp cookie else (false, vb)
      if p.1 then some (⟨none, ENGINE_EWOULDBLOCK, -1⟩, s.putVB vbucket p.2)
      else
        let f := fetchValidValue ops s vbucket key false true now
        match f.1 with
        | some v =>
          let exptime_mutated := decide (exptime ≠ v.exptime)
          let v1 := if exptime_mutated then v.markDirty else v
          let v2 := v1.setExptime exptime
          let s1 := f.2.modifyValue vbucket key (fun _ => v2)
          if v2.resident then
            let s2 := if exptime_mutated
              then s1.queueDirty vbucket key vbucket queue_op_set v2.seqno v2.id false
              else s1
            some (⟨some (v2.toItem (v2.isLocked curtime) vbucket), ENGINE_SUCCESS, v2.id⟩, s2)
          else if queueBG ∨ exptime_mutated then
            (s1.bgFetch key vbucket v2.id cookie bg_fetch_type_t.BG_FETCH_VALUE).map
              (fun s2 => (⟨none, ENGINE_EWOULDBLOCK, v2.id⟩, s2))
          else some (⟨none, ENGINE_SUCCESS, v2.id⟩, s1)
        | none => some (⟨none, ENGINE_KEY_ENOENT, -1⟩, f.2)

/-- `EventuallyPersistentStore::getLocked` (ep.cc 1455-1508); `now` is
`ep_real_time()` and `newCas` is the cas handed out by `Item::setCas()`. The
lock expiry `currentTime + lockTimeout` is a 32-bit unsigned value
(`lockTimeout` is a `uint32_t`, and `locked-until` is a u32 by §3), hence the
reduction modulo `2^32`. `fetchValidValue` is called with its default arguments
(deleted values not wanted, reference tracked). The default-constructed
`GetValue` carries no item. There is no result when an assertion of `bgFetch`
fails. -/
def getLocked (ops : HashTableOps) (s : EventuallyPersistentStore) (key : String)
    (vbucket : Nat) (currentTime lockTimeout : Nat) (cookie : Cookie) (now newCas : Nat) :
    Option (Bool × EventuallyPersistentStore) :=
  match s.getVBucketIn vbucket vbucket_state_active with
  | none =>
    some (false, s.incNumNotMyVBuckets.emit (Event.callback ⟨none, ENGINE_NOT_MY_VBUCKET, -1⟩))
  | some _ =>
    let f := fetchValidValue ops s vbucket key false true now
    match f.1 with
    | some v =>
      if v.isLocked currentTime then
        some (false, f.2.emit (Event.callback ⟨none, ENGINE_KEY_ENOENT, -1⟩))
      else if v.resident = false then
        let s1 := if cookie.isSome
          then f.2.bgFetch key vbucket v.id cookie bg_fetch_type_t.BG_FETCH_VALUE else some f.2
        s1.map (fun s2 => (false, s2.emit (Event.callback ⟨none, ENGINE_EWOULDBLOCK, v.id⟩)))
      else
        let v1 := v.lock ((currentTime + lockTimeout) % 2 ^ 32)
        let it : Item := { v1.toItem false vbucket with cas := newCas }
        let v2 := v1.setCas it.cas
        let s1 := f.2.modifyValue vbucket key (fun _ => v2)
        some (true, s1.emit (Event.callback ⟨some it, ENGINE_SUCCESS, -1⟩))
    | none => some (true, f.2.emit (Event.callback ⟨none, ENGINE_KEY_ENOENT, -1⟩))

/-- `EventuallyPersistentStore::unlockKey` (ep.cc 1532-1560); `now` is
`ep_real_time()`. -/
def unlockKey (ops : HashTableOps) (s : EventuallyPersistentStore) (key : String)
    (vbucket : Nat) (cas : Nat) (currentTime : Nat) (now : Nat) :
    ENGINE_ERROR_CODE × EventuallyPersistentStore :=
  match s.getVBucketIn vbucket vbucket_state_active with
  | none => (ENGINE_NOT_MY_VBUCKET, s.incNumNotMyVBuckets)
  | some _ =>
    let f := fetchValidValue ops s vbucket key false true now
    match f.1 with
    | some v =>
      if v.isLocked currentTime ∧ v.cas = cas then
        (ENGINE_SUCCESS, f.2.modifyValue vbucket key (fun _ => v.unlock))
      else (ENGINE_TMPFAIL, f.2)
    | none => (ENGINE_KEY_ENOENT, f.2)

/-- `EventuallyPersistentStore::deleteItem` (ep.cc 1591-1657). -/
def deleteItem (ops : HashTableOps) (s : EventuallyPersistentStore) (key : String) (cas : Nat)
    (vbucket : Nat) (cookie : Cookie) (force use_meta : Bool) (itemMeta : ItemMetaData) :
    ENGINE_ERROR_CODE × EventuallyPersistentStore :=
  let newSeqno := itemMeta.seqno
  match s.getVBucket vbucket with
  | none => (ENGINE_NOT_MY_VBUCKET, s.incNumNotMyVBuckets)
  | some vb =>
    if vb.state = vbucket_state_dead then
      (ENGINE_NOT_MY_VBUCKET, s.incNumNotMyVBuckets)
    else if vb.state = vbucket_state_replica ∧ force = false then
      (ENGINE_NOT_MY_VBUCKET, s.incNumNotMyVBuckets)
    else
      let p := if vb.state = vbucket_state_pending ∧ force = false
        then vb.addPendingOp cookie else (false, vb)
      if p.1 then (ENGINE_EWOULDBLOCK, s.putVB vbucket p.2)
      else
        let vb := p.2
        let f := HashTable.unlocked_find vb.ht key use_meta false
        let s1 := s.putVB vbucket { vb with ht := f.2 }
        match f.1 with
        | none =>
          if vb.state ≠ vbucket_state_active ∧ force = true then
            (ENGINE_KEY_ENOENT, s1.queueDirty vbucket key vbucket queue_op_del newSeqno (-1) false)
          else (ENGINE_KEY_ENOENT, s1)
        | some v =>
          let d := if use_meta then ops.unlocked_softDelete_meta f.2 key cas itemMeta
            else ops.unlocked_softDelete f.2 key cas
          let delrv := d.1
          let s2 := (s1.putVB vbucket { vb with ht := d.2 }).emit
            (Event.ht_softDelete vbucket key cas use_meta)
          let r : ENGINE_ERROR_CODE × EventuallyPersistentStore :=
            if delrv = NOT_FOUND ∨ delrv = INVALID_CAS then
              (if delrv = INVALID_CAS then ENGINE_KEY_EEXISTS else ENGINE_KEY_ENOENT, s2)
            else if delrv = IS_LOCKED then (ENGINE_TMPFAIL, s2)
            else
              (ENGINE_SUCCESS,
                if use_meta then
                  { s2 with stats := { s2.stats with numOpsDelMeta := s2.stats.numOpsDelMeta + 1 } }
                else s2)
          if delrv = WAS_CLEAN ∨ delrv = WAS_DIRTY ∨ delrv = NOT_FOUND then
            let v1 := HashTable.deref d.2 key v
            (r.1, r.2.queueDirty vbucket key vbucket queue_op_del v1.seqno v1.id false)
          else r

end EventuallyPersistentStore

/-! ## Reading the trace -/

/-- Whether an event is a call of `queueDirty`. -/
def Event.isQueueDirty : Event → Bool
  | Event.queueDirty _ _ _ _ _ _ _ => true
  | _ => false

/-- Whether an event is a hash-table mutation (`set`, `add`, `softDelete`). -/
def Event.isHashTableCall : Event → Bool
  | Event.ht_set _ _ _ => true
  | Event.ht_set_meta _ _ _ _ _ => true
  | Event.ht_add _ _ => true
  | Event.ht_softDelete _ _ _ _ => true
  | _ => false

/-- Whether an event hands a key to the background fetcher, either queued on
the vbucket (multi-fetch) or scheduled on the read dispatcher. -/
def Event.isBGFetch : Event → Bool
  | Event.queueBGFetchItem _ _ _ _ => true
  | Event.schedule _ (Task.BGFetchCallback _ _ _ _ _) _ => true
  | _ => false

/-- The `queueDirty` calls of a trace, in order. -/
def queueDirtyCalls (t : List Event) : List Event := t.filter Event.isQueueDirty

/-- The hash-table mutations of a trace, in order. -/
def hashTableCalls (t : List Event) : List Event := t.filter Event.isHashTableCall

/-- The stored value currently held for a key of a vbucket, if any. -/
def EventuallyPersistentStore.storedValue (s : EventuallyPersistentStore) (vb : Nat)
    (key : String) : Option StoredValue :=
  (s.getVBucket vb).bind (fun b => HashTable.lookup b.ht key)

/-- The number of engine notifications in a trace. -/
def notifications (t : List Event) : Nat := t.count Event.notifyNotificationThread

/-! ## Concrete inputs -/

/-- A hash table whose mutations report fixed codes, write row id `-1` and
leave the table as it is; used to run the operations on concrete inputs. -/
def fixedOps (m : mutation_type_t) (a : add_type_t) : HashTableOps where
  set := fun ht _ _ => (m, -1, ht)
  set_meta := fun ht _ _ _ _ => (m, -1, ht)
  add := fun ht _ => (a, ht)
  unlocked_softDelete := fun ht _ _ => (m, ht)
  unlocked_softDelete_meta := fun ht _ _ _ => (m, ht)

/-- A vbucket with the given id, state and hash table and empty queues. -/
def mkVBucket (id : Nat) (st : vbucket_state_t) (ht : HashTable) : VBucket :=
  ⟨id, st, ht, [], 0, [], []⟩

/-- A store holding the given vbucket slots, with zeroed counters, persistence
on and an empty trace. -/
def mkStore (bs : List (Option VBucket)) : EventuallyPersistentStore :=
  ⟨⟨bs, bs.map (fun _ => false), bs.map (fun _ => 0), false, false⟩,
   ⟨0, 0, 0, 0, 0, 0, 0⟩, true, false, false, []⟩

/-- A live, clean stored value with the given key, cas, expiry, lock expiry and
residency, persisted under row id 1. -/
def mkStoredValue (key : String) (cas exptime lock_expiry : Nat) (resident : Bool) :
    StoredValue :=
  ⟨key, some "v", cas, 0, exptime, 0, 1, lock_expiry, resident, false, false, false, 0, false⟩

/-- An item with the given key, vbucket id and cas. -/
def mkItem (key : String) (vbid cas : Nat) : Item :=
  ⟨key, vbid, cas, 0, 0, 0, -1, some "v"⟩

/-! ## The flusher path: state -/

/-- Modelled from the spec: the closure kept by a `PersistenceCallback` (ep.cc
1884-2030): the queued item, its queued time, the time the value was dirtied and
the cas captured when the write was issued. The reject queue, store, mutation
log and statistics it points to are the state it is run on. -/
structure PersistenceCallback where
  queuedItem : QueuedItem
  queued : Nat
  dirtied : Nat
  cas : Nat
  deriving DecidableEq, Repr

/-- Calls made on the flusher path to the underlying store, to the mutation log,
to the logger and to `sleep`, in call order. The booleans are the answers of the
store. -/
inductive IOEvent where
  | storeBegin (ok : Bool)
  | storeCommit (ok : Bool)
  | storeSet (itm : Item) (cb : PersistenceCallback)
  | storeDel (itm : Item) (rowid : Int) (cb : PersistenceCallback)
  | storeReset
  | log_commit1
  | log_commit2
  | log_newItem (vb : Nat) (key : String) (rowid : Int)
  | log_delItem (vb : Nat) (key : String)
  | log_deleteAll (vb : Nat)
  | sleep (seconds : Nat)
  | warning
  deriving DecidableEq, Repr

/-- The members of `TransactionContext` written by `enter`, `commit`,
`addCallback` and `addUncommittedItem`; its timing members are not kept. -/
structure TransactionContext where
  intxn : Bool
  uncommittedItems : List QueuedItem
  numUncommittedItems : Nat
  transactionCallbacks : List PersistenceCallback
  deriving DecidableEq, Repr

/-- The counters and settings of `EPStats` read or written on the flusher path
(`min_data_age` and `queue_age_cap` are `int` settings). -/
structure PersistenceStats where
  flushExpired : Nat
  tooOld : Nat
  tooYoung : Nat
  commitFailed : Nat
  flusherCommits : Nat
  beginFailed : Nat
  totalPersisted : Nat
  newItems : Nat
  delItems : Nat
  flushFailed : Nat
  min_data_age : Int
  queue_age_cap : Int
  mem_low_wat : Nat
  totalMemoryUsed : Nat
  deriving DecidableEq, Repr

/-- The members of `EventuallyPersistentStore` used on the flusher path, around
the facade state `store`: transaction context, statistics, the reject queue the
flusher passes around, the outgoing queue `writing`, the configuration read, and
the trace `io` of outside calls. `beginAnswers` and `commitAnswers` are the
answers the underlying store gives to its next `begin()` and `commit()` calls. -/
structure FlusherState where
  store : EventuallyPersistentStore
  tctx : TransactionContext
  pstats : PersistenceStats
  io : List IOEvent
  rejectQueue : List QueuedItem
  writing : List QueuedItem
  beginAnswers : List Bool
  commitAnswers : List Bool
  itemExpiryWindow : Nat
  txnSize : Nat
  diskFlushAll : Bool
  deriving DecidableEq, Repr

/-- What one flusher step reads from outside `src/`: the hash-table mutations,
`QueuedItem::getQueuedTime`, and the clocks `ep_real_time()` and
`ep_current_time()`. -/
structure FlushEnv where
  ops : HashTableOps
  getQueuedTime : QueuedItem → Nat
  realTime : Nat
  curTime : Nat

/-- The value of a 32-bit unsigned quantity converted to `int`. -/
def toInt32 (x : Nat) : Int :=
  if x % 2 ^ 32 < 2 ^ 31 then (x % 2 ^ 32 : Nat) else ((x % 2 ^ 32 : Nat) : Int) - 2 ^ 32

/-- The expression `now - then` on two `rel_time_t` values stored in an `int`
(ep.cc 2096-2097): a 32-bit unsigned difference read as a signed number. -/
def relAge (now earlier : Nat) : Int :=
  toInt32 ((now % 2 ^ 32 + 2 ^ 32 - earlier % 2 ^ 32) % 2 ^ 32)

/-! ## The flusher path: stored-value helpers -/

/-- Modelled from the spec: `StoredValue::markClean(&dataAge)`: the value stops
being dirty (§3) and its data age is handed back. -/
def StoredValue.markClean (v : StoredValue) : Nat × StoredValue :=
  (v.dataAge, { v with dirty := false })

/-- Modelled from the spec: `StoredValue::reDirty(dataAge)`: the value is dirty
again with the data age it had (§7, "mark it re-dirty"). -/
def StoredValue.reDirty (v : StoredValue) (dataAge : Nat) : StoredValue :=
  { v with dirty := true, dataAge := dataAge }

/-- Modelled from the spec: `StoredValue::clearId`; row id `−1` means not
persisted (§3). -/
def StoredValue.clearId (v : StoredValue) : StoredValue :=
  { v with id := -1 }

/-- Modelled from the spec: `StoredValue::setId`: the assigned row id is stamped
(§4.4), which ends the row-id assignment in flight. -/
def StoredValue.setId (v : StoredValue) (id : Int) : StoredValue :=
  { v with id := id, pendingId := false }

/-- Modelled from the spec: `StoredValue::setPendingId` (§4.4, "set the
`pending-id` flag"). -/
def StoredValue.setPendingId (v : StoredValue) : StoredValue :=
  { v with pendingId := true }

/-- Modelled from the spec: `StoredValue::clearPendingId`. -/
def StoredValue.clearPendingId (v : StoredValue) : StoredValue :=
  { v with pendingId := false }

/-- Modelled from the spec: `StoredValue::ejectValue`: the payload of a clean
resident value is dropped and its metadata kept (glossary, "Ejection"); the call
reports whether it ejected. -/
def StoredValue.ejectValue (v : StoredValue) : Bool × StoredValue :=
  if v.dirty = false ∧ v.resident = true then
    (true, { v with resident := false, value := none })
  else (false, v)

/-- Modelled from the spec: `StoredValue::unlocked_restoreValue`: the fetched
value becomes the payload and the value is resident again (§4.5). -/
def StoredValue.unlocked_restoreValue (v : StoredValue) (itm : Item) : StoredValue :=
  { v with value := itm.value, resident := true }

namespace FlusherState

/-- Append one outside call to the flusher trace. -/
def emit (st : FlusherState) (e : IOEvent) : FlusherState :=
  { st with io := st.io ++ [e] }

/-- A write through a `StoredValue*` of the facade state. -/
def modifyValue (st : FlusherState) (vb : Nat) (key : String)
    (f : StoredValue → StoredValue) : FlusherState :=
  { st with store := st.store.modifyValue vb key f }

/-- Modelled from the spec: `VBucketMap::isBucketDeletion`, the per-id
`bucket-deletion` flag (§3). -/
def isBucketDeletion (st : FlusherState) (vbid : Nat) : Bool :=
  st.store.vbuckets.bucketDeletion.getD vbid false

/-- Modelled from the spec: `VBucketMap::isHighPriorityVbSnapshotScheduled`,
the flag of a scheduled high-priority snapshot (§3). -/
def isHighPriorityVbSnapshotScheduled (st : FlusherState) : Bool :=
  st.store.vbuckets.highPriorityVbSnapshot

/-- `rejectQueue->push(qi)`. -/
def reject (st : FlusherState) (qi : QueuedItem) : FlusherState :=
  { st with rejectQueue := st.rejectQueue ++ [qi] }

/-- Modelled from the spec: `TransactionContext::addCallback`, which collects
the per-item callback of the batch (§4.4). -/
def addCallback (st : FlusherState) (cb : PersistenceCallback) : FlusherState :=
  { st with tctx := { st.tctx with
      transactionCallbacks := st.tctx.transactionCallbacks ++ [cb] } }

/-- `TransactionContext::addUncommittedItem` (ep.cc 2572-2575). -/
def addUncommittedItem (st : FlusherState) (qi : QueuedItem) : FlusherState :=
  { st with tctx := { st.tctx with
      uncommittedItems := st.tctx.uncommittedItems ++ [qi]
      numUncommittedItems := st.tctx.numUncommittedItems + 1 } }

/-- `TransactionContext::enter` (ep.cc 2527-2533); no answer is available when
the store's `begin()` answers are used up. -/
def enter (st : FlusherState) : Option (Bool × FlusherState) :=
  if st.tctx.intxn = false then
    match st.beginAnswers with
    | [] => none
    | b :: rest =>
      some (b, { st.emit (IOEvent.storeBegin b) with
        tctx := { st.tctx with intxn := b }
        beginAnswers := rest })
  else some (st.tctx.intxn, st)

/-- The loop `while (!underlying->commit())` of `TransactionContext::commit`
(ep.cc 2541-2546), run on the answers the store will give: each failure is
logged, followed by `sleep(1)` and `++stats.commitFailed`. No result is
available when the answers are used up before a success. -/
def commitLoop (st : FlusherState) : List Bool → Option FlusherState
  | [] => none
  | true :: rest => some { st.emit (IOEvent.storeCommit true) with commitAnswers := rest }
  | false :: rest =>
    commitLoop
      { ((st.emit (IOEvent.storeCommit false)).emit IOEvent.warning).emit (IOEvent.sleep 1) with
        pstats := { st.pstats with commitFailed := st.pstats.commitFailed + 1 }
        commitAnswers := rest } rest

/-- `TransactionContext::commit` (ep.cc 2535-2570); the timing statistics and
the disk usage it records are not kept. -/
def commit (st : FlusherState) : Option FlusherState :=
  match commitLoop (st.emit IOEvent.log_commit1) st.commitAnswers with
  | none => none
  | some st1 =>
    let st2 := st1.emit IOEvent.log_commit2
    some { st2 with
      pstats := { st2.pstats with flusherCommits := st2.pstats.flusherCommits + 1 }
      tctx := ⟨false, [], 0, []⟩ }

end FlusherState

namespace FlusherState

/-- The flusher state around another facade state. -/
def withStore (st : FlusherState) (s : EventuallyPersistentStore) : FlusherState :=
  { st with store := s }

/-- The statement `++stats.flushExpired`. -/
def incFlushExpired (st : FlusherState) : FlusherState :=
  { st with pstats := { st.pstats with flushExpired := st.pstats.flushExpired + 1 } }

/-- The statement `++stats.tooOld`. -/
def incTooOld (st : FlusherState) : FlusherState :=
  { st with pstats := { st.pstats with tooOld := st.pstats.tooOld + 1 } }

/-- The statement `++stats.tooYoung`. -/
def incTooYoung (st : FlusherState) : FlusherState :=
  { st with pstats := { st.pstats with tooYoung := st.pstats.tooYoung + 1 } }

/-- The statement `stats->totalPersisted++`. -/
def incTotalPersisted (st : FlusherState) : FlusherState :=
  { st with pstats := { st.pstats with totalPersisted := st.pstats.totalPersisted + 1 } }

/-- The statement `++stats->newItems`. -/
def incNewItems (st : FlusherState) : FlusherState :=
  { st with pstats := { st.pstats with newItems := st.pstats.newItems + 1 } }

/-- The statement `++stats->delItems`. -/
def incDelItems (st : FlusherState) : FlusherState :=
  { st with pstats := { st.pstats with delItems := st.pstats.delItems + 1 } }

/-- The statement `++stats->flushFailed`. -/
def incFlushFailed (st : FlusherState) : FlusherState :=
  { st with pstats := { st.pstats with flushFailed := st.pstats.flushFailed + 1 } }

/-- `EventuallyPersistentStore::flushOneDelOrSet` (ep.cc 2050-2174), block by
block: the lookup and the item built from it (2053-2078), the expiry fold-in
(2082-2090), the age gate (2092-2126) and the store call (2128-2171). A store
call is recorded with its callback; the invocation of the callback by the store
is `PersistenceCallback.callback` and `PersistenceCallback.callbackDel`. The
subtraction `min_data_age - dataAge` is the mathematical one, and the per-vbucket
operation counters are not kept. -/
def flushOneDelOrSet (env : FlushEnv) (st : FlusherState) (qi : QueuedItem) :
    Int × FlusherState :=
  match st.store.getVBucket qi.vbid with
  | none => (0, st)
  | some _ =>
    let f := st.store.fetchValidValue env.ops qi.vbid qi.key true false env.realTime
    let st0 : FlusherState := st.withStore f.2
    let queued := env.getQueuedTime qi
    match f.1 with
    | none =>
      if st0.isBucketDeletion qi.vbid = false then
        let cb : PersistenceCallback := ⟨qi, queued, 0, 0⟩
        (0, (st0.addCallback cb).emit
          (IOEvent.storeDel ⟨qi.key, qi.vbid, 0, 0, 0, 0, -1, none⟩ (-1) cb))
      else (0, st0)
    | some v =>
      let rowid := v.id
      let itm : Item := ⟨qi.key, qi.vbid, v.cas, v.seqno, v.exptime, v.flags, rowid, v.value⟩
      -- expiry fold-in
      let fold := (!v.deleted && v.dirty) && v.isExpired (env.realTime + st0.itemExpiryWindow)
      let st1 : FlusherState :=
        if fold then
          st0.incFlushExpired.modifyValue qi.vbid qi.key (fun w => w.markClean.2.clearId)
        else st0
      let isDirty1 := if fold then false else v.dirty
      let deleted1 := if fold then true else v.deleted
      let dirtied1 := if fold then v.markClean.1 else 0
      -- age gate
      let dataAge := relAge env.curTime v.dataAge
      let dirtyAge := relAge env.curTime queued
      let tooOld := !v.pendingId && decide (dirtyAge > st1.pstats.queue_age_cap)
      let tooYoung := (!v.pendingId && !decide (dirtyAge > st1.pstats.queue_age_cap)) &&
        decide (dataAge < st1.pstats.min_data_age)
      let eligible := !(v.pendingId || tooYoung)
      let ret : Int := if isDirty1 && tooYoung then st1.pstats.min_data_age - dataAge else 0
      let dirtied2 := if isDirty1 then v.dataAge else dirtied1
      let st2 : FlusherState :=
        if isDirty1 then
          let sa : FlusherState :=
            if tooOld then st1.incTooOld
            else if tooYoung then st1.incTooYoung
            else st1
          if eligible then sa
          else (sa.modifyValue qi.vbid qi.key (fun w => w.reDirty dirtied2)).reject qi
        else st1
      let isDirty2 := isDirty1 && eligible
      -- store call
      let st3 : FlusherState :=
        if isDirty2 && !deleted1 then
          if st2.isBucketDeletion qi.vbid = false then
            if st2.isHighPriorityVbSnapshotScheduled then
              (st2.modifyValue qi.vbid qi.key StoredValue.clearPendingId).reject qi
            else
              let sb := if rowid = -1
                then st2.modifyValue qi.vbid qi.key StoredValue.setPendingId else st2
              let cb : PersistenceCallback := ⟨qi, queued, dirtied2, itm.cas⟩
              (sb.addCallback cb).emit (IOEvent.storeSet itm cb)
          else st2
        else if deleted1 then
          if st2.isBucketDeletion qi.vbid = false then
            let cb : PersistenceCallback := ⟨qi, queued, dirtied2, 0⟩
            (st2.addCallback cb).emit (IOEvent.storeDel itm rowid cb)
          else st2
        else st2
      (ret, st3)

/-- Modelled from the spec: `VBucketMap::getBuckets`, the ids of the vbuckets in
the map. -/
def getBuckets (st : FlusherState) : List Nat :=
  (List.range st.store.vbuckets.buckets.length).filter
    (fun i => (st.store.vbuckets.getBucket i).isSome)

/-- `EventuallyPersistentStore::flushOneDeleteAll` (ep.cc 2032-2045). -/
def flushOneDeleteAll (st : FlusherState) : Int × FlusherState :=
  let st1 := st.emit IOEvent.storeReset
  let st2 := { st1 with io := st1.io ++ st1.getBuckets.map IOEvent.log_deleteAll }
  let st3 := (st2.emit IOEvent.log_commit1).emit IOEvent.log_commit2
  (1, { st3 with diskFlushAll := false })

/-- The statement `stats.flusher_todo--` on a 64-bit unsigned counter. -/
def decFlusherTodo (st : FlusherState) : FlusherState :=
  { st with store := { st.store with stats := { st.store.stats with
      flusher_todo := (st.store.stats.flusher_todo + 2 ^ 64 - 1) % 2 ^ 64 } } }

/-- `EventuallyPersistentStore::flushOne` (ep.cc 2176-2216) on a non-empty
queue; the memory-overhead statistic is not kept. `assert(false)` on
`queue_op_empty` gives no result. -/
def flushOne (env : FlushEnv) (st : FlusherState) (q : List QueuedItem) :
    Option (Int × FlusherState × List QueuedItem) :=
  match q with
  | [] => none
  | qi :: q1 =>
    match qi.op with
    | queue_op_flush =>
      let r := st.flushOneDeleteAll
      some (r.1, r.2.decFlusherTodo, q1)
    | queue_op_set =>
      let prevRejectCount := st.rejectQueue.length
      let r := st.flushOneDelOrSet env qi
      let st1 := if r.2.rejectQueue.length = prevRejectCount
        then r.2.addUncommittedItem qi else r.2
      some (r.1, st1.decFlusherTodo, q1)
    | queue_op_del =>
      let r := st.flushOneDelOrSet env qi
      some (r.1, r.2.decFlusherTodo, q1)
    | queue_op_commit =>
      match st.commit with
      | none => none
      | some st1 =>
        match st1.enter with
        | none => none
        | some e => some (0, e.2.decFlusherTodo, q1)
    | queue_op_empty => none

/-- The loop of `flushSome` (ep.cc 1832-1837): at most `n` further items are
flushed while the queue is not empty, and `oldest` keeps the least non-zero
value returned. -/
def flushLoop (env : FlushEnv) : Nat → FlusherState → List QueuedItem → Int →
    Option (Int × FlusherState × List QueuedItem)
  | 0, st, q, oldest => some (oldest, st, q)
  | _ + 1, st, [], oldest => some (oldest, st, [])
  | n + 1, st, qi :: q1, oldest =>
    match st.flushOne env (qi :: q1) with
    | none => none
    | some r =>
      flushLoop env n r.2.1 r.2.2 (if r.1 ≠ 0 ∧ r.1 < oldest then r.1 else oldest)

/-- `EventuallyPersistentStore::flushSome` (ep.cc 1816-1840): the value
returned, the state and the input queue left behind. -/
def flushSome (env : FlushEnv) (st : FlusherState) (q : List QueuedItem) :
    Option (Int × FlusherState × List QueuedItem) :=
  match st.enter with
  | none => none
  | some e =>
    if e.1 = false then
      let st1 := { e.2 with pstats := { e.2.pstats with
        beginFailed := e.2.pstats.beginFailed + 1 } }
      let st2 := st1.emit IOEvent.warning
      some (1, { st2 with rejectQueue := st2.rejectQueue ++ q }, [])
    else
      match flushLoop env e.2.txnSize e.2 q e.2.pstats.min_data_age with
      | none => none
      | some r =>
        match r.2.1.commit with
        | none => none
        | some st3 => some (r.1, st3, r.2.2)

/-- The loop of `flushSome` with the returned values collected instead of
folded: the values `flushOne` returns for the batch, in order. -/
def flushReturns (env : FlushEnv) : Nat → FlusherState → List QueuedItem →
    Option (List Int × FlusherState × List QueuedItem)
  | 0, st, q => some ([], st, q)
  | _ + 1, st, [] => some ([], st, [])
  | n + 1, st, qi :: q1 =>
    match st.flushOne env (qi :: q1) with
    | none => none
    | some r =>
      match flushReturns env n r.2.1 r.2.2 with
      | none => none
      | some t => some (r.1 :: t.1, t.2.1, t.2.2)

/-- `EventuallyPersistentStore::pushToOutgoingQueue` (ep.cc 1749-1768) on the
list `optimizeWrites` left behind: the loop over the items, returning the queue
`writing`. An item is pushed when `writing` is empty or its last item has
another key; the statistics kept for a skipped item are not modelled. -/
def pushLoop : List QueuedItem → List QueuedItem → List QueuedItem
  | writing, [] => writing
  | writing, it :: rest =>
    if writing.isEmpty ∨ (writing.getLast?.map QueuedItem.key) ≠ some it.key then
      pushLoop (writing ++ [it]) rest
    else pushLoop writing rest

/-- `EventuallyPersistentStore::pushToOutgoingQueue` (ep.cc 1749-1768);
`optimizeWrites` is the store-defined reordering. The input vector is cleared,
so the second component is the emptied vector. -/
def pushToOutgoingQueue (optimizeWrites : List QueuedItem → List QueuedItem)
    (st : FlusherState) (items : List QueuedItem) : FlusherState × List QueuedItem :=
  ({ st with writing := pushLoop st.writing (optimizeWrites items) }, [])

end FlusherState

/-- The least of `m` and the non-zero members of `rets`. -/
def minNonZero (m : Int) (rets : List Int) : Int :=
  (rets.filter (fun n => n ≠ 0)).foldl min m

/-- The items of a list that are kept when every item whose key equals the key
of its predecessor is dropped; `prev` is the key before the list. -/
def firstOfRuns : Option String → List QueuedItem → List QueuedItem
  | _, [] => []
  | prev, it :: rest =>
    if prev = some it.key then firstOfRuns prev rest
    else it :: firstOfRuns (some it.key) rest

/-- Modelled from the spec: `StoredValue::isReferenced()` without reset, the
referenced bit of §3. -/
def StoredValue.isReferenced (v : StoredValue) : Bool := v.referenced

/-! ## Completion of background fetches -/

/-- One entry of the batch handed to `completeBGFetchMulti`: the key, the answer
of the disk read and the cookie waiting for it. -/
structure VBucketBGFetchItem where
  key : String
  value : GetValue
  cookie : Cookie
  deriving DecidableEq, Repr

namespace EventuallyPersistentStore

/-- The block that restores a fetched value, as written in `completeBGFetch`
(ep.cc 1102-1112) and again in `completeBGFetchMulti` (ep.cc 1150-1160), run on
the stored value `v` the lookup returned. An assertion that fails, and the use
of a fetched item that is not there, give no result. -/
def restoreFetchedValue (s : EventuallyPersistentStore) (key : String) (vbucket : Nat)
    (v : StoredValue) (gcb : GetValue) : Option EventuallyPersistentStore :=
  if v.resident = false then
    if gcb.status = ENGINE_SUCCESS then
      match gcb.value with
      | none => none
      | some itm =>
        let v1 := v.unlocked_restoreValue itm
        let s1 := s.modifyValue vbucket key (fun w => w.unlocked_restoreValue itm)
        if v1.resident then
          if v1.exptime ≠ itm.exptime then
            if v1.dirty then
              some (s1.queueDirty vbucket key vbucket queue_op_set v1.seqno v1.id false)
            else none
          else some s1
        else none
    else none
  else some s

/-- `EventuallyPersistentStore::completeBGFetch` (ep.cc 1063-1123); `gcb` is the
answer `roUnderlying->get` gave for the key and `now` is `ep_real_time()`.
`StoredValue::unlocked_restoreMeta` is declared outside `src/` and taken as the
parameter `restoreMeta`, which returns its result and the stored value it
leaves. The background-fetch statistics are not kept. -/
def completeBGFetch (ops : HashTableOps)
    (restoreMeta : StoredValue → Option Item → ENGINE_ERROR_CODE → Bool × StoredValue)
    (s : EventuallyPersistentStore) (key : String) (vbucket : Nat) (cookie : Cookie)
    (type : bg_fetch_type_t) (gcb : GetValue) (now : Nat) :
    Option EventuallyPersistentStore :=
  let status := gcb.status
  let r : Option (ENGINE_ERROR_CODE × EventuallyPersistentStore) :=
    match s.getVBucket vbucket with
    | none => some (status, s)
    | some vb =>
      if vb.state = vbucket_state_active then
        let f := s.fetchValidValue ops vbucket key true true now
        match f.1 with
        | none => some (status, f.2)
        | some v =>
          if type = bg_fetch_type_t.BG_FETCH_METADATA then
            if v.resident = false then
              let m := restoreMeta v gcb.value gcb.status
              let s1 := f.2.modifyValue vbucket key (fun _ => m.2)
              some (if m.1 then ENGINE_SUCCESS else status, s1)
            else some (status, f.2)
          else (f.2.restoreFetchedValue key vbucket v gcb).map (fun s1 => (status, s1))
      else some (status, s)
  r.map (fun p => p.2.emit (Event.ioComplete cookie p.1))

/-- The body of the loop of `completeBGFetchMulti` (ep.cc 1140-1169) for one
fetched item. -/
def completeBGFetchMultiItem (ops : HashTableOps) (s : EventuallyPersistentStore)
    (vbId : Nat) (now : Nat) (it : VBucketBGFetchItem) : Option EventuallyPersistentStore :=
  let status := it.value.status
  let r : Option EventuallyPersistentStore :=
    if (s.getVBucket vbId).map VBucket.state = some vbucket_state_active then
      let f := s.fetchValidValue ops vbId it.key true true now
      match f.1 with
      | none => some f.2
      | some v => f.2.restoreFetchedValue it.key vbId v it.value
    else some s
  r.map (fun s1 => s1.emit (Event.ioComplete it.cookie status))

/-- `EventuallyPersistentStore::completeBGFetchMulti` (ep.cc 1125-1176); the
background-fetch statistics are not kept. -/
def completeBGFetchMulti (ops : HashTableOps) (s : EventuallyPersistentStore) (vbId : Nat)
    (fetchedItems : List VBucketBGFetchItem) (now : Nat) :
    Option EventuallyPersistentStore :=
  match s.getVBucket vbId with
  | none => some s
  | some _ =>
    fetchedItems.foldlM (fun s1 it => s1.completeBGFetchMultiItem ops vbId now it) s

end EventuallyPersistentStore

/-- Whether an event is a notification that the I/O of a cookie completed. -/
def Event.isIOComplete : Event → Bool
  | Event.ioComplete _ _ => true
  | _ => false

/-- The completion notifications of a trace, in order. -/
def ioCompletions (t : List Event) : List Event := t.filter Event.isIOComplete

/-- A stored value that is not resident, with the given key, cas, expiry and
dirty flag, persisted under row id 1. -/
def mkNonResident (key : String) (cas exptime : Nat) (dirty : Bool) : StoredValue :=
  ⟨key, none, cas, 0, exptime, 0, 1, 0, false, dirty, false, false, 0, false⟩

/-- An `unlocked_restoreMeta` that restores nothing. -/
def noRestoreMeta (v : StoredValue) (_itm : Option Item) (_status : ENGINE_ERROR_CODE) :
    Bool × StoredValue := (false, v)

/-! ## The access scanner -/

/-- Modelled from the spec: a mutation log record (`MutationLog` is declared
outside `src/`), §3: type `new`, `del`, `commit1` or `commit2`, with vbucket id,
key and row id where they apply. -/
inductive LogRecord where
  | new (vb : Nat) (key : String) (rowid : Int)
  | del (vb : Nat) (key : String)
  | commit1
  | commit2
  deriving DecidableEq, Repr

/-- Whether a record is a `new` record. -/
def LogRecord.isNew : LogRecord → Bool
  | LogRecord.new _ _ _ => true
  | _ => false

/-- Modelled from the spec: the counter `itemsLogged[ML_NEW]` of a mutation log,
the number of `new` records written to it. -/
def itemsLogged_ML_NEW (recs : List LogRecord) : Nat := (recs.filter LogRecord.isNew).length

/-- The three files of the access log, `<path>`, `<path>.old` and `<path>.next`:
the records each file holds, or nothing when the file does not exist. -/
structure AccessLogFiles where
  name : Option (List LogRecord)
  prev : Option (List LogRecord)
  next : Option (List LogRecord)
  deriving DecidableEq, Repr

/-- Whether the operating system lets each call of the rotation succeed:
`remove(prev)`, `rename(name, prev)`, `rename(next, name)` and the cleanup
`remove(next)`. -/
structure RotationCalls where
  removePrev : Bool
  renameNamePrev : Bool
  renameNextName : Bool
  removeNext : Bool
  deriving DecidableEq, Repr

/-- The members of `ItemAccessVisitor` (access_scanner.cc 86-94) next to the
file names: the scan's start time, the vbucket being visited, the records
written so far to the open log on `<path>.next` (nothing when the log is
`NULL`), and the counter `stats.alogRuns`. -/
structure ItemAccessVisitor where
  startTime : Nat
  currentBucket : VBucket
  log : Option (List LogRecord)
  alogRuns : Nat
  deriving DecidableEq, Repr

namespace ItemAccessVisitor

/-- `ItemAccessVisitor::visit` (access_scanner.cc 30-40). The reset of the
referenced bit that `isReferenced(true, ht)` asks for is not kept. -/
def visit (vis : ItemAccessVisitor) (v : StoredValue) : ItemAccessVisitor :=
  match vis.log with
  | none => vis
  | some recs =>
    if v.isReferenced then
      if v.isExpired vis.startTime || v.deleted then vis
      else { vis with log := some (recs ++ [LogRecord.new vis.currentBucket.id v.key v.id]) }
    else vis

/-- The cleanup `remove(next.c_str())`, whose result the code does not read. -/
def removeNext (ok : RotationCalls) (fs : AccessLogFiles) : AccessLogFiles :=
  if ok.removeNext then { fs with next := none } else fs

/-- `ItemAccessVisitor::complete` (access_scanner.cc 50-84) on the three files.
The two commits close the new log on `<path>.next`; `access(p, F_OK) == 0` is
the existence of the file; a `remove` that succeeds deletes the file and a
`rename` that succeeds moves it, and a call that fails changes nothing. -/
def complete (ok : RotationCalls) (vis : ItemAccessVisitor) (fs : AccessLogFiles) :
    ItemAccessVisitor × AccessLogFiles :=
  match vis.log with
  | none => (vis, fs)
  | some recs =>
    let num_items := itemsLogged_ML_NEW recs
    let fs1 : AccessLogFiles :=
      { fs with next := some (recs ++ [LogRecord.commit1, LogRecord.commit2]) }
    let vis1 : ItemAccessVisitor := { vis with log := none, alogRuns := vis.alogRuns + 1 }
    if num_items = 0 then (vis1, removeNext ok fs1)
    else if fs1.prev.isSome ∧ ok.removePrev = false then (vis1, removeNext ok fs1)
    else
      let fs2 : AccessLogFiles := if fs1.prev.isSome then { fs1 with prev := none } else fs1
      if fs2.name.isSome ∧ ok.renameNamePrev = false then (vis1, removeNext ok fs2)
      else
        let fs3 : AccessLogFiles :=
          if fs2.name.isSome then { fs2 with prev := fs2.name, name := none } else fs2
        if ok.renameNextName = false then (vis1, removeNext ok fs3)
        else (vis1, { fs3 with name := fs3.next, next := none })

end ItemAccessVisitor

/-- Every call of the rotation succeeds. -/
def allCallsSucceed : RotationCalls := ⟨true, true, true, true⟩

/-- A visitor with an open log holding the given records, visiting the given
vbucket, in a scan started at `startTime`. -/
def mkVisitor (startTime : Nat) (vb : VBucket) (recs : List LogRecord) : ItemAccessVisitor :=
  ⟨startTime, vb, some recs, 0⟩

/-! ## The flusher path: persistence callbacks -/

/-- Modelled from the spec: `HashTable::unlocked_del(key, bucket)`, the hard
removal of the entry of a key (§4.4, "remove the entry from the hash table");
the call reports whether an entry was removed. -/
def HashTable.unlocked_del (ht : HashTable) (key : String) : Bool × HashTable :=
  ((HashTable.lookup ht key).isSome, ht.eraseP (fun v => v.key == key))

namespace PersistenceCallback

/-- `PersistenceCallback::redirty` (ep.cc 2012-2019).
`invokeOnLockedStoredValue` is declared outside `src/`; it applies the member
function to the stored value of the key when the vbucket and the value exist. -/
def redirty (cb : PersistenceCallback) (st : FlusherState) : FlusherState :=
  (st.incFlushFailed.modifyValue cb.queuedItem.vbid cb.queuedItem.key
    (fun w => w.reDirty cb.dirtied)).reject cb.queuedItem

/-- `PersistenceCallback::callback(mutation_result&)` (ep.cc 1899-1951), the
callback of a store set; `value` is the pair (rows changed, row id assigned).
The vbucket state is read from the vbucket resolved at the start, which no
statement in between writes. The comparison of the two `double`s is the
comparison of the two counters. -/
def callback (cb : PersistenceCallback) (env : FlushEnv) (st : FlusherState)
    (value : Int × Int) : FlusherState :=
  let qi := cb.queuedItem
  if value.1 = 1 then
    let st1 := st.incTotalPersisted
    match st1.store.getVBucket qi.vbid with
    | none => st1
    | some b =>
      let f := st1.store.fetchValidValue env.ops qi.vbid qi.key true false env.realTime
      let st2 := st1.withStore f.2
      match f.1 with
      | none => st2
      | some v =>
        let st3 : FlusherState :=
          if value.2 > 0 then
            (st2.emit (IOEvent.log_newItem qi.vbid qi.key value.2)).incNewItems.modifyValue
              qi.vbid qi.key (fun w => w.setId value.2)
          else st2
        let v1 := if value.2 > 0 then v.setId value.2 else v
        if v1.cas = cb.cas then
          let st4 := st3.modifyValue qi.vbid qi.key (fun w => w.markClean.2)
          if b.state ≠ vbucket_state_active ∧ b.state ≠ vbucket_state_pending then
            if st4.pstats.totalMemoryUsed > st4.pstats.mem_low_wat ∧
                v1.isReferenced = false then
              st4.modifyValue qi.vbid qi.key (fun w => w.ejectValue.2)
            else st4
          else st4
        else st3
  else
    match st.store.getVBucket qi.vbid with
    | none => (st.emit IOEvent.warning) |> cb.redirty
    | some _ =>
      if value.1 = 0 then
        let f := st.store.fetchValidValue env.ops qi.vbid qi.key true false env.realTime
        (st.withStore f.2).emit IOEvent.warning
      else (st.emit IOEvent.warning) |> cb.redirty

/-- `PersistenceCallback::callback(int&)` (ep.cc 1957-2008), the callback of a
store delete; `assert(value < 2)` and `assert(deleted)` give no result when
they fail. The per-vbucket counter `opsDelete` and the degraded-mode restore
set are not kept. -/
def callbackDel (cb : PersistenceCallback) (env : FlushEnv) (st : FlusherState)
    (value : Int) : Option FlusherState :=
  let qi := cb.queuedItem
  if value < 2 then
    if value ≥ 0 then
      let st1 : FlusherState := if value > 0 then st.incTotalPersisted.incDelItems else st
      let st2 := st1.emit (IOEvent.log_delItem qi.vbid qi.key)
      match st2.store.getVBucket qi.vbid with
      | none => some st2
      | some _ =>
        let f := st2.store.fetchValidValue env.ops qi.vbid qi.key true false env.realTime
        let st3 := st2.withStore f.2
        match f.1 with
        | none => some st3
        | some v =>
          if v.deleted then
            match st3.store.getVBucket qi.vbid with
            | none => none
            | some b3 =>
              let d := HashTable.unlocked_del b3.ht qi.key
              if d.1 then some (st3.withStore (st3.store.putVB qi.vbid { b3 with ht := d.2 }))
              else none
          else some (st3.modifyValue qi.vbid qi.key StoredValue.clearId)
    else some ((st.emit IOEvent.warning) |> cb.redirty)
  else none

end PersistenceCallback

/-! ## Reading the flusher trace -/

/-- Whether an outside call is a store set. -/
def IOEvent.isStoreSet : IOEvent → Bool
  | IOEvent.storeSet _ _ => true
  | _ => false

/-- Whether an outside call is a store delete. -/
def IOEvent.isStoreDel : IOEvent → Bool
  | IOEvent.storeDel _ _ _ => true
  | _ => false

/-- The store sets and store deletes of a flusher trace, in call order. -/
def storeWrites (t : List IOEvent) : List IOEvent :=
  t.filter (fun e => e.isStoreSet || e.isStoreDel)

/-- The item `flushOneDelOrSet` builds from a stored value it found (ep.cc
2071-2078). -/
def flushItem (qi : QueuedItem) (v : StoredValue) : Item :=
  ⟨qi.key, qi.vbid, v.cas, v.seqno, v.exptime, v.flags, v.id, v.value⟩

/-- Whether an outside call is an attempt to commit the underlying store. -/
def IOEvent.isStoreCommit : IOEvent → Bool
  | IOEvent.storeCommit _ => true
  | _ => false

/-- The calls made around `k` failed commit attempts: each attempt is followed
by a warning and a one-second sleep. -/
def failedCommits : Nat → List IOEvent
  | 0 => []
  | k + 1 =>
    IOEvent.storeCommit false :: IOEvent.warning :: IOEvent.sleep 1 :: failedCommits k

/-- A flusher state around the given facade state: no transaction open, empty
queues and trace, zeroed counters, `min_data_age` and `queue_age_cap` as given,
and the given answers of the store to `begin()` and `commit()`. -/
def mkFlusher (s : EventuallyPersistentStore) (min_data_age queue_age_cap : Int)
    (beginAnswers commitAnswers : List Bool) : FlusherState :=
  ⟨s, ⟨false, [], 0, []⟩, ⟨0, 0, 0, 0, 0, 0, 0, 0, 0, 0, min_data_age, queue_age_cap, 0, 0⟩,
   [], [], [], beginAnswers, commitAnswers, 0, 10, false⟩

/-- A dirty, resident stored value with the given key, cas, expiry, data age and
row id. -/
def mkDirtyValue (key : String) (cas exptime dataAge : Nat) (id : Int) : StoredValue :=
  ⟨key, some "v", cas, 0, exptime, 0, id, 0, true, true, false, false, dataAge, false⟩

/-- The surroundings of a flusher step: every item was queued at `queued`, and
the two clocks read `realTime` and `curTime`. -/
def mkEnv (queued realTime curTime : Nat) : FlushEnv :=
  ⟨fixedOps mutation_type_t.WAS_CLEAN add_type_t.ADD_SUCCESS, fun _ => queued, realTime, curTime⟩

/-- The facade state with the vbucket of an id flagged for deletion. -/
def flagDeletion (s : EventuallyPersistentStore) (vbid : Nat) : EventuallyPersistentStore :=
  { s with vbuckets := (s.vbuckets.setBucketDeletion vbid true).2 }

/-- The flusher state with the given total memory used and low watermark. -/
def withMemory (st : FlusherState) (totalMemoryUsed mem_low_wat : Nat) : FlusherState :=
  { st with pstats := { st.pstats with
      totalMemoryUsed := totalMemoryUsed, mem_low_wat := mem_low_wat } }

/-- The facade state with a high-priority vbucket snapshot scheduled. -/
def flagSnapshot (s : EventuallyPersistentStore) : EventuallyPersistentStore :=
  { s with vbuckets := (s.vbuckets.setHighPriorityVbSnapshotFlag true).2 }

/-! ## The SQLite store -/

/-- Calls `StrategicSqlite3` makes on the database and on the callback it was
handed, in call order. -/
inductive SqlCall where
  | begin (ok : Bool)
  | commit (ok : Bool)
  | rollback
  | executeClear
  | bindInsert (key value : String)
  | executeInsert
  | bind64 (pos : Nat) (value : Nat)
  | executeDelete
  | resetStatement
  | warning
  | reopen
  | callback (rv : Int)
  deriving DecidableEq, Repr

/-- What the database answers to the calls of `storeMap`: the result of
`begin()`, the result of executing the clear statement, the result of executing
the insert statement for the entry at each position, and the result of
`commit()`. A result that is absent stands for a call that throws. -/
structure StoreMapAnswers where
  begin : Bool
  clear : Option Int
  insert : Nat → Option Int
  commit : Bool

namespace StrategicSqlite3

/-- The loop `std::for_each(m.begin(), m.end(), ms)` of `storeMap` with the body
of `map_setter::operator()` (sqlite-kvstore.cc 242-264): `output` is the flag
the setter writes through its reference, `i` the position of the next entry.
The result is absent when an `execute()` throws. -/
def mapSetterLoop (insert : Nat → Option Int) :
    List (String × String) → Nat → Bool → List SqlCall → Option (Bool × List SqlCall)
  | [], _, output, calls => some (output, calls)
  | p :: rest, i, output, calls =>
    match insert i with
    | none => none
    | some n =>
      let inserted := decide (n = 1)
      mapSetterLoop insert rest (i + 1) (output && inserted)
        (calls ++ [SqlCall.bindInsert p.1 p.2, SqlCall.executeInsert, SqlCall.resetStatement])

/-- `StrategicSqlite3::storeMap` (sqlite-kvstore.cc 266-287): the value returned
and the calls made. An exception leaves the `try` block for `rollback()`, with
`rv` as it was. -/
def storeMap (ans : StoreMapAnswers) (m : List (String × String)) : Bool × List SqlCall :=
  let rv := false
  if ans.begin = false then (false, [SqlCall.begin false])
  else
    let calls := [SqlCall.begin true, SqlCall.executeClear]
    match ans.clear with
    | none => (rv, calls ++ [SqlCall.rollback])
    | some c =>
      let deleted := decide (c ≥ 0)
      let rv1 := rv && deleted
      match mapSetterLoop ans.insert m 0 rv1 (calls ++ [SqlCall.resetStatement]) with
      | none => (rv1, calls ++ [SqlCall.resetStatement, SqlCall.rollback])
      | some r =>
        let rv2 := ans.commit
        (rv2, r.2 ++ [SqlCall.commit ans.commit])

/-- `StrategicSqlite3::snapshotVBuckets` and `snapshotStats` (sqlite-kvstore.cc
213-236): `storeMap`, followed by a warning and `reopen()` when it failed. -/
def snapshot (ans : StoreMapAnswers) (m : List (String × String)) : Bool × List SqlCall :=
  let r := storeMap ans m
  if r.1 = false then (r.1, r.2 ++ [SqlCall.warning, SqlCall.reopen]) else r

/-- The conversion of an `int64_t` argument to a `uint64_t` parameter, as at the
call `rwUnderlying->del(itm, rowid, *cb)` (ep.cc 2169). -/
def toUInt64 (x : Int) : Nat := (x % 2 ^ 64).toNat

/-- `StrategicSqlite3::del(itm, rowid, cb)` (sqlite-kvstore.cc 166-189); `rowid`
is the `uint64_t` parameter and `executed` the result of executing the delete
statement. -/
def del (executed : Int) (rowid : Nat) : List SqlCall :=
  let rv : Int := 0
  if rowid ≤ 0 then [SqlCall.callback rv]
  else
    let rv1 := executed
    [SqlCall.bind64 1 rowid, SqlCall.executeDelete] ++
      (if rv1 < 0 then [SqlCall.warning, SqlCall.reopen] else []) ++
      [SqlCall.callback rv1, SqlCall.resetStatement]

end StrategicSqlite3

/-! ## Configuration changes -/

/-- Modelled from the spec: the settings of the mutation-log compactor (§4.6:
`max_log_size`, `max_entry_ratio`, `queue_cap`) and its sleep time;
`MutationLogCompactorConfig` is declared outside `src/` and each setter writes
its field. -/
structure MutationLogCompactorConfig where
  maxLogSize : Nat
  maxEntryRatio : Nat
  queueCap : Nat
  sleepTime : Nat
  deriving DecidableEq, Repr

/-- The settings `EPStoreValueChangeListener::sizeValueChanged` can reach
through the store: each field is written by the setter of its name; `warnings`
counts the log lines for unknown keys and `accessScannerStartTimeResets` the
calls of `resetAccessScannerStartTime`. -/
structure StoreSettings where
  bgFetchDelay : Nat
  itemExpiryWindow : Nat
  txnSize : Nat
  expiryPagerSleeptime : Nat
  accessScannerSleeptime : Nat
  accessScannerStartTimeResets : Nat
  mlogCompactorConfig : MutationLogCompactorConfig
  tapThrottleQueueCap : Nat
  tapThrottleCapPercent : Nat
  warnings : Nat
  deriving DecidableEq, Repr

/-- `EPStoreValueChangeListener::sizeValueChanged` (ep.cc 88-116). -/
def sizeValueChanged (store : StoreSettings) (key : String) (value : Nat) : StoreSettings :=
  if key = "bg_fetch_delay" then { store with bgFetchDelay := value % 2 ^ 32 }
  else if key = "expiry_window" then { store with itemExpiryWindow := value }
  else if key = "max_txn_size" then { store with txnSize := value }
  else if key = "exp_pager_stime" then { store with expiryPagerSleeptime := value }
  else if key = "alog_sleep_time" then { store with accessScannerSleeptime := value }
  else if key = "alog_task_time" then
    { store with accessScannerStartTimeResets := store.accessScannerStartTimeResets + 1 }
  else if key = "klog_max_log_size" then
    { store with mlogCompactorConfig := { store.mlogCompactorConfig with maxLogSize := value } }
  else if key = "klog_max_entry_ratio" then
    { store with mlogCompactorConfig :=
        { store.mlogCompactorConfig with maxEntryRatio := value } }
  else if key = "klog_compactor_queue_cap" then
    { store with mlogCompactorConfig :=
        { store.mlogCompactorConfig with maxEntryRatio := value } }
  else if key = "tap_throttle_queue_cap" then { store with tapThrottleQueueCap := value }
  else if key = "tap_throttle_cap_pcnt" then { store with tapThrottleCapPercent := value }
  else { store with warnings := store.warnings + 1 }

/-- The wiring of the compactor settings in the constructor of
`EventuallyPersistentStore` (ep.cc 410-419), from the configured values of
`klog_max_log_size`, `klog_max_entry_ratio`, `klog_compactor_queue_cap` and
`klog_compactor_stime`. -/
def constructorWiring (klogMaxLogSize klogMaxEntryRatio klogCompactorQueueCap
    klogCompactorStime : Nat) (c : MutationLogCompactorConfig) : MutationLogCompactorConfig :=
  let c1 := { c with maxLogSize := klogMaxLogSize }
  let c2 := { c1 with maxEntryRatio := klogMaxEntryRatio }
  let c3 := { c2 with queueCap := klogCompactorQueueCap }
  { c3 with sleepTime := klogCompactorStime }

/-! ## The vbucket visitor adaptor -/

/-- Modelled from the spec: `VBucketMap::getSize`, the number of vbucket ids the
map has slots for. -/
def VBucketMap.getSize (m : VBucketMap) : Nat := m.buckets.length

/-- Calls `VBCBAdaptor::callback` makes on its visitor, on the hash table of a
vbucket and on the dispatcher, in call order, with the answers of the visitor. -/
inductive AdaptorCall where
  | pauseVisitor (answer : Bool)
  | snooze
  | visitBucket (vbid : Nat) (answer : Bool)
  | ht_visit (vbid : Nat)
  | complete
  deriving DecidableEq, Repr

/-- The members of `VBCBAdaptor` written by its constructor and by `callback`:
the queue of vbucket ids still to visit and `currentvb`, with the calls made so
far. -/
structure VBCBAdaptor where
  vbList : List Nat
  currentvb : Nat
  calls : List AdaptorCall
  deriving DecidableEq, Repr

namespace VBCBAdaptor

/-- The constructor `VBCBAdaptor::VBCBAdaptor` (ep.cc 2577-2592): the ids below
the size of the map that have a vbucket and pass the visitor's filter, in the
order of the loop. The assertion that every index fits 16 bits gives no result
when it fails. -/
def create (vbuckets : VBucketMap) (vbFilter : Nat → Bool) : Option VBCBAdaptor :=
  if vbuckets.getSize ≤ 2 ^ 16 then
    some ⟨(List.range vbuckets.getSize).filter
      (fun i => (vbuckets.getBucket i).isSome && vbFilter i), 0, []⟩
  else none

/-- `VBCBAdaptor::callback` (ep.cc 2594-2615): the value returned and the state
left. `pause` is what `pauseVisitor()` answers if it is asked in this
invocation, and `visits` what `visitBucket` answers for a vbucket. -/
def callback (vbuckets : VBucketMap) (pause : Bool) (visits : Nat → Bool)
    (a : VBCBAdaptor) : Bool × VBCBAdaptor :=
  let finish (b : VBCBAdaptor) : Bool × VBCBAdaptor :=
    let isdone := b.vbList.isEmpty
    (!isdone, if isdone then { b with calls := b.calls ++ [AdaptorCall.complete] } else b)
  match a.vbList with
  | [] => finish a
  | v :: rest =>
    let a1 : VBCBAdaptor := { a with currentvb := v }
    match vbuckets.getBucket v with
    | some _ =>
      if pause then
        (true, { a1 with calls := a1.calls ++ [AdaptorCall.pauseVisitor true, AdaptorCall.snooze] })
      else
        let a2 : VBCBAdaptor := { a1 with calls := a1.calls ++
          [AdaptorCall.pauseVisitor false, AdaptorCall.visitBucket v (visits v)] ++
          (if visits v then [AdaptorCall.ht_visit v] else []) }
        finish { a2 with vbList := rest }
    | none => finish { a1 with vbList := rest }

/-- Repeated invocation of `callback` by the dispatcher with a visitor that
never pauses: `n` invocations, with the values they return. -/
def invocations (vbuckets : VBucketMap) (visits : Nat → Bool) :
    Nat → VBCBAdaptor → List Bool × VBCBAdaptor
  | 0, a => ([], a)
  | n + 1, a =>
    let r := callback vbuckets false visits a
    let t := invocations vbuckets visits n r.2
    (r.1 :: t.1, t.2)

end VBCBAdaptor

/-- The vbuckets handed to `visitBucket` in a list of calls, in order. -/
def visitedBuckets : List AdaptorCall → List Nat
  | [] => []
  | AdaptorCall.visitBucket v _ :: t => v :: visitedBuckets t
  | _ :: t => visitedBuckets t

/-- The number of calls of `visitor->complete()` in a list of calls. -/
def completions (calls : List AdaptorCall) : Nat := calls.count AdaptorCall.complete

/-! ## Warmup of one shard -/

namespace StrategicSqlite3

/-- The inner loop `while (iter != ids.end() && num < batchSize)` of
`warmupSingleShard` (sqlite-kvstore.cc 499-502): `num` ids gathered so far, the
text `ss` written so far (a `std::string` is its sequence of characters, and a
row id is written in decimal), and the ids from `iter` on. -/
def gatherBatch (batchSize : Nat) : List Nat → Nat → List Char → Nat × List Char × List Nat
  | [], num, ss => (num, ss, [])
  | id :: rest, num, ss =>
    if num < batchSize then
      gatherBatch batchSize rest (num + 1) (ss ++ Nat.toDigits 10 id ++ [','])
    else (num, ss, id :: rest)

/-- The loop `do { ... } while (iter != ids.end())` of `warmupSingleShard`
(sqlite-kvstore.cc 494-523), with the texts of the queries issued so far;
`queryHead` is the text called `prefix` in the source. The rows a query returns
are not modelled. The loop is run for at most `fuel` rounds and has no result
when they do not suffice. -/
def queryLoop (queryHead : List Char) (batchSize : Nat) :
    Nat → List Nat → List (List Char) → Option (List (List Char))
  | 0, _, _ => none
  | fuel + 1, iter, issued =>
    let g := gatherBatch batchSize iter 0 []
    let issued1 :=
      if g.1 ≠ 0 then issued ++ [(queryHead ++ g.2.1).dropLast ++ [')']] else issued
    if g.2.2 ≠ [] then queryLoop queryHead batchSize fuel g.2.2 issued1 else some issued1

/-- The text `prefix` of `warmupSingleShard` (sqlite-kvstore.cc 479-481). -/
def queryHead (table : String) : List Char :=
  "select k, v, flags, exptime, cas, vbucket, rowid from ".toList ++ table.toList ++
    " where rowid in (".toList

/-- `StrategicSqlite3::warmupSingleShard` (sqlite-kvstore.cc 473-526): the texts
of the queries it issues, in order. `ids.sort(list_compare)` is the ascending
sort of the ids. -/
def warmupSingleShard (table : String) (ids : List Nat) (batchSize fuel : Nat) :
    Option (List (List Char)) :=
  queryLoop (queryHead table) batchSize fuel (ids.insertionSort (fun a b => a ≤ b)) []

end StrategicSqlite3

/-- The ids of a batch in decimal, separated by commas. -/
def commaSeparated : List Nat → List Char
  | [] => []
  | [x] => Nat.toDigits 10 x
  | x :: y :: t => Nat.toDigits 10 x ++ ',' :: commaSeparated (y :: t)

/-- The query text for a batch: the head, the comma-separated ids and a closing
parenthesis. -/
def queryText (queryHead : List Char) (batch : List Nat) : List Char :=
  queryHead ++ commaSeparated batch ++ [')']

/-! ## Theorems -/

/-! ### Trace bookkeeping -/

@[simp] theorem emit_trace (s : EventuallyPersistentStore) (e : Event) :
    (s.emit e).trace = s.trace ++ [e] := rfl

@[simp] theorem putVB_trace (s : EventuallyPersistentStore) (i : Nat) (vb : VBucket) :
    (s.putVB i vb).trace = s.trace := rfl

/-- Reading a vbucket back after a write through its pointer. -/
theorem getVBucket_putVB (s : EventuallyPersistentStore) (i : Nat) (vb vb1 : VBucket)
    (h : s.getVBucket i = some vb) : (s.putVB i vb1).getVBucket i = some vb1 := by
  unfold EventuallyPersistentStore.getVBucket VBucketMap.getBucket at h ⊢
  unfold EventuallyPersistentStore.putVB
  have hi : i < s.vbuckets.buckets.length := by
    by_contra hn
    rw [List.getD_eq_default _ _ (Nat.le_of_not_lt hn)] at h
    exact Option.noConfusion h
  simp [List.getD_eq_getElem?_getD, hi]

/-- A key found by `lookup` is the key asked for. -/
theorem lookup_key (ht : HashTable) (key : String) (v : StoredValue)
    (h : HashTable.lookup ht key = some v) : v.key = key := by
  have := List.find?_some h
  simpa using this

/-- Reading back a write through a `StoredValue*`. -/
theorem lookup_modify (ht : HashTable) (key : String) (f : StoredValue → StoredValue)
    (v : StoredValue) (h : HashTable.lookup ht key = some v) (hk : (f v).key = key) :
    HashTable.lookup (HashTable.modify ht key f) key = some (f v) := by
  induction ht with
  | nil => simp [HashTable.lookup] at h
  | cons a rest ih =>
    unfold HashTable.modify
    by_cases ha : a.key = key
    · have hv : a = v := by
        simpa [HashTable.lookup, List.find?_cons, ha] using h
      subst hv
      simp [ha, HashTable.lookup, List.find?_cons, hk]
    · have hr : HashTable.lookup rest key = some v := by
        simpa [HashTable.lookup, List.find?_cons, ha] using h
      simpa [ha, HashTable.lookup, List.find?_cons] using ih hr

@[simp] theorem reference_key (v : StoredValue) : v.reference.key = v.key := rfl

@[simp] theorem reference_deleted (v : StoredValue) : v.reference.deleted = v.deleted := rfl

@[simp] theorem reference_isExpired (v : StoredValue) (t : Nat) :
    v.reference.isExpired t = v.isExpired t := rfl

@[simp] theorem reference_isLocked (v : StoredValue) (t : Nat) :
    v.reference.isLocked t = v.isLocked t := rfl

@[simp] theorem reference_cas (v : StoredValue) : v.reference.cas = v.cas := rfl

@[simp] theorem reference_lock_expiry (v : StoredValue) :
    v.reference.lock_expiry = v.lock_expiry := rfl

@[simp] theorem reference_exptime (v : StoredValue) : v.reference.exptime = v.exptime := rfl

@[simp] theorem reference_resident (v : StoredValue) :
    v.reference.resident = v.resident := rfl

@[simp] theorem reference_seqno (v : StoredValue) : v.reference.seqno = v.seqno := rfl

@[simp] theorem reference_id (v : StoredValue) : v.reference.id = v.id := rfl

/-- A tracked lookup of a live value returns it with its reference bit set. -/
theorem unlocked_find_live (ht : HashTable) (key : String) (v : StoredValue)
    (h : HashTable.lookup ht key = some v) (hd : v.deleted = false) :
    HashTable.unlocked_find ht key false true
      = (some v.reference, HashTable.modify ht key StoredValue.reference) := by
  have hk := lookup_key ht key v h
  have hm := lookup_modify ht key StoredValue.reference v h (by simp [hk])
  unfold HashTable.unlocked_find
  simp only [if_true]
  rw [hm]
  simp [hd]

/-- A key that is absent stays absent under writes through a pointer. -/
theorem lookup_modify_none (ht : HashTable) (key : String) (f : StoredValue → StoredValue)
    (h : HashTable.lookup ht key = none) :
    HashTable.lookup (HashTable.modify ht key f) key = none := by
  induction ht with
  | nil => simp [HashTable.modify, HashTable.lookup]
  | cons a rest ih =>
    have ha : ¬ a.key = key := by
      intro ha
      simp [HashTable.lookup, List.find?_cons, ha] at h
    have hr : HashTable.lookup rest key = none := by
      simpa [HashTable.lookup, List.find?_cons, ha] using h
    unfold HashTable.modify
    simpa [ha, HashTable.lookup, List.find?_cons] using ih hr

/-- A lookup that does not want deleted values finds nothing when the key is
absent or its value is deleted. -/
theorem unlocked_find_none (ht : HashTable) (key : String) (t : Bool)
    (h : HashTable.lookup ht key = none ∨
      ∃ v, HashTable.lookup ht key = some v ∧ v.deleted = true) :
    (HashTable.unlocked_find ht key false t).1 = none := by
  cases t with
  | false =>
    unfold HashTable.unlocked_find
    rcases h with h | ⟨v, h, hd⟩ <;> simp [h, *]
  | true =>
    unfold HashTable.unlocked_find
    simp only [if_true]
    rcases h with h | ⟨v, h, hd⟩
    · rw [lookup_modify_none ht key _ h]
    · have hk := lookup_key ht key v h
      rw [lookup_modify ht key StoredValue.reference v h (by simp [hk])]
      simp [hd]

/-- `fetchValidValue` on a live, unexpired value: the value comes back with its
reference bit set, and nothing else happens. -/
theorem fetchValidValue_valid (ops : HashTableOps) (s : EventuallyPersistentStore) (vb : Nat)
    (key : String) (now : Nat) (b : VBucket) (v : StoredValue)
    (hb : s.getVBucket vb = some b) (h : HashTable.lookup b.ht key = some v)
    (hd : v.deleted = false) (he : v.isExpired now = false) :
    s.fetchValidValue ops vb key false true now
      = (some v.reference,
          s.putVB vb { b with ht := HashTable.modify b.ht key StoredValue.reference }) := by
  unfold EventuallyPersistentStore.fetchValidValue
  simp only [hb, unlocked_find_live b.ht key v h hd]
  simp [hd, he]

/-- `fetchValidValue` finds nothing when the key is absent, deleted or
expired. -/
theorem fetchValidValue_invalid (ops : HashTableOps) (s : EventuallyPersistentStore)
    (vb : Nat) (key : String) (now : Nat) (b : VBucket)
    (hb : s.getVBucket vb = some b)
    (h : HashTable.lookup b.ht key = none ∨
      ∃ v, HashTable.lookup b.ht key = some v ∧
        (v.deleted = true ∨ v.isExpired now = true)) :
    (s.fetchValidValue ops vb key false true now).1 = none := by
  unfold EventuallyPersistentStore.fetchValidValue
  simp only [hb]
  rcases h with h | ⟨v, h, hd | he⟩
  · rw [show (HashTable.unlocked_find b.ht key false true).1 = none from
      unlocked_find_none b.ht key true (Or.inl h)]
  · rw [show (HashTable.unlocked_find b.ht key false true).1 = none from
      unlocked_find_none b.ht key true (Or.inr ⟨v, h, hd⟩)]
  · cases hd : v.deleted with
    | true =>
      rw [show (HashTable.unlocked_find b.ht key false true).1 = none from
        unlocked_find_none b.ht key true (Or.inr ⟨v, h, hd⟩)]
    | false =>
      rw [unlocked_find_live b.ht key v h hd]
      simp [hd, he]

/-- The value read back after `fetchValidValue` found it and a write through
the returned pointer replaced it. -/
theorem storedValue_after_write (s : EventuallyPersistentStore) (vb : Nat) (key : String)
    (b : VBucket) (v w : StoredValue) (hb : s.getVBucket vb = some b)
    (h : HashTable.lookup b.ht key = some v) (hw : w.key = key) :
    ((s.putVB vb { b with ht := HashTable.modify b.ht key StoredValue.reference }).modifyValue
        vb key (fun _ => w)).storedValue vb key = some w := by
  have hk := lookup_key b.ht key v h
  have h1 := getVBucket_putVB s vb b
    { b with ht := HashTable.modify b.ht key StoredValue.reference } hb
  have hm := lookup_modify b.ht key StoredValue.reference v h (by simp [hk])
  unfold EventuallyPersistentStore.modifyValue
  rw [h1]
  unfold EventuallyPersistentStore.storedValue
  rw [getVBucket_putVB _ vb _ _ h1]
  exact lookup_modify _ key (fun _ => w) _ hm hw

/-- The value read back after `fetchValidValue` found it and nothing was
written. -/
theorem storedValue_after_fetch (s : EventuallyPersistentStore) (vb : Nat) (key : String)
    (b : VBucket) (v : StoredValue) (hb : s.getVBucket vb = some b)
    (h : HashTable.lookup b.ht key = some v) :
    (s.putVB vb { b with ht := HashTable.modify b.ht key StoredValue.reference }).storedValue
        vb key = some v.reference := by
  have hk := lookup_key b.ht key v h
  have h1 := getVBucket_putVB s vb b
    { b with ht := HashTable.modify b.ht key StoredValue.reference } hb
  have hm := lookup_modify b.ht key StoredValue.reference v h (by simp [hk])
  unfold EventuallyPersistentStore.storedValue
  rw [h1]
  exact hm

/-- A write through a vbucket pointer that keeps the hash table keeps every
stored value. -/
theorem storedValue_putVB_same_ht (s : EventuallyPersistentStore) (i : Nat) (b b1 : VBucket)
    (hb : s.getVBucket i = some b) (hht : b1.ht = b.ht) (j : Nat) (key : String) :
    (s.putVB i b1).storedValue j key = s.storedValue j key := by
  by_cases hj : j = i
  · subst hj
    unfold EventuallyPersistentStore.storedValue
    rw [getVBucket_putVB s j b b1 hb, hb]
    simp [hht]
  · unfold EventuallyPersistentStore.storedValue EventuallyPersistentStore.getVBucket
      VBucketMap.getBucket EventuallyPersistentStore.putVB
    have hne : i ≠ j := fun h => hj h.symm
    simp [List.getD_eq_getElem?_getD, List.getElem?_set_ne hne]

/-- The statistics block of `queueDirty` keeps every stored value. -/
theorem storedValue_enqueued (s : EventuallyPersistentStore) (j : Nat) (key : String) :
    s.enqueued.storedValue j key = s.storedValue j key := by
  unfold EventuallyPersistentStore.enqueued
  simp only []
  split_ifs <;> rfl

/-- `queueDirty` keeps every stored value. -/
theorem storedValue_queueDirty (s : EventuallyPersistentStore) (vb : Nat) (k : String)
    (vbid : Nat) (op : queue_operation) (seqno : Nat) (rowid : Int) (tapBackfill : Bool)
    (j : Nat) (key : String) :
    (s.queueDirty vb k vbid op seqno rowid tapBackfill).storedValue j key
      = s.storedValue j key := by
  unfold EventuallyPersistentStore.queueDirty
  have e1 : ∀ i, (s.emit (Event.queueDirty vb k vbid op seqno rowid tapBackfill)).storedValue
      i key = s.storedValue i key := fun _ => rfl
  generalize s.emit (Event.queueDirty vb k vbid op seqno rowid tapBackfill) = s1 at e1 ⊢
  simp only []
  cases s1.doPersistence with
  | false => simp [e1]
  | true =>
    cases hg : s1.getVBucket vb with
    | none => simp [e1]
    | some b =>
      simp only [if_true]
      have hht : (if tapBackfill = true then b.queueBackfillItem ⟨k, vbid, op, rowid, seqno⟩
          else b.checkpointQueueDirty ⟨k, vbid, op, rowid, seqno⟩).2.ht = b.ht := by
        split_ifs <;> rfl
      generalize (if tapBackfill = true then b.queueBackfillItem ⟨k, vbid, op, rowid, seqno⟩
        else b.checkpointQueueDirty ⟨k, vbid, op, rowid, seqno⟩) = r at hht
      cases r.1 with
      | false =>
        simp only [Bool.false_eq_true, if_false]
        rw [storedValue_putVB_same_ht s1 vb b r.2 hg hht, e1]
      | true =>
        simp only [if_true]
        rw [storedValue_enqueued, storedValue_putVB_same_ht s1 vb b r.2 hg hht, e1]

@[simp] theorem queueDirtyCalls_append (t u : List Event) :
    queueDirtyCalls (t ++ u) = queueDirtyCalls t ++ queueDirtyCalls u := by
  simp [queueDirtyCalls]

@[simp] theorem hashTableCalls_append (t u : List Event) :
    hashTableCalls (t ++ u) = hashTableCalls t ++ hashTableCalls u := by
  simp [hashTableCalls]

theorem enqueued_trace (s : EventuallyPersistentStore) :
    s.enqueued.trace = s.trace ∨ s.enqueued.trace = s.trace ++ [Event.flusherWake] := by
  unfold EventuallyPersistentStore.enqueued
  simp only []
  split_ifs <;> simp

@[simp] theorem queueDirtyCalls_nil : queueDirtyCalls [] = [] := rfl

@[simp] theorem hashTableCalls_nil : hashTableCalls [] = [] := rfl

@[simp] theorem queueDirtyCalls_cons (e : Event) (t : List Event) :
    queueDirtyCalls (e :: t)
      = if e.isQueueDirty = true then e :: queueDirtyCalls t else queueDirtyCalls t := by
  simp [queueDirtyCalls, List.filter_cons]

@[simp] theorem hashTableCalls_cons (e : Event) (t : List Event) :
    hashTableCalls (e :: t)
      = if e.isHashTableCall = true then e :: hashTableCalls t else hashTableCalls t := by
  simp [hashTableCalls, List.filter_cons]

/-- A call of `queueDirty` adds itself, and at most a flusher wake-up, to the
trace. -/
theorem queueDirty_trace (s : EventuallyPersistentStore) (vb : Nat) (key : String)
    (vbid : Nat) (op : queue_operation) (seqno : Nat) (rowid : Int) (tapBackfill : Bool) :
    (s.queueDirty vb key vbid op seqno rowid tapBackfill).trace
        = s.trace ++ [Event.queueDirty vb key vbid op seqno rowid tapBackfill] ∨
    (s.queueDirty vb key vbid op seqno rowid tapBackfill).trace
        = s.trace ++ [Event.queueDirty vb key vbid op seqno rowid tapBackfill,
            Event.flusherWake] := by
  unfold EventuallyPersistentStore.queueDirty
  have e1 : (s.emit (Event.queueDirty vb key vbid op seqno rowid tapBackfill)).trace
      = s.trace ++ [Event.queueDirty vb key vbid op seqno rowid tapBackfill] := rfl
  generalize s.emit (Event.queueDirty vb key vbid op seqno rowid tapBackfill) = s1 at e1 ⊢
  simp only []
  cases s1.doPersistence with
  | false => simp [e1]
  | true =>
    cases s1.getVBucket vb with
    | none => simp [e1]
    | some b =>
      simp only [if_true]
      generalize (if tapBackfill = true then
        b.queueBackfillItem ⟨key, vbid, op, rowid, seqno⟩
        else b.checkpointQueueDirty ⟨key, vbid, op, rowid, seqno⟩) = r
      cases r.1 with
      | false => simp [e1]
      | true =>
        rcases enqueued_trace (s1.putVB vb r.2) with h | h
        · left; simp [h, e1]
        · right; simp [h, e1]

@[simp] theorem queueDirty_queueDirtyCalls (s : EventuallyPersistentStore) (vb : Nat)
    (key : String) (vbid : Nat) (op : queue_operation) (seqno : Nat) (rowid : Int)
    (tapBackfill : Bool) :
    queueDirtyCalls (s.queueDirty vb key vbid op seqno rowid tapBackfill).trace
      = queueDirtyCalls s.trace ++ [Event.queueDirty vb key vbid op seqno rowid tapBackfill] := by
  rcases queueDirty_trace s vb key vbid op seqno rowid tapBackfill with h | h <;>
    rw [h] <;> simp [Event.isQueueDirty]

@[simp] theorem queueDirty_hashTableCalls (s : EventuallyPersistentStore) (vb : Nat)
    (key : String) (vbid : Nat) (op : queue_operation) (seqno : Nat) (rowid : Int)
    (tapBackfill : Bool) :
    hashTableCalls (s.queueDirty vb key vbid op seqno rowid tapBackfill).trace
      = hashTableCalls s.trace := by
  rcases queueDirty_trace s vb key vbid op seqno rowid tapBackfill with h | h <;>
    rw [h] <;> simp [Event.isHashTableCall]

/-- C1: `set` answers NOT_MY_VBUCKET, bumps `numNotMyVBuckets` by exactly one and
touches neither the hash table nor any queue when the item's vbucket is absent,
dead, or replica without `force`; on an active vbucket and on a replica vbucket
with `force` the hash-table set is called (exactly once). -/
theorem set_vbucket_admission (ops : HashTableOps) (s : EventuallyPersistentStore)
    (itm : Item) (cookie : Cookie) (force trackReference : Bool) :
    ((s.getVBucket itm.vbucketId = none ∨
        ∃ vb, s.getVBucket itm.vbucketId = some vb ∧
          (vb.state = vbucket_state_dead ∨
            (vb.state = vbucket_state_replica ∧ force = false))) →
      (s.set ops itm cookie force trackReference).1 = ENGINE_NOT_MY_VBUCKET ∧
      (s.set ops itm cookie force trackReference).2.stats.numNotMyVBuckets
        = s.stats.numNotMyVBuckets + 1 ∧
      (s.set ops itm cookie force trackReference).2.trace = s.trace ∧
      (s.set ops itm cookie force trackReference).2.vbuckets = s.vbuckets) ∧
    ((∃ vb, s.getVBucket itm.vbucketId = some vb ∧
        (vb.state = vbucket_state_active ∨
          (vb.state = vbucket_state_replica ∧ force = true))) →
      hashTableCalls (s.set ops itm cookie force trackReference).2.trace
        = hashTableCalls s.trace ++ [Event.ht_set itm.vbucketId itm trackReference]) := by
  constructor
  · rintro (h | ⟨vb, h, hs | ⟨hs, hf⟩⟩)
    · simp [EventuallyPersistentStore.set, h, EventuallyPersistentStore.incNumNotMyVBuckets]
    · simp [EventuallyPersistentStore.set, h, hs, EventuallyPersistentStore.incNumNotMyVBuckets]
    · simp [EventuallyPersistentStore.set, h, hs, hf,
        EventuallyPersistentStore.incNumNotMyVBuckets]
  · rintro ⟨vb, h, hs | ⟨hs, hf⟩⟩
    · simp only [EventuallyPersistentStore.set, h, hs, reduceCtorEq, false_and, if_false]
      generalize (ops.set vb.ht itm trackReference).1 = m
      cases m <;> (try split_ifs) <;> simp [Event.isHashTableCall]
    · subst hf
      simp only [EventuallyPersistentStore.set, h, hs, reduceCtorEq, false_and, and_false,
        if_false, Bool.true_eq_false]
      generalize (ops.set vb.ht itm trackReference).1 = m
      cases m <;> (try split_ifs) <;> simp [Event.isHashTableCall]

/-- C1 at a concrete input: a replica vbucket, `force = false`. -/
theorem set_vbucket_admission_witness :
    ((mkStore [some (mkVBucket 0 vbucket_state_replica [])]).set
        (fixedOps WAS_CLEAN add_type_t.ADD_SUCCESS) (mkItem "k" 0 0) none false true).1
      = ENGINE_NOT_MY_VBUCKET ∧
    ((mkStore [some (mkVBucket 0 vbucket_state_replica [])]).set
        (fixedOps WAS_CLEAN add_type_t.ADD_SUCCESS) (mkItem "k" 0 0) none false true).2.stats.numNotMyVBuckets
      = 0 + 1 ∧
    hashTableCalls ((mkStore [some (mkVBucket 0 vbucket_state_active [])]).set
        (fixedOps WAS_CLEAN add_type_t.ADD_SUCCESS) (mkItem "k" 0 0) none false true).2.trace
      = [Event.ht_set 0 (mkItem "k" 0 0) true] :=
  ⟨((set_vbucket_admission (fixedOps WAS_CLEAN add_type_t.ADD_SUCCESS)
        (mkStore [some (mkVBucket 0 vbucket_state_replica [])]) (mkItem "k" 0 0) none false
        true).1 (Or.inr ⟨mkVBucket 0 vbucket_state_replica [], by decide, by decide⟩)).1,
   ((set_vbucket_admission (fixedOps WAS_CLEAN add_type_t.ADD_SUCCESS)
        (mkStore [some (mkVBucket 0 vbucket_state_replica [])]) (mkItem "k" 0 0) none false
        true).1 (Or.inr ⟨mkVBucket 0 vbucket_state_replica [], by decide, by decide⟩)).2.1,
   (set_vbucket_admission (fixedOps WAS_CLEAN add_type_t.ADD_SUCCESS)
        (mkStore [some (mkVBucket 0 vbucket_state_active [])]) (mkItem "k" 0 0) none false
        true).2 ⟨mkVBucket 0 vbucket_state_active [], by decide, by decide⟩⟩

/-- C2: on an admitted `set` the hash-table result is translated as NOMEM ↦
ENOMEM, INVALID_CAS and IS_LOCKED ↦ KEY_EEXISTS, INVALID_VBUCKET ↦
NOT_MY_VBUCKET, NOT_FOUND with a non-zero item cas ↦ KEY_ENOENT, and WAS_CLEAN,
WAS_DIRTY and NOT_FOUND with cas 0 ↦ SUCCESS; `queueDirty` with operation set is
called exactly once when the answer is SUCCESS and not at all otherwise. -/
theorem set_result_mapping (ops : HashTableOps) (s : EventuallyPersistentStore)
    (itm : Item) (cookie : Cookie) (force trackReference : Bool) (vb : VBucket)
    (h : s.getVBucket itm.vbucketId = some vb)
    (hadm : vb.state = vbucket_state_active ∨
      (force = true ∧ vb.state ≠ vbucket_state_dead)) :
    ((ops.set vb.ht itm trackReference).1 = NOMEM →
      (s.set ops itm cookie force trackReference).1 = ENGINE_ENOMEM) ∧
    ((ops.set vb.ht itm trackReference).1 = INVALID_CAS ∨
        (ops.set vb.ht itm trackReference).1 = IS_LOCKED →
      (s.set ops itm cookie force trackReference).1 = ENGINE_KEY_EEXISTS) ∧
    ((ops.set vb.ht itm trackReference).1 = INVALID_VBUCKET →
      (s.set ops itm cookie force trackReference).1 = ENGINE_NOT_MY_VBUCKET) ∧
    ((ops.set vb.ht itm trackReference).1 = NOT_FOUND ∧ itm.cas ≠ 0 →
      (s.set ops itm cookie force trackReference).1 = ENGINE_KEY_ENOENT) ∧
    ((ops.set vb.ht itm trackReference).1 = WAS_CLEAN ∨
        (ops.set vb.ht itm trackReference).1 = WAS_DIRTY ∨
        ((ops.set vb.ht itm trackReference).1 = NOT_FOUND ∧ itm.cas = 0) →
      (s.set ops itm cookie force trackReference).1 = ENGINE_SUCCESS) ∧
    ((s.set ops itm cookie force trackReference).1 = ENGINE_SUCCESS →
      queueDirtyCalls (s.set ops itm cookie force trackReference).2.trace
        = queueDirtyCalls s.trace ++
          [Event.queueDirty itm.vbucketId itm.key itm.vbucketId queue_op_set itm.seqno
            (ops.set vb.ht itm trackReference).2.1 false]) ∧
    ((s.set ops itm cookie force trackReference).1 ≠ ENGINE_SUCCESS →
      queueDirtyCalls (s.set ops itm cookie force trackReference).2.trace
        = queueDirtyCalls s.trace) := by
  have hp : (if vb.state = vbucket_state_pending ∧ force = false
      then vb.addPendingOp cookie else (false, vb)) = (false, vb) := by
    rcases hadm with h1 | ⟨h1, _⟩ <;> simp [h1]
  have hd : vb.state ≠ vbucket_state_dead := by
    rcases hadm with h1 | ⟨_, h2⟩
    · simp [h1]
    · exact h2
  have hr : ¬ (vb.state = vbucket_state_replica ∧ force = false) := by
    rcases hadm with h1 | ⟨h1, _⟩ <;> simp [h1]
  simp only [EventuallyPersistentStore.set, h, hd, hr, hp, if_false]
  generalize (ops.set vb.ht itm trackReference).1 = m
  by_cases hc : itm.cas = 0 <;> cases m <;> simp [hc, Event.isQueueDirty]

/-- C2 at a concrete input: an active vbucket whose table answers NOT_FOUND to
a `set` with cas 0. -/
theorem set_result_mapping_witness :
    ((mkStore [some (mkVBucket 0 vbucket_state_active [])]).set
        (fixedOps NOT_FOUND ADD_SUCCESS) (mkItem "k" 0 0) none false true).1
      = ENGINE_SUCCESS :=
  (set_result_mapping (fixedOps NOT_FOUND ADD_SUCCESS)
    (mkStore [some (mkVBucket 0 vbucket_state_active [])]) (mkItem "k" 0 0) none false true
    (mkVBucket 0 vbucket_state_active []) (by decide) (Or.inl (by decide))).2.2.2.2.1
    (Or.inr (Or.inr ⟨by decide, by decide⟩))

/-- C3 refuted at concrete inputs: an admitted `addTAPBackfillItem` whose
hash-table set reports WAS_DIRTY answers SUCCESS without calling `queueDirty`,
and an admitted `setWithMeta` with cas 0 whose hash-table set reports NOT_FOUND
answers KEY_ENOENT without calling `queueDirty`. -/
theorem queueDirty_skipped_on_dirty_backfill_and_meta_not_found :
    ((fixedOps WAS_DIRTY ADD_SUCCESS).set [] (mkItem "k" 0 0) true).1 = WAS_DIRTY ∧
    ((mkStore [some (mkVBucket 0 vbucket_state_replica [])]).addTAPBackfillItem
        (fixedOps WAS_DIRTY ADD_SUCCESS) (mkItem "k" 0 0) false true).1 = ENGINE_SUCCESS ∧
    queueDirtyCalls ((mkStore [some (mkVBucket 0 vbucket_state_replica [])]).addTAPBackfillItem
        (fixedOps WAS_DIRTY ADD_SUCCESS) (mkItem "k" 0 0) false true).2.trace = [] ∧
    ((fixedOps NOT_FOUND ADD_SUCCESS).set_meta [] (mkItem "k" 0 0) 0 true true).1 = NOT_FOUND ∧
    ((mkStore [some (mkVBucket 0 vbucket_state_active [])]).setWithMeta
        (fixedOps NOT_FOUND ADD_SUCCESS) (mkItem "k" 0 0) 0 none false true true).1
      = ENGINE_KEY_ENOENT ∧
    queueDirtyCalls ((mkStore [some (mkVBucket 0 vbucket_state_active [])]).setWithMeta
        (fixedOps NOT_FOUND ADD_SUCCESS) (mkItem "k" 0 0) 0 none false true true).2.trace = [] := by
  decide

/-- C3, amended: `set` calls `queueDirty` exactly once on WAS_CLEAN, WAS_DIRTY and
on NOT_FOUND with item cas 0; `setWithMeta` exactly once on WAS_CLEAN and
WAS_DIRTY and never on NOT_FOUND; `addTAPBackfillItem` exactly once (as a
backfill item) on WAS_CLEAN and NOT_FOUND and never on WAS_DIRTY; `add` (which
reaches the hash table only with item cas 0) exactly once on ADD_SUCCESS and on
ADD_UNDEL. -/
theorem queueDirty_on_hash_table_result (ops : HashTableOps) (s : EventuallyPersistentStore)
    (itm : Item) (cas : Nat) (cookie : Cookie)
    (force allowExisting trackReference meta : Bool) (vb : VBucket)
    (h : s.getVBucket itm.vbucketId = some vb) :
    ((vb.state = vbucket_state_active ∨ (force = true ∧ vb.state ≠ vbucket_state_dead)) →
      ((ops.set vb.ht itm trackReference).1 = WAS_CLEAN ∨
        (ops.set vb.ht itm trackReference).1 = WAS_DIRTY ∨
        ((ops.set vb.ht itm trackReference).1 = NOT_FOUND ∧ itm.cas = 0)) →
      queueDirtyCalls (s.set ops itm cookie force trackReference).2.trace
        = queueDirtyCalls s.trace ++
          [Event.queueDirty itm.vbucketId itm.key itm.vbucketId queue_op_set itm.seqno
            (ops.set vb.ht itm trackReference).2.1 false]) ∧
    ((vb.state = vbucket_state_active ∨ (force = true ∧ vb.state ≠ vbucket_state_dead)) →
      ((ops.set_meta vb.ht itm cas allowExisting trackReference).1 = WAS_CLEAN ∨
          (ops.set_meta vb.ht itm cas allowExisting trackReference).1 = WAS_DIRTY →
        queueDirtyCalls
            (s.setWithMeta ops itm cas cookie force allowExisting trackReference).2.trace
          = queueDirtyCalls s.trace ++
            [Event.queueDirty itm.vbucketId itm.key itm.vbucketId queue_op_set itm.seqno
              (ops.set_meta vb.ht itm cas allowExisting trackReference).2.1 false]) ∧
      ((ops.set_meta vb.ht itm cas allowExisting trackReference).1 = NOT_FOUND →
        queueDirtyCalls
            (s.setWithMeta ops itm cas cookie force allowExisting trackReference).2.trace
          = queueDirtyCalls s.trace)) ∧
    ((vb.state ≠ vbucket_state_dead ∧
        (vb.state = vbucket_state_active → s.inconsistentSlaveCheckpoint = true)) →
      ((if meta = true then ops.set_meta vb.ht itm 0 true trackReference
            else ops.set vb.ht itm trackReference).1 = WAS_CLEAN ∨
          (if meta = true then ops.set_meta vb.ht itm 0 true trackReference
            else ops.set vb.ht itm trackReference).1 = NOT_FOUND →
        queueDirtyCalls (s.addTAPBackfillItem ops itm meta trackReference).2.trace
          = queueDirtyCalls s.trace ++
            [Event.queueDirty itm.vbucketId itm.key itm.vbucketId queue_op_set itm.seqno
              (if meta = true then ops.set_meta vb.ht itm 0 true trackReference
                else ops.set vb.ht itm trackReference).2.1 true]) ∧
      ((if meta = true then ops.set_meta vb.ht itm 0 true trackReference
            else ops.set vb.ht itm trackReference).1 = WAS_DIRTY →
        queueDirtyCalls (s.addTAPBackfillItem ops itm meta trackReference).2.trace
          = queueDirtyCalls s.trace)) ∧
    (vb.state = vbucket_state_active → itm.cas = 0 →
      ((ops.add vb.ht itm).1 = ADD_SUCCESS ∨ (ops.add vb.ht itm).1 = ADD_UNDEL) →
      queueDirtyCalls (s.add ops itm cookie).2.trace
        = queueDirtyCalls s.trace ++
          [Event.queueDirty itm.vbucketId itm.key itm.vbucketId queue_op_set itm.seqno
            (-1) false]) := by
  refine ⟨?_, ?_, ?_, ?_⟩
  · intro hadm hm
    have hp : (if vb.state = vbucket_state_pending ∧ force = false
        then vb.addPendingOp cookie else (false, vb)) = (false, vb) := by
      rcases hadm with h1 | ⟨h1, _⟩ <;> simp [h1]
    have hd : vb.state ≠ vbucket_state_dead := by
      rcases hadm with h1 | ⟨_, h2⟩
      · simp [h1]
      · exact h2
    have hr : ¬ (vb.state = vbucket_state_replica ∧ force = false) := by
      rcases hadm with h1 | ⟨h1, _⟩ <;> simp [h1]
    simp only [EventuallyPersistentStore.set, h, hd, hr, hp, if_false]
    rcases hm with hm | hm | ⟨hm, hc⟩ <;> simp [hm, Event.isQueueDirty, *]
  · intro hadm
    have hp : (if vb.state = vbucket_state_pending ∧ force = false
        then vb.addPendingOp cookie else (false, vb)) = (false, vb) := by
      rcases hadm with h1 | ⟨h1, _⟩ <;> simp [h1]
    have hd : vb.state ≠ vbucket_state_dead := by
      rcases hadm with h1 | ⟨_, h2⟩
      · simp [h1]
      · exact h2
    have hr : ¬ (vb.state = vbucket_state_replica ∧ force = false) := by
      rcases hadm with h1 | ⟨h1, _⟩ <;> simp [h1]
    simp only [EventuallyPersistentStore.setWithMeta, h, hd, hr, hp, if_false]
    constructor
    · rintro (hm | hm) <;> simp [hm, Event.isQueueDirty]
    · intro hm
      simp [hm, Event.isQueueDirty]
  · rintro ⟨hd, hi⟩
    have hg : ¬ (vb.state = vbucket_state_dead ∨
        (vb.state = vbucket_state_active ∧ s.inconsistentSlaveCheckpoint = false)) := by
      rintro (h1 | ⟨h1, h2⟩)
      · exact hd h1
      · rw [hi h1] at h2
        exact Bool.noConfusion h2
    simp only [EventuallyPersistentStore.addTAPBackfillItem, h, hg, if_false]
    constructor
    · rintro (hm | hm) <;> cases meta <;> simp_all [Event.isQueueDirty]
    · intro hm
      cases meta <;> simp_all [Event.isQueueDirty, Event.isHashTableCall]
  · intro hs hc hm
    simp only [EventuallyPersistentStore.add, h, hs]
    rcases hm with hm | hm <;> simp [hm, hc, Event.isQueueDirty]

/-- C3 (amended) at a concrete input: a backfill item on a replica vbucket
whose hash-table set reports WAS_CLEAN is queued once. -/
theorem queueDirty_on_hash_table_result_witness :
    queueDirtyCalls ((mkStore [some (mkVBucket 0 vbucket_state_replica [])]).addTAPBackfillItem
        (fixedOps WAS_CLEAN ADD_SUCCESS) (mkItem "k" 0 0) false true).2.trace
      = [Event.queueDirty 0 "k" 0 queue_op_set 0 (-1) true] :=
  ((queueDirty_on_hash_table_result (fixedOps WAS_CLEAN ADD_SUCCESS)
    (mkStore [some (mkVBucket 0 vbucket_state_replica [])]) (mkItem "k" 0 0) 0 none false
    true true false (mkVBucket 0 vbucket_state_replica []) (by decide)).2.2.1
      ⟨by decide, by decide⟩).1 (Or.inl (by decide))

/-- C4: on a pending vbucket, `set` without `force` and `add` both put the
caller's cookie on the vbucket's pending-op list and answer EWOULDBLOCK; no
hash-table call is made, nothing is queued, and the rest of the vbucket is left
as it was. -/
theorem pending_set_add_would_block (ops : HashTableOps) (s : EventuallyPersistentStore)
    (itm : Item) (cookie : Cookie) (trackReference : Bool) (vb : VBucket)
    (h : s.getVBucket itm.vbucketId = some vb)
    (hs : vb.state = vbucket_state_pending) :
    ((s.set ops itm cookie false trackReference).1 = ENGINE_EWOULDBLOCK ∧
      (s.set ops itm cookie false trackReference).2.getVBucket itm.vbucketId
        = some { vb with pendingOps := vb.pendingOps ++ [cookie] } ∧
      (s.set ops itm cookie false trackReference).2.trace = s.trace) ∧
    ((s.add ops itm cookie).1 = ENGINE_EWOULDBLOCK ∧
      (s.add ops itm cookie).2.getVBucket itm.vbucketId
        = some { vb with pendingOps := vb.pendingOps ++ [cookie] } ∧
      (s.add ops itm cookie).2.trace = s.trace) := by
  have hg := getVBucket_putVB s itm.vbucketId vb
    { vb with pendingOps := vb.pendingOps ++ [cookie] } h
  constructor
  · simp only [EventuallyPersistentStore.set, h, hs, VBucket.addPendingOp]
    simp [hs] at hg ⊢
    exact hg
  · simp only [EventuallyPersistentStore.add, h, hs, VBucket.addPendingOp]
    simp [hs] at hg ⊢
    exact hg

/-- C4 at the input of scenario S3: `set` with cas 17 on a pending vbucket. -/
theorem pending_set_add_would_block_witness :
    ((mkStore [some (mkVBucket 0 vbucket_state_pending [])]).set
        (fixedOps WAS_CLEAN ADD_SUCCESS) (mkItem "k" 0 17) (some 1) false true).1
      = ENGINE_EWOULDBLOCK ∧
    ((mkStore [some (mkVBucket 0 vbucket_state_pending [])]).set
        (fixedOps WAS_CLEAN ADD_SUCCESS) (mkItem "k" 0 17) (some 1) false true).2.trace = [] :=
  ⟨(pending_set_add_would_block (fixedOps WAS_CLEAN ADD_SUCCESS)
      (mkStore [some (mkVBucket 0 vbucket_state_pending [])]) (mkItem "k" 0 17) (some 1) true
      (mkVBucket 0 vbucket_state_pending []) (by decide) (by decide)).1.1,
   (pending_set_add_would_block (fixedOps WAS_CLEAN ADD_SUCCESS)
      (mkStore [some (mkVBucket 0 vbucket_state_pending [])]) (mkItem "k" 0 17) (some 1) true
      (mkVBucket 0 vbucket_state_pending []) (by decide) (by decide)).1.2.2⟩

/-- Scheduling a vbucket-state snapshot adds no engine notification. -/
theorem scheduleVBSnapshot_notifications (s : EventuallyPersistentStore) (p : Priority) :
    notifications (s.scheduleVBSnapshot p).trace = notifications s.trace := by
  unfold EventuallyPersistentStore.scheduleVBSnapshot
  simp only []
  split_ifs <;> simp [notifications, EventuallyPersistentStore.emit]

/-- No call of `setVBucketState` adds an engine notification to the trace: the
state read after `setState(to)` is `to`, never pending when `to` is active. -/
theorem setVBucketState_notifications (s : EventuallyPersistentStore) (vbid : Nat)
    (to_ : vbucket_state_t) :
    notifications (s.setVBucketState vbid to_).trace = notifications s.trace := by
  unfold EventuallyPersistentStore.setVBucketState
  cases s.vbuckets.getBucket vbid with
  | none => simp [scheduleVBSnapshot_notifications]
  | some vb =>
    simp only []
    split_ifs with h1 h2
    · rfl
    · exfalso
      rcases h2 with ⟨h2, h3⟩
      rw [h3] at h2
      simp [VBucket.setState] at h2
    · simp [scheduleVBSnapshot_notifications]

/-- C5, the code at the failing input: a pending vbucket holding one queued
cookie is switched to active; its state becomes active, the cookie stays
queued, and the only call made is the scheduling of a low-priority snapshot, so
the engine notification is not triggered. The cookie is handed back only once
`firePendingVBucketOps` is run by something else. -/
theorem setVBucketState_pending_to_active_skips_notification :
    ((mkStore [some ⟨0, vbucket_state_pending, [], [some 7], 0, [], []⟩]).setVBucketState 0
        vbucket_state_active).getVBucket 0
      = some ⟨0, vbucket_state_active, [], [some 7], 0, [], []⟩ ∧
    ((mkStore [some ⟨0, vbucket_state_pending, [], [some 7], 0, [], []⟩]).setVBucketState 0
        vbucket_state_active).trace
      = [Event.schedule DispatcherId.dispatcher
          (Task.SnapshotVBucketsCallback Priority.VBucketPersistLowPriority)
          Priority.VBucketPersistLowPriority] ∧
    notifications ((mkStore [some ⟨0, vbucket_state_pending, [], [some 7], 0, [], []⟩]).setVBucketState
        0 vbucket_state_active).trace = 0 ∧
    (((mkStore [some ⟨0, vbucket_state_pending, [], [some 7], 0, [], []⟩]).setVBucketState 0
        vbucket_state_active).firePendingVBucketOps).trace
      = [Event.schedule DispatcherId.dispatcher
          (Task.SnapshotVBucketsCallback Priority.VBucketPersistLowPriority)
          Priority.VBucketPersistLowPriority,
        Event.notifyIOComplete (some 7)] := by
  decide

/-- C6: `unlockKey` on an active vbucket holding a live, unexpired value answers
SUCCESS exactly when the value is locked at `currentTime` and its cas is the
supplied one, and then the lock is cleared; otherwise it answers TMPFAIL and
lock expiry and cas stay as they were. With no valid value it answers
KEY_ENOENT, and with the vbucket missing or not active NOT_MY_VBUCKET. -/
theorem unlockKey_requires_matching_cas (ops : HashTableOps) (s : EventuallyPersistentStore)
    (key : String) (vbucket cas currentTime now : Nat) :
    (∀ b v, s.getVBucket vbucket = some b → b.state = vbucket_state_active →
      HashTable.lookup b.ht key = some v → v.deleted = false → v.isExpired now = false →
      (((s.unlockKey ops key vbucket cas currentTime now).1 = ENGINE_SUCCESS ↔
          (v.isLocked currentTime = true ∧ v.cas = cas)) ∧
        ((v.isLocked currentTime = true ∧ v.cas = cas) →
          ∃ w, (s.unlockKey ops key vbucket cas currentTime now).2.storedValue vbucket key
              = some w ∧ w.lock_expiry = 0 ∧ w.cas = v.cas) ∧
        (¬ (v.isLocked currentTime = true ∧ v.cas = cas) →
          (s.unlockKey ops key vbucket cas currentTime now).1 = ENGINE_TMPFAIL ∧
          ∃ w, (s.unlockKey ops key vbucket cas currentTime now).2.storedValue vbucket key
              = some w ∧ w.lock_expiry = v.lock_expiry ∧ w.cas = v.cas))) ∧
    (∀ b, s.getVBucket vbucket = some b → b.state = vbucket_state_active →
      (HashTable.lookup b.ht key = none ∨
        ∃ v, HashTable.lookup b.ht key = some v ∧
          (v.deleted = true ∨ v.isExpired now = true)) →
      (s.unlockKey ops key vbucket cas currentTime now).1 = ENGINE_KEY_ENOENT) ∧
    ((s.getVBucket vbucket = none ∨
        ∃ b, s.getVBucket vbucket = some b ∧ b.state ≠ vbucket_state_active) →
      (s.unlockKey ops key vbucket cas currentTime now).1 = ENGINE_NOT_MY_VBUCKET ∧
      (s.unlockKey ops key vbucket cas currentTime now).2.vbuckets = s.vbuckets) := by
  refine ⟨?_, ?_, ?_⟩
  · intro b v hb hs h hd he
    have hin : s.getVBucketIn vbucket vbucket_state_active = some b := by
      have hb1 : s.vbuckets.getBucket vbucket = some b := hb
      simp [EventuallyPersistentStore.getVBucketIn, hb1, hs]
    have hk := lookup_key b.ht key v h
    unfold EventuallyPersistentStore.unlockKey
    rw [hin]
    simp only [fetchValidValue_valid ops s vbucket key now b v hb h hd he]
    by_cases hl : v.isLocked currentTime = true ∧ v.cas = cas
    · have hl1 : v.reference.isLocked currentTime = true ∧ v.reference.cas = cas := hl
      rw [if_pos hl1]
      refine ⟨by simp [hl], fun _ => ⟨v.reference.unlock, ?_, rfl, rfl⟩, fun hn => absurd hl hn⟩
      exact storedValue_after_write s vbucket key b v v.reference.unlock hb h hk
    · have hl1 : ¬ (v.reference.isLocked currentTime = true ∧ v.reference.cas = cas) := hl
      rw [if_neg hl1]
      refine ⟨by simp [hl], fun hp => absurd hp hl, fun _ => ⟨rfl, v.reference, ?_, rfl, rfl⟩⟩
      exact storedValue_after_fetch s vbucket key b v hb h
  · intro b hb hs h
    have hin : s.getVBucketIn vbucket vbucket_state_active = some b := by
      have hb1 : s.vbuckets.getBucket vbucket = some b := hb
      simp [EventuallyPersistentStore.getVBucketIn, hb1, hs]
    unfold EventuallyPersistentStore.unlockKey
    rw [hin]
    simp only [fetchValidValue_invalid ops s vbucket key now b hb h]
  · intro h
    have hin : s.getVBucketIn vbucket vbucket_state_active = none := by
      rcases h with h | ⟨b, h, hs⟩
      · have hb1 : s.vbuckets.getBucket vbucket = none := h
        simp [EventuallyPersistentStore.getVBucketIn, hb1]
      · have hb1 : s.vbuckets.getBucket vbucket = some b := h
        simp [EventuallyPersistentStore.getVBucketIn, hb1, hs]
    unfold EventuallyPersistentStore.unlockKey
    rw [hin]
    simp [EventuallyPersistentStore.incNumNotMyVBuckets]

/-- C6 at a concrete input: a value locked until 20 with cas 5 is unlocked at
time 10 with cas 5. -/
theorem unlockKey_requires_matching_cas_witness :
    ((mkStore [some (mkVBucket 0 vbucket_state_active [mkStoredValue "k" 5 0 20 true])]).unlockKey
        (fixedOps WAS_CLEAN ADD_SUCCESS) "k" 0 5 10 0).1 = ENGINE_SUCCESS :=
  ((unlockKey_requires_matching_cas (fixedOps WAS_CLEAN ADD_SUCCESS)
    (mkStore [some (mkVBucket 0 vbucket_state_active [mkStoredValue "k" 5 0 20 true])])
    "k" 0 5 10 0).1 (mkVBucket 0 vbucket_state_active [mkStoredValue "k" 5 0 20 true])
    (mkStoredValue "k" 5 0 20 true) (by decide) (by decide) (by decide) (by decide)
    (by decide)).1.2 ⟨by decide, by decide⟩

/-- C7 refuted at a concrete input: at `currentTime = 100` with
`lockTimeout = 4294967295` the 32-bit sum wraps to 99, so after a successful
`getLocked` the lock expiry is 99, not `currentTime + lockTimeout`, and the value
is not locked at time 100. -/
theorem getLocked_lock_expiry_wraps :
    ((mkStore [some (mkVBucket 0 vbucket_state_active [mkStoredValue "k" 5 0 0 true])]).getLocked
        (fixedOps WAS_CLEAN ADD_SUCCESS) "k" 0 100 4294967295 none 0 42).map (fun r => r.1)
      = some true ∧
    ((mkStore [some (mkVBucket 0 vbucket_state_active [mkStoredValue "k" 5 0 0 true])]).getLocked
        (fixedOps WAS_CLEAN ADD_SUCCESS) "k" 0 100 4294967295 none 0 42).map
        (fun r => (r.2.storedValue 0 "k").map StoredValue.lock_expiry) = some (some 99) ∧
    ((mkStore [some (mkVBucket 0 vbucket_state_active [mkStoredValue "k" 5 0 0 true])]).getLocked
        (fixedOps WAS_CLEAN ADD_SUCCESS) "k" 0 100 4294967295 none 0 42).map
        (fun r => (r.2.storedValue 0 "k").map (fun w => w.isLocked 100)) = some (some false) ∧
    (99 : Nat) ≠ 100 + 4294967295 := by
  decide

/-- C7, amended: on an active vbucket whose value for the key is live, unexpired,
resident and not locked at `currentTime`, `getLocked` returns true, sets the lock
expiry to `(currentTime + lockTimeout) mod 2^32` (which is
`currentTime + lockTimeout` when the sum fits in 32 bits), stamps the fresh cas on
the stored value and hands the callback the item of that stored value, carrying
the same cas. If the value is locked at `currentTime` it returns false, hands the
callback no item and leaves lock expiry and cas as they were. -/
theorem getLocked_locks_and_stamps (ops : HashTableOps) (s : EventuallyPersistentStore)
    (key : String) (vbucket currentTime lockTimeout : Nat) (cookie : Cookie)
    (now newCas : Nat) (b : VBucket) (v : StoredValue)
    (hb : s.getVBucket vbucket = some b) (hs : b.state = vbucket_state_active)
    (h : HashTable.lookup b.ht key = some v) (hd : v.deleted = false)
    (he : v.isExpired now = false) :
    (v.resident = true → v.isLocked currentTime = false →
      ∃ r, s.getLocked ops key vbucket currentTime lockTimeout cookie now newCas = some r ∧
        r.1 = true ∧
        ∃ w, r.2.storedValue vbucket key = some w ∧
          w.lock_expiry = (currentTime + lockTimeout) % 2 ^ 32 ∧
          (currentTime + lockTimeout < 2 ^ 32 → w.lock_expiry = currentTime + lockTimeout) ∧
          w.cas = newCas ∧
          (w.toItem false vbucket).cas = w.cas ∧
          r.2.trace
            = s.trace ++ [Event.callback ⟨some (w.toItem false vbucket), ENGINE_SUCCESS, -1⟩]) ∧
    (v.isLocked currentTime = true →
      ∃ r, s.getLocked ops key vbucket currentTime lockTimeout cookie now newCas = some r ∧
        r.1 = false ∧
        (∃ rv : GetValue, rv.value = none ∧ r.2.trace = s.trace ++ [Event.callback rv]) ∧
        ∃ w, r.2.storedValue vbucket key = some w ∧
          w.lock_expiry = v.lock_expiry ∧ w.cas = v.cas) := by
  have hin : s.getVBucketIn vbucket vbucket_state_active = some b := by
    have hb1 : s.vbuckets.getBucket vbucket = some b := hb
    simp [EventuallyPersistentStore.getVBucketIn, hb1, hs]
  have hk := lookup_key b.ht key v h
  constructor
  · intro hr hl
    have hl1 : ¬ (v.reference.isLocked currentTime = true) := by simp [hl]
    have hr1 : ¬ (v.reference.resident = false) := by simp [hr]
    unfold EventuallyPersistentStore.getLocked
    rw [hin]
    simp only [fetchValidValue_valid ops s vbucket key now b v hb h hd he, if_neg hl1,
      if_neg hr1]
    refine ⟨_, rfl, rfl, _, storedValue_after_write s vbucket key b v _ hb h hk, ?_, ?_, rfl,
      rfl, ?_⟩
    · simp [StoredValue.setCas, StoredValue.lock]
    · intro hlt
      have hm : (currentTime + lockTimeout) % 2 ^ 32 = currentTime + lockTimeout :=
        Nat.mod_eq_of_lt hlt
      simp only [StoredValue.setCas, StoredValue.lock, hm]
    · simp [StoredValue.setCas, StoredValue.lock, StoredValue.toItem,
        EventuallyPersistentStore.modifyValue]
      split <;> simp
  · intro hl
    have hl1 : v.reference.isLocked currentTime = true := hl
    unfold EventuallyPersistentStore.getLocked
    rw [hin]
    simp only [fetchValidValue_valid ops s vbucket key now b v hb h hd he, if_pos hl1]
    refine ⟨_, rfl, rfl, ⟨⟨none, ENGINE_KEY_ENOENT, -1⟩, rfl, by simp⟩, v.reference, ?_, rfl,
      rfl⟩
    have := storedValue_after_fetch s vbucket key b v hb h
    simpa [EventuallyPersistentStore.storedValue, EventuallyPersistentStore.getVBucket,
      EventuallyPersistentStore.emit] using this

/-- C7 (amended) at a concrete input: an unlocked resident value is locked at
time 10 for 15 seconds. -/
theorem getLocked_locks_and_stamps_witness :
    ∃ r, (mkStore [some (mkVBucket 0 vbucket_state_active
          [mkStoredValue "k" 5 0 0 true])]).getLocked
        (fixedOps WAS_CLEAN ADD_SUCCESS) "k" 0 10 15 none 0 42 = some r ∧ r.1 = true :=
  ((getLocked_locks_and_stamps (fixedOps WAS_CLEAN ADD_SUCCESS)
    (mkStore [some (mkVBucket 0 vbucket_state_active [mkStoredValue "k" 5 0 0 true])])
    "k" 0 10 15 none 0 42 (mkVBucket 0 vbucket_state_active [mkStoredValue "k" 5 0 0 true])
    (mkStoredValue "k" 5 0 0 true) (by decide) (by decide) (by decide) (by decide)
    (by decide)).1 (by decide) (by decide)).imp (fun _ h => ⟨h.1, h.2.1⟩)

/-- What `bgFetch` does for a value fetch when its assertions hold: on the
multi-fetch path the key is queued on the vbucket, and on the single-fetch
path, which needs a cookie, a `BGFetchCallback` is scheduled on the read
dispatcher. -/
theorem bgFetch_value (t : EventuallyPersistentStore) (key : String) (vbucket : Nat)
    (r : Int) (cookie : Cookie) (b : VBucket) (hb : t.getVBucket vbucket = some b)
    (hc : t.multiBGFetchEnabled = true ∨ cookie.isSome = true) :
    t.bgFetch key vbucket r cookie bg_fetch_type_t.BG_FETCH_VALUE
      = some (t.emit (if t.multiBGFetchEnabled = true
          then Event.queueBGFetchItem vbucket key r cookie
          else Event.schedule DispatcherId.roDispatcher
            (Task.BGFetchCallback key vbucket r cookie bg_fetch_type_t.BG_FETCH_VALUE)
            Priority.BgFetcherGetMetaPriority)) := by
  unfold EventuallyPersistentStore.bgFetch
  by_cases hm : t.multiBGFetchEnabled = true
  · simp [hm, hb]
  · have hcs : cookie.isSome = true := hc.resolve_left hm
    simp [hm, hcs]

/-- The single-fetch path of `bgFetch` stops at the assertion on the cookie when
there is none. -/
theorem bgFetch_no_cookie (t : EventuallyPersistentStore) (key : String) (vbucket : Nat)
    (r : Int) (type : bg_fetch_type_t) (hm : t.multiBGFetchEnabled = false) :
    t.bgFetch key vbucket r none type = none := by
  unfold EventuallyPersistentStore.bgFetch
  simp [hm]

/-- What `scheduleVBSnapshot` does at high priority: the flag ends up set, and
a snapshot task is scheduled unless the flag was already set. -/
theorem scheduleVBSnapshot_high (s : EventuallyPersistentStore) :
    (s.scheduleVBSnapshot Priority.VBucketPersistHighPriority).trace
      = s.trace ++
        (if s.vbuckets.highPriorityVbSnapshot = true then []
          else [Event.schedule DispatcherId.dispatcher
            (Task.SnapshotVBucketsCallback Priority.VBucketPersistHighPriority)
            Priority.VBucketPersistHighPriority]) ∧
    (s.scheduleVBSnapshot Priority.VBucketPersistHighPriority).vbuckets.buckets
      = s.vbuckets.buckets ∧
    (s.scheduleVBSnapshot Priority.VBucketPersistHighPriority).vbuckets.bucketDeletion
      = s.vbuckets.bucketDeletion ∧
    (s.scheduleVBSnapshot Priority.VBucketPersistHighPriority).vbuckets.highPriorityVbSnapshot
      = true := by
  unfold EventuallyPersistentStore.scheduleVBSnapshot
    VBucketMap.setHighPriorityVbSnapshotFlag
  cases hh : s.vbuckets.highPriorityVbSnapshot <;> simp [hh, EventuallyPersistentStore.emit]

/-- What `scheduleVBDeletion` does: the memory deletion task is scheduled, and
the disk deletion task too unless the id is already flagged for deletion. -/
theorem scheduleVBDeletion_effect (s : EventuallyPersistentStore) (vb : VBucket)
    (c : Cookie) :
    (s.scheduleVBDeletion vb c).trace
      = s.trace ++
        [Event.schedule DispatcherId.nonIODispatcher
          (Task.VBucketMemoryDeletionCallback vb.id) Priority.VBMemoryDeletionPriority] ++
        (if s.vbuckets.bucketDeletion.getD vb.id false = true then []
          else [Event.schedule DispatcherId.dispatcher
            (Task.VBucketDeletionCallback vb.id c) Priority.VBucketDeletionPriority]) ∧
    (s.scheduleVBDeletion vb c).vbuckets.buckets = s.vbuckets.buckets ∧
    (s.scheduleVBDeletion vb c).vbuckets.highPriorityVbSnapshot
      = s.vbuckets.highPriorityVbSnapshot := by
  unfold EventuallyPersistentStore.scheduleVBDeletion VBucketMap.setBucketDeletion
  have e1 : (s.emit (Event.schedule DispatcherId.nonIODispatcher
      (Task.VBucketMemoryDeletionCallback vb.id) Priority.VBMemoryDeletionPriority)).vbuckets
      = s.vbuckets := rfl
  simp only [e1]
  by_cases hbd : s.vbuckets.bucketDeletion.getD vb.id false = true
  · simp only [if_pos hbd, Bool.false_eq_true, if_false]
    refine ⟨by simp [EventuallyPersistentStore.emit], ?_, ?_⟩ <;> first | rfl | trivial
  · simp only [if_neg hbd, if_true]
    exact ⟨by simp [EventuallyPersistentStore.emit], rfl, rfl⟩

/-- C10 refuted at a concrete input: vbucket 0 is created in state dead, which
schedules a high-priority snapshot; `deleteVBucket` called before that snapshot
has run removes the vbucket and schedules the memory and disk deletion tasks, but
no further snapshot. -/
theorem deleteVBucket_snapshot_already_scheduled :
    ((mkStore [none]).setVBucketState 0 vbucket_state_dead).trace
      = [Event.schedule DispatcherId.dispatcher
          (Task.SnapshotVBucketsCallback Priority.VBucketPersistHighPriority)
          Priority.VBucketPersistHighPriority] ∧
    (((mkStore [none]).setVBucketState 0 vbucket_state_dead).deleteVBucket 0 none).1
      = ENGINE_SUCCESS ∧
    (((mkStore [none]).setVBucketState 0 vbucket_state_dead).deleteVBucket 0 none).2.trace
      = ((mkStore [none]).setVBucketState 0 vbucket_state_dead).trace ++
        [Event.schedule DispatcherId.nonIODispatcher (Task.VBucketMemoryDeletionCallback 0)
            Priority.VBMemoryDeletionPriority,
          Event.schedule DispatcherId.dispatcher (Task.VBucketDeletionCallback 0 none)
            Priority.VBucketDeletionPriority] := by
  decide

/-- C10, amended: `deleteVBucket` answers NOT_MY_VBUCKET for an id that is not in
the map and EINVAL for a vbucket in a state other than dead, leaving the store
untouched. For a dead vbucket it empties the map slot, leaves the high-priority
snapshot flag set, and schedules, in this order, a high-priority snapshot unless
one is already flagged as scheduled, the memory deletion task, and the disk
deletion task unless the vbucket id is already flagged for deletion; it answers
EWOULDBLOCK with a cookie and SUCCESS without. -/
theorem deleteVBucket_requires_dead (s : EventuallyPersistentStore) (vbid : Nat)
    (c : Cookie) :
    (s.vbuckets.getBucket vbid = none →
      s.deleteVBucket vbid c = (ENGINE_NOT_MY_VBUCKET, s)) ∧
    (∀ vb, s.vbuckets.getBucket vbid = some vb → vb.state ≠ vbucket_state_dead →
      s.deleteVBucket vbid c = (ENGINE_EINVAL, s)) ∧
    (∀ vb, s.vbuckets.getBucket vbid = some vb → vb.state = vbucket_state_dead →
      (s.deleteVBucket vbid c).1
        = (if c.isSome = true then ENGINE_EWOULDBLOCK else ENGINE_SUCCESS) ∧
      (s.deleteVBucket vbid c).2.vbuckets.getBucket vbid = none ∧
      (s.deleteVBucket vbid c).2.vbuckets.highPriorityVbSnapshot = true ∧
      (s.deleteVBucket vbid c).2.trace
        = s.trace ++
          (if s.vbuckets.highPriorityVbSnapshot = true then []
            else [Event.schedule DispatcherId.dispatcher
              (Task.SnapshotVBucketsCallback Priority.VBucketPersistHighPriority)
              Priority.VBucketPersistHighPriority]) ++
          [Event.schedule DispatcherId.nonIODispatcher
            (Task.VBucketMemoryDeletionCallback vb.id) Priority.VBMemoryDeletionPriority] ++
          (if s.vbuckets.bucketDeletion.getD vb.id false = true then []
            else [Event.schedule DispatcherId.dispatcher
              (Task.VBucketDeletionCallback vb.id c) Priority.VBucketDeletionPriority])) := by
  refine ⟨?_, ?_, ?_⟩
  · intro h
    simp [EventuallyPersistentStore.deleteVBucket, h]
  · intro vb h hs
    simp [EventuallyPersistentStore.deleteVBucket, h, hs]
  · intro vb h hs
    have hrm : (s.vbuckets.removeBucket vbid).buckets.getD vbid none = none := by
      unfold VBucketMap.removeBucket
      by_cases hi : vbid < s.vbuckets.buckets.length
      · simp [List.getD_eq_getElem?_getD, hi]
      · exact List.getD_eq_default _ _ (by simpa using Nat.le_of_not_lt hi)
    obtain ⟨a1, a2, a3, a4⟩ := scheduleVBSnapshot_high
      { s with vbuckets := s.vbuckets.removeBucket vbid }
    obtain ⟨b1, b2, b3⟩ := scheduleVBDeletion_effect
      (EventuallyPersistentStore.scheduleVBSnapshot
        { s with vbuckets := s.vbuckets.removeBucket vbid } Priority.VBucketPersistHighPriority)
      vb c
    have hflag : (VBucketMap.removeBucket s.vbuckets vbid).highPriorityVbSnapshot
        = s.vbuckets.highPriorityVbSnapshot := rfl
    have hbdel : (VBucketMap.removeBucket s.vbuckets vbid).bucketDeletion
        = s.vbuckets.bucketDeletion := rfl
    simp only [hflag] at a1
    simp only [a3, hbdel] at b1
    have hsnd : (s.deleteVBucket vbid c).2
        = EventuallyPersistentStore.scheduleVBDeletion
            (EventuallyPersistentStore.scheduleVBSnapshot
              { s with vbuckets := s.vbuckets.removeBucket vbid }
              Priority.VBucketPersistHighPriority) vb c := by
      simp only [EventuallyPersistentStore.deleteVBucket, h, hs, if_true]
      split_ifs <;> rfl
    refine ⟨?_, ?_, ?_, ?_⟩
    · simp only [EventuallyPersistentStore.deleteVBucket, h, hs, if_true]
      split_ifs <;> rfl
    · rw [hsnd]
      unfold VBucketMap.getBucket
      rw [b2.trans a2]
      exact hrm
    · rw [hsnd]
      exact b3.trans a4
    · rw [hsnd, b1, a1]

/-- C10 (amended) at a concrete input: a dead vbucket with no snapshot pending is
deleted with a cookie. -/
theorem deleteVBucket_requires_dead_witness :
    ((mkStore [some (mkVBucket 0 vbucket_state_dead [])]).deleteVBucket 0 (some 3)).1
      = (if (some 3 : Cookie).isSome = true then ENGINE_EWOULDBLOCK else ENGINE_SUCCESS) ∧
    ((mkStore [some (mkVBucket 0 vbucket_state_active [])]).deleteVBucket 0 (some 3))
      = (ENGINE_EINVAL, mkStore [some (mkVBucket 0 vbucket_state_active [])]) :=
  ⟨((deleteVBucket_requires_dead (mkStore [some (mkVBucket 0 vbucket_state_dead [])]) 0
      (some 3)).2.2 (mkVBucket 0 vbucket_state_dead []) (by decide) (by decide)).1,
   (deleteVBucket_requires_dead (mkStore [some (mkVBucket 0 vbucket_state_active [])]) 0
      (some 3)).2.1 (mkVBucket 0 vbucket_state_active []) (by decide) (by decide)⟩

/-! ### Transaction context -/

/-- The commit loop on `k` failures followed by a success: the `k` failed
attempts and the successful one are made, and `commitFailed` grows by `k`. -/
theorem commitLoop_failures (k : Nat) (rest : List Bool) (st : FlusherState) :
    FlusherState.commitLoop st (List.replicate k false ++ true :: rest)
      = some { st with
          io := st.io ++ failedCommits k ++ [IOEvent.storeCommit true]
          pstats := { st.pstats with commitFailed := st.pstats.commitFailed + k }
          commitAnswers := rest } := by
  induction k generalizing st with
  | zero =>
    simp [FlusherState.commitLoop, FlusherState.emit, failedCommits]
  | succ k ih =>
    have hl : List.replicate (k + 1) false ++ true :: rest
        = false :: (List.replicate k false ++ true :: rest) := rfl
    rw [hl, FlusherState.commitLoop, ih]
    simp [FlusherState.emit, failedCommits, Nat.add_assoc, Nat.add_comm 1 k]

/-- C11: when the store's `commit()` fails `k` times and then succeeds,
`TransactionContext::commit` returns, having made, in this order, one
mutation-log `commit1`, `k` failed store commits (each followed by a warning and
a one-second sleep), the successful store commit, and one mutation-log
`commit2`; that is `k + 1` store commit attempts. `commitFailed` grows by `k`
and `flusherCommits` by one, and afterwards the context is out of its
transaction with empty uncommitted-item list, zero count and empty callback
list. -/
theorem commit_two_phase (st : FlusherState) (k : Nat) (rest : List Bool)
    (h : st.commitAnswers = List.replicate k false ++ true :: rest) :
    ∃ st1, st.commit = some st1 ∧
      st1.io = st.io ++ [IOEvent.log_commit1] ++ failedCommits k ++
        [IOEvent.storeCommit true, IOEvent.log_commit2] ∧
      (failedCommits k ++ [IOEvent.storeCommit true]).countP IOEvent.isStoreCommit = k + 1 ∧
      st1.pstats.commitFailed = st.pstats.commitFailed + k ∧
      st1.pstats.flusherCommits = st.pstats.flusherCommits + 1 ∧
      st1.tctx.intxn = false ∧
      st1.tctx.uncommittedItems = [] ∧
      st1.tctx.numUncommittedItems = 0 ∧
      st1.tctx.transactionCallbacks = [] := by
  have hc : ∀ n, (failedCommits n).countP IOEvent.isStoreCommit = n := by
    intro n
    induction n with
    | zero => rfl
    | succ n ih => simp [failedCommits, IOEvent.isStoreCommit, ih]
  unfold FlusherState.commit
  rw [h, commitLoop_failures]
  refine ⟨_, rfl, ?_, ?_, rfl, rfl, rfl, rfl, rfl, rfl⟩
  · simp [FlusherState.emit]
  · simp [List.countP_append, hc, IOEvent.isStoreCommit]

/-- C11 at a concrete input: the store fails twice, then commits. -/
theorem commit_two_phase_witness :
    ∃ st1, (mkFlusher (mkStore []) 0 0 [] [false, false, true]).commit = some st1 ∧
      st1.io = [IOEvent.log_commit1] ++ failedCommits 2 ++
        [IOEvent.storeCommit true, IOEvent.log_commit2] ∧
      st1.pstats.commitFailed = 0 + 2 :=
  (commit_two_phase (mkFlusher (mkStore []) 0 0 [] [false, false, true]) 2 [] (by decide)).imp
    (fun _ h => ⟨h.1, by simpa [mkFlusher] using h.2.1, h.2.2.2.1⟩)


/-! ### The flusher: one item -/

/-- Writing back the element a list already holds changes nothing. -/
theorem list_set_self {α : Type} : ∀ (l : List α) (i : Nat) (a : α),
    l[i]? = some a → l.set i a = l
  | [], _, _, _ => rfl
  | x :: xs, 0, a, h => by
    simp only [List.getElem?_cons_zero, Option.some.injEq] at h
    simp [h]
  | x :: xs, i + 1, a, h => by
    simp only [List.getElem?_cons_succ] at h
    simp [list_set_self xs i a h]

/-- Writing back the vbucket that is already stored changes nothing. -/
theorem putVB_self (s : EventuallyPersistentStore) (i : Nat) (b : VBucket)
    (h : s.getVBucket i = some b) : s.putVB i b = s := by
  unfold EventuallyPersistentStore.getVBucket VBucketMap.getBucket at h
  have hi : i < s.vbuckets.buckets.length := by
    by_contra hn
    rw [List.getD_eq_default _ _ (Nat.le_of_not_lt hn)] at h
    exact Option.noConfusion h
  have hget : s.vbuckets.buckets[i]? = some (some b) := by
    rw [List.getD_eq_getElem?_getD] at h
    rw [List.getElem?_eq_getElem hi] at h ⊢
    simpa using h
  have hset : s.vbuckets.buckets.set i (some b) = s.vbuckets.buckets :=
    list_set_self _ i (some b) hget
  unfold EventuallyPersistentStore.putVB
  rw [hset]

/-- A value that is not expired at a later time is not expired now. -/
theorem isExpired_mono (v : StoredValue) (t w : Nat) (h : v.isExpired (t + w) = false) :
    v.isExpired t = false := by
  unfold StoredValue.isExpired at h ⊢
  by_cases h0 : v.exptime = 0
  · simp [h0]
  · simp [h0] at h ⊢
    omega

/-- The lookup of the flusher (`wantDeleted`, no reference tracking) hands back
a stored value that is deleted or unexpired and leaves the state as it is. -/
theorem fetchValidValue_flush (ops : HashTableOps) (s : EventuallyPersistentStore) (vb : Nat)
    (key : String) (now : Nat) (b : VBucket) (v : StoredValue)
    (hb : s.getVBucket vb = some b) (h : HashTable.lookup b.ht key = some v)
    (hv : v.deleted = true ∨ v.isExpired now = false) :
    s.fetchValidValue ops vb key true false now = (some v, s) := by
  have hp : s.putVB vb { b with ht := b.ht } = s := putVB_self s vb b hb
  unfold EventuallyPersistentStore.fetchValidValue
  simp only [hb, HashTable.unlocked_find, h, Bool.true_or, if_true, Bool.false_eq_true,
    if_false, hp]
  rcases hv with hd | he
  · simp [hd]
  · simp [he]

/-- The lookup of the flusher finds nothing when the key is absent. -/
theorem fetchValidValue_flush_none (ops : HashTableOps) (s : EventuallyPersistentStore)
    (vb : Nat) (key : String) (now : Nat) (b : VBucket)
    (hb : s.getVBucket vb = some b) (h : HashTable.lookup b.ht key = none) :
    s.fetchValidValue ops vb key true false now = (none, s) := by
  have hp : s.putVB vb { b with ht := b.ht } = s := putVB_self s vb b hb
  unfold EventuallyPersistentStore.fetchValidValue
  simp only [hb, HashTable.unlocked_find, h, Bool.false_eq_true, if_false, hp]

/-- Reading back a write through a `StoredValue*`. -/
theorem storedValue_modifyValue (s : EventuallyPersistentStore) (vb : Nat) (key : String)
    (f : StoredValue → StoredValue) (b : VBucket) (v : StoredValue)
    (hb : s.getVBucket vb = some b) (h : HashTable.lookup b.ht key = some v)
    (hk : (f v).key = key) :
    (s.modifyValue vb key f).storedValue vb key = some (f v) := by
  unfold EventuallyPersistentStore.modifyValue
  rw [hb]
  unfold EventuallyPersistentStore.storedValue
  rw [getVBucket_putVB s vb b _ hb]
  exact lookup_modify b.ht key f v h hk

/-- A write through a `StoredValue*` keeps the flags of the vbucket map. -/
theorem modifyValue_flags (s : EventuallyPersistentStore) (vb : Nat) (key : String)
    (f : StoredValue → StoredValue) :
    (s.modifyValue vb key f).vbuckets.bucketDeletion = s.vbuckets.bucketDeletion ∧
    (s.modifyValue vb key f).vbuckets.highPriorityVbSnapshot
      = s.vbuckets.highPriorityVbSnapshot := by
  unfold EventuallyPersistentStore.modifyValue
  cases s.getVBucket vb with
  | none => exact ⟨rfl, rfl⟩
  | some b => exact ⟨rfl, rfl⟩

/-- The flusher state around its own facade state is itself. -/
theorem withStore_self (st : FlusherState) : st.withStore st.store = st := rfl

/-- The deletion flag read after writes that keep the flags of the vbucket
map. -/
theorem isBucketDeletion_congr (st st1 : FlusherState) (i : Nat)
    (h : st1.store.vbuckets.bucketDeletion = st.store.vbuckets.bucketDeletion) :
    st1.isBucketDeletion i = st.isBucketDeletion i := by
  unfold FlusherState.isBucketDeletion
  rw [h]

/-- What `flushOneDelOrSet` does with a dirty, live value that expires within
the expiry window, when the vbucket is not flagged for deletion. -/
theorem flushOneDelOrSet_fold (env : FlushEnv) (st : FlusherState) (qi : QueuedItem)
    (b : VBucket) (v : StoredValue)
    (hb : st.store.getVBucket qi.vbid = some b)
    (hv : HashTable.lookup b.ht qi.key = some v)
    (hdel : v.deleted = false) (hdirty : v.dirty = true)
    (hnow : v.isExpired env.realTime = false)
    (hexp : v.isExpired (env.realTime + st.itemExpiryWindow) = true)
    (hbd : st.isBucketDeletion qi.vbid = false) :
    st.flushOneDelOrSet env qi
      = (0, ((st.incFlushExpired.modifyValue
            qi.vbid qi.key (fun w => w.markClean.2.clearId)).addCallback
            ⟨qi, env.getQueuedTime qi, v.dataAge, 0⟩).emit
          (IOEvent.storeDel (flushItem qi v) v.id ⟨qi, env.getQueuedTime qi, v.dataAge, 0⟩)) := by
  have hf := fetchValidValue_flush env.ops st.store qi.vbid qi.key env.realTime b v hb hv
    (Or.inr hnow)
  have hbd1 : (st.incFlushExpired.modifyValue
      qi.vbid qi.key (fun w => w.markClean.2.clearId)).isBucketDeletion qi.vbid = false := by
    rw [isBucketDeletion_congr st _ qi.vbid (modifyValue_flags _ _ _ _).1]
    exact hbd
  unfold FlusherState.flushOneDelOrSet
  simp only [hb, hf, withStore_self, hdel, hdirty, hexp]
  simp [hbd1, flushItem]
  rfl

/-- What `flushOneDelOrSet` does with a dirty, live value that expires within
the expiry window, when the vbucket is flagged for deletion: the value is
counted and cleared as in the unflagged case, and no store call is made. -/
theorem flushOneDelOrSet_fold_flagged (env : FlushEnv) (st : FlusherState) (qi : QueuedItem)
    (b : VBucket) (v : StoredValue)
    (hb : st.store.getVBucket qi.vbid = some b)
    (hv : HashTable.lookup b.ht qi.key = some v)
    (hdel : v.deleted = false) (hdirty : v.dirty = true)
    (hnow : v.isExpired env.realTime = false)
    (hexp : v.isExpired (env.realTime + st.itemExpiryWindow) = true)
    (hbd : st.isBucketDeletion qi.vbid = true) :
    st.flushOneDelOrSet env qi
      = (0, st.incFlushExpired.modifyValue qi.vbid qi.key (fun w => w.markClean.2.clearId)) := by
  have hf := fetchValidValue_flush env.ops st.store qi.vbid qi.key env.realTime b v hb hv
    (Or.inr hnow)
  have hbd1 : (st.incFlushExpired.modifyValue
      qi.vbid qi.key (fun w => w.markClean.2.clearId)).isBucketDeletion qi.vbid = true := by
    rw [isBucketDeletion_congr st _ qi.vbid (modifyValue_flags _ _ _ _).1]
    exact hbd
  unfold FlusherState.flushOneDelOrSet
  simp only [hb, hf, withStore_self, hdel, hdirty, hexp]
  simp [hbd1]

/-- C16 refuted at concrete inputs: the stored value of key k in vbucket 0 is
present, dirty, not deleted and expires (at 100) inside the expiry window of a
flush at time 50 with window 60, but the vbucket is flagged for deletion: the
flush counts the item as expired and clears it, and issues no store delete.
Without the flag, the same value marked deleted is not counted as expired; and
a value that expired (at 40) before the flush is not counted either, and its
store delete carries row id −1 instead of the row id 3 it had. -/
theorem flushOneDelOrSet_no_delete_for_bucket_under_deletion :
    ((mkFlusher (flagDeletion (mkStore [some (mkVBucket 0 vbucket_state_active
          [mkDirtyValue "k" 7 100 10 3])]) 0) 0 100 [] []).store.storedValue 0 "k"
      = some (mkDirtyValue "k" 7 100 10 3)) ∧
    (mkDirtyValue "k" 7 100 10 3).isExpired (50 + 60) = true ∧
    (({ mkFlusher (flagDeletion (mkStore [some (mkVBucket 0 vbucket_state_active
          [mkDirtyValue "k" 7 100 10 3])]) 0) 0 100 [] [] with
        itemExpiryWindow := 60 } : FlusherState).flushOneDelOrSet (mkEnv 10 50 20)
        ⟨"k", 0, queue_op_set, 3, 0⟩).2.pstats.flushExpired = 1 ∧
    (({ mkFlusher (flagDeletion (mkStore [some (mkVBucket 0 vbucket_state_active
          [mkDirtyValue "k" 7 100 10 3])]) 0) 0 100 [] [] with
        itemExpiryWindow := 60 } : FlusherState).flushOneDelOrSet (mkEnv 10 50 20)
        ⟨"k", 0, queue_op_set, 3, 0⟩).2.io = [] ∧
    (({ mkFlusher (mkStore [some (mkVBucket 0 vbucket_state_active
          [{ mkDirtyValue "k" 7 100 10 3 with deleted := true }])]) 0 100 [] [] with
        itemExpiryWindow := 60 } : FlusherState).flushOneDelOrSet (mkEnv 10 50 20)
        ⟨"k", 0, queue_op_set, 3, 0⟩).2.pstats.flushExpired = 0 ∧
    (({ mkFlusher (mkStore [some (mkVBucket 0 vbucket_state_active
          [mkDirtyValue "k" 7 40 10 3])]) 0 100 [] [] with
        itemExpiryWindow := 60 } : FlusherState).flushOneDelOrSet (mkEnv 10 50 20)
        ⟨"k", 0, queue_op_set, 3, 0⟩).2.pstats.flushExpired = 0 ∧
    (({ mkFlusher (mkStore [some (mkVBucket 0 vbucket_state_active
          [mkDirtyValue "k" 7 40 10 3])]) 0 100 [] [] with
        itemExpiryWindow := 60 } : FlusherState).flushOneDelOrSet (mkEnv 10 50 20)
        ⟨"k", 0, queue_op_set, 3, 0⟩).2.io
      = [IOEvent.storeDel ⟨"k", 0, 0, 0, 0, 0, -1, none⟩ (-1)
          ⟨⟨"k", 0, queue_op_set, 3, 0⟩, 10, 0, 0⟩] := by
  decide

/-- C16, amended: when `flushOneDelOrSet` runs on a queued item whose stored
value is present, not deleted, dirty, not yet expired at the time of the flush
but expired at that time plus the expiry window, the flush treats the item as a
deletion, whether or not the vbucket is flagged for deletion: `flushExpired`
grows by exactly one, the stored value is marked clean and its row id cleared,
no store set is issued, nothing is rejected and 0 is returned. If the vbucket
is not flagged for deletion, the one outside call made is a store delete
carrying the row id the value had before it was cleared; if the vbucket is
flagged for deletion, no outside call is made. -/
theorem flushOneDelOrSet_expiry_fold_in (env : FlushEnv) (st : FlusherState)
    (qi : QueuedItem) (b : VBucket) (v : StoredValue)
    (hb : st.store.getVBucket qi.vbid = some b)
    (hv : HashTable.lookup b.ht qi.key = some v)
    (hdel : v.deleted = false) (hdirty : v.dirty = true)
    (hnow : v.isExpired env.realTime = false)
    (hexp : v.isExpired (env.realTime + st.itemExpiryWindow) = true) :
    (st.flushOneDelOrSet env qi).1 = 0 ∧
    (st.flushOneDelOrSet env qi).2.pstats.flushExpired = st.pstats.flushExpired + 1 ∧
    (st.flushOneDelOrSet env qi).2.store.storedValue qi.vbid qi.key
      = some { v with dirty := false, id := -1 } ∧
    (st.flushOneDelOrSet env qi).2.io.filter IOEvent.isStoreSet
      = st.io.filter IOEvent.isStoreSet ∧
    (st.flushOneDelOrSet env qi).2.rejectQueue = st.rejectQueue ∧
    (st.isBucketDeletion qi.vbid = false →
      (st.flushOneDelOrSet env qi).2.io
        = st.io ++ [IOEvent.storeDel (flushItem qi v) v.id
            ⟨qi, env.getQueuedTime qi, v.dataAge, 0⟩] ∧
      (flushItem qi v).id = v.id ∧
      storeWrites (st.flushOneDelOrSet env qi).2.io
        = storeWrites st.io ++ [IOEvent.storeDel (flushItem qi v) v.id
            ⟨qi, env.getQueuedTime qi, v.dataAge, 0⟩]) ∧
    (st.isBucketDeletion qi.vbid = true → (st.flushOneDelOrSet env qi).2.io = st.io) := by
  have hk := lookup_key b.ht qi.key v hv
  have hsv := storedValue_modifyValue st.store qi.vbid qi.key
    (fun w => w.markClean.2.clearId) b v hb hv hk
  cases hbd : st.isBucketDeletion qi.vbid with
  | false =>
    rw [flushOneDelOrSet_fold env st qi b v hb hv hdel hdirty hnow hexp hbd]
    refine ⟨rfl, rfl, hsv, ?_, rfl, fun _ => ⟨rfl, rfl, ?_⟩, fun hx => Bool.noConfusion hx⟩
    · simp [FlusherState.emit, FlusherState.addCallback, FlusherState.modifyValue,
        FlusherState.incFlushExpired, IOEvent.isStoreSet]
    · simp [FlusherState.emit, FlusherState.addCallback, FlusherState.modifyValue,
        FlusherState.incFlushExpired, storeWrites, IOEvent.isStoreSet, IOEvent.isStoreDel]
  | true =>
    rw [flushOneDelOrSet_fold_flagged env st qi b v hb hv hdel hdirty hnow hexp hbd]
    exact ⟨rfl, rfl, hsv, rfl, rfl, fun hx => Bool.noConfusion hx, fun _ => rfl⟩

/-- C16 (amended) at a concrete input: the value of key k expires at 100, the
flush runs at 50 with window 60, and the vbucket is not flagged for deletion. -/
theorem flushOneDelOrSet_expiry_fold_in_witness :
    (({ mkFlusher (mkStore [some (mkVBucket 0 vbucket_state_active
          [mkDirtyValue "k" 7 100 10 3])]) 0 100 [] [] with
        itemExpiryWindow := 60 } : FlusherState).flushOneDelOrSet (mkEnv 10 50 20)
        ⟨"k", 0, queue_op_set, 3, 0⟩).2.pstats.flushExpired = 0 + 1 :=
  (flushOneDelOrSet_expiry_fold_in (mkEnv 10 50 20)
    { mkFlusher (mkStore [some (mkVBucket 0 vbucket_state_active
          [mkDirtyValue "k" 7 100 10 3])]) 0 100 [] [] with itemExpiryWindow := 60 }
    ⟨"k", 0, queue_op_set, 3, 0⟩
    (mkVBucket 0 vbucket_state_active [mkDirtyValue "k" 7 100 10 3])
    (mkDirtyValue "k" 7 100 10 3) (by decide) (by decide) (by decide) (by decide)
    (by decide) (by decide)).2.1


/-- What `flushOneDelOrSet` does with a dirty, live value outside the expiry
window that has no row-id assignment in flight, was queued no longer ago than
the queue age cap and was dirtied less than `min_data_age` ago. -/
theorem flushOneDelOrSet_young (env : FlushEnv) (st : FlusherState) (qi : QueuedItem)
    (b : VBucket) (v : StoredValue)
    (hb : st.store.getVBucket qi.vbid = some b)
    (hv : HashTable.lookup b.ht qi.key = some v)
    (hdel : v.deleted = false) (hdirty : v.dirty = true)
    (hwin : v.isExpired (env.realTime + st.itemExpiryWindow) = false)
    (hpend : v.pendingId = false)
    (hcap : relAge env.curTime (env.getQueuedTime qi) ≤ st.pstats.queue_age_cap)
    (hyoung : relAge env.curTime v.dataAge < st.pstats.min_data_age) :
    st.flushOneDelOrSet env qi
      = (st.pstats.min_data_age - relAge env.curTime v.dataAge,
          (st.incTooYoung.modifyValue qi.vbid qi.key (fun w => w.reDirty v.dataAge)).reject qi) := by
  have hf := fetchValidValue_flush env.ops st.store qi.vbid qi.key env.realTime b v hb hv
    (Or.inr (isExpired_mono v _ _ hwin))
  have hncap : ¬ relAge env.curTime (env.getQueuedTime qi) > st.pstats.queue_age_cap :=
    not_lt.mpr hcap
  unfold FlusherState.flushOneDelOrSet
  simp only [hb, hf, withStore_self, hdel, hdirty, hwin, hpend]
  simp [hncap, hyoung]

/-- What `flushOneDelOrSet` does with a dirty, live value outside the expiry
window that has no row-id assignment in flight and was queued longer ago than
the queue age cap, when the vbucket is not flagged for deletion and no
high-priority snapshot is scheduled. -/
theorem flushOneDelOrSet_old (env : FlushEnv) (st : FlusherState) (qi : QueuedItem)
    (b : VBucket) (v : StoredValue)
    (hb : st.store.getVBucket qi.vbid = some b)
    (hv : HashTable.lookup b.ht qi.key = some v)
    (hdel : v.deleted = false) (hdirty : v.dirty = true)
    (hwin : v.isExpired (env.realTime + st.itemExpiryWindow) = false)
    (hpend : v.pendingId = false)
    (hcap : relAge env.curTime (env.getQueuedTime qi) > st.pstats.queue_age_cap)
    (hbd : st.isBucketDeletion qi.vbid = false)
    (hsnap : st.isHighPriorityVbSnapshotScheduled = false) :
    st.flushOneDelOrSet env qi
      = (0, ((if v.id = -1 then st.incTooOld.modifyValue qi.vbid qi.key StoredValue.setPendingId
              else st.incTooOld).addCallback ⟨qi, env.getQueuedTime qi, v.dataAge, v.cas⟩).emit
          (IOEvent.storeSet (flushItem qi v) ⟨qi, env.getQueuedTime qi, v.dataAge, v.cas⟩)) := by
  have hf := fetchValidValue_flush env.ops st.store qi.vbid qi.key env.realTime b v hb hv
    (Or.inr (isExpired_mono v _ _ hwin))
  have hbd1 : st.incTooOld.isBucketDeletion qi.vbid = false := hbd
  have hsnap1 : st.incTooOld.isHighPriorityVbSnapshotScheduled = false := hsnap
  unfold FlusherState.flushOneDelOrSet
  simp only [hb, hf, withStore_self, hdel, hdirty, hwin, hpend]
  simp [hcap, hbd1, hsnap1, flushItem]

/-- What `flushOneDelOrSet` does with a dirty, live value outside the expiry
window that has no row-id assignment in flight and was queued longer ago than
the queue age cap, when the vbucket is flagged for deletion: `tooOld` is
counted and nothing else is done. -/
theorem flushOneDelOrSet_old_flagged (env : FlushEnv) (st : FlusherState) (qi : QueuedItem)
    (b : VBucket) (v : StoredValue)
    (hb : st.store.getVBucket qi.vbid = some b)
    (hv : HashTable.lookup b.ht qi.key = some v)
    (hdel : v.deleted = false) (hdirty : v.dirty = true)
    (hwin : v.isExpired (env.realTime + st.itemExpiryWindow) = false)
    (hpend : v.pendingId = false)
    (hcap : relAge env.curTime (env.getQueuedTime qi) > st.pstats.queue_age_cap)
    (hbd : st.isBucketDeletion qi.vbid = true) :
    st.flushOneDelOrSet env qi = (0, st.incTooOld) := by
  have hf := fetchValidValue_flush env.ops st.store qi.vbid qi.key env.realTime b v hb hv
    (Or.inr (isExpired_mono v _ _ hwin))
  have hbd1 : st.incTooOld.isBucketDeletion qi.vbid = true := hbd
  unfold FlusherState.flushOneDelOrSet
  simp only [hb, hf, withStore_self, hdel, hdirty, hwin, hpend]
  simp [hcap, hbd1]

/-- What `flushOneDelOrSet` does with a dirty, live value outside the expiry
window that has no row-id assignment in flight and was queued longer ago than
the queue age cap, when the vbucket is not flagged for deletion and a
high-priority snapshot is scheduled: `tooOld` is counted, the pending flag of
the value is cleared and the item is pushed onto the reject queue. -/
theorem flushOneDelOrSet_old_snapshot (env : FlushEnv) (st : FlusherState) (qi : QueuedItem)
    (b : VBucket) (v : StoredValue)
    (hb : st.store.getVBucket qi.vbid = some b)
    (hv : HashTable.lookup b.ht qi.key = some v)
    (hdel : v.deleted = false) (hdirty : v.dirty = true)
    (hwin : v.isExpired (env.realTime + st.itemExpiryWindow) = false)
    (hpend : v.pendingId = false)
    (hcap : relAge env.curTime (env.getQueuedTime qi) > st.pstats.queue_age_cap)
    (hbd : st.isBucketDeletion qi.vbid = false)
    (hsnap : st.isHighPriorityVbSnapshotScheduled = true) :
    st.flushOneDelOrSet env qi
      = (0, (st.incTooOld.modifyValue qi.vbid qi.key StoredValue.clearPendingId).reject qi) := by
  have hf := fetchValidValue_flush env.ops st.store qi.vbid qi.key env.realTime b v hb hv
    (Or.inr (isExpired_mono v _ _ hwin))
  have hbd1 : st.incTooOld.isBucketDeletion qi.vbid = false := hbd
  have hsnap1 : st.incTooOld.isHighPriorityVbSnapshotScheduled = true := hsnap
  unfold FlusherState.flushOneDelOrSet
  simp only [hb, hf, withStore_self, hdel, hdirty, hwin, hpend]
  simp [hcap, hbd1, hsnap1]

/-- One more returned value in front of the batch: the fold of `flushSome`
takes it when it is non-zero and below the least value so far. -/
theorem minNonZero_cons (m r : Int) (t : List Int) :
    minNonZero m (r :: t) = minNonZero (if r ≠ 0 ∧ r < m then r else m) t := by
  unfold minNonZero
  by_cases h0 : r = 0
  · simp [h0]
  · by_cases hlt : r < m
    · simp [h0, hlt, List.filter_cons, min_eq_right (le_of_lt hlt)]
    · simp [h0, hlt, List.filter_cons, min_eq_left (not_lt.mp hlt)]

/-- The loop of `flushSome` returns the least of its starting value and the
non-zero values `flushOne` returned, and it returns exactly when every
`flushOne` of the batch does. -/
theorem flushLoop_eq (env : FlushEnv) : ∀ (n : Nat) (st : FlusherState)
    (q : List QueuedItem) (oldest : Int),
    FlusherState.flushLoop env n st q oldest
      = (FlusherState.flushReturns env n st q).map
          (fun t => (minNonZero oldest t.1, t.2.1, t.2.2))
  | 0, st, q, oldest => by
    simp [FlusherState.flushLoop, FlusherState.flushReturns, minNonZero]
  | n + 1, st, [], oldest => by
    simp [FlusherState.flushLoop, FlusherState.flushReturns, minNonZero]
  | n + 1, st, qi :: q1, oldest => by
    rw [FlusherState.flushLoop, FlusherState.flushReturns]
    cases h : st.flushOne env (qi :: q1) with
    | none => rfl
    | some r =>
      simp only [h]
      rw [flushLoop_eq env n r.2.1 r.2.2]
      cases ht : FlusherState.flushReturns env n r.2.1 r.2.2 with
      | none => rfl
      | some t => simp [minNonZero_cons]


/-- What `flushSome` returns once the transaction is entered: the least of
`min_data_age` and the non-zero values returned for the batch, after the
commit. -/
theorem flushSome_entered (env : FlushEnv) (st st1 : FlusherState) (q : List QueuedItem)
    (h : st.enter = some (true, st1)) :
    st.flushSome env q
      = (FlusherState.flushReturns env st1.txnSize st1 q).bind
          (fun t => t.2.1.commit.map
            (fun st3 => (minNonZero st1.pstats.min_data_age t.1, st3, t.2.2))) := by
  unfold FlusherState.flushSome
  simp only [h]
  rw [if_neg (by decide), flushLoop_eq]
  cases FlusherState.flushReturns env st1.txnSize st1 q with
  | none => rfl
  | some t =>
    cases hc : t.2.1.commit with
    | none => simp [hc]
    | some st3 => simp [hc]

/-- C17 refuted at a concrete input: the stored value of key k is dirty, live,
outside the expiry window and has no row-id assignment in flight, and it was
queued 10 seconds ago with a queue age cap of 3, but a high-priority vbucket
snapshot is scheduled: `tooOld` is counted, and the item is pushed onto the
reject queue and not flushed (no store call is made). -/
theorem flushOneDelOrSet_too_old_rejected_during_snapshot :
    ((mkFlusher (flagSnapshot (mkStore [some (mkVBucket 0 vbucket_state_active
          [mkDirtyValue "k" 7 0 9 3])])) 5 3 [] []).flushOneDelOrSet (mkEnv 0 50 10)
        ⟨"k", 0, queue_op_set, 3, 0⟩).2.pstats.tooOld = 1 ∧
    relAge 10 0 > 3 ∧
    ((mkFlusher (flagSnapshot (mkStore [some (mkVBucket 0 vbucket_state_active
          [mkDirtyValue "k" 7 0 9 3])])) 5 3 [] []).flushOneDelOrSet (mkEnv 0 50 10)
        ⟨"k", 0, queue_op_set, 3, 0⟩).2.io = [] ∧
    ((mkFlusher (flagSnapshot (mkStore [some (mkVBucket 0 vbucket_state_active
          [mkDirtyValue "k" 7 0 9 3])])) 5 3 [] []).flushOneDelOrSet (mkEnv 0 50 10)
        ⟨"k", 0, queue_op_set, 3, 0⟩).2.rejectQueue = [⟨"k", 0, queue_op_set, 3, 0⟩] := by
  decide

/-- C17, amended: let the stored value of a queued item be present, dirty, not
deleted, not within the expiry window and without a pending row-id assignment.
If dirty-age ≤ `queue_age_cap` and data-age < `min_data_age`, then
`flushOneDelOrSet` pushes the item onto the reject queue exactly once, makes no
outside call (so no store write), leaves the value dirty with its data age,
increments `tooYoung`, and returns `min_data_age` − data-age, a positive number.
If dirty-age > `queue_age_cap`, then whatever the data-age, `tooOld` is
incremented and 0 is returned; and if moreover the vbucket is not flagged for
deletion and no high-priority vbucket snapshot is scheduled, a store set of the
item is issued and nothing is rejected, while for a vbucket flagged for deletion
no outside call is made and nothing is rejected, and for an unflagged vbucket
with a high-priority snapshot scheduled no outside call is made and the item is
pushed onto the reject queue. Once the transaction is entered, `flushSome`
returns the minimum of `min_data_age` and the non-zero values returned for the
batch. -/
theorem flush_age_gate (env : FlushEnv) (st : FlusherState) (qi : QueuedItem)
    (b : VBucket) (v : StoredValue)
    (hb : st.store.getVBucket qi.vbid = some b)
    (hv : HashTable.lookup b.ht qi.key = some v)
    (hdel : v.deleted = false) (hdirty : v.dirty = true)
    (hwin : v.isExpired (env.realTime + st.itemExpiryWindow) = false)
    (hpend : v.pendingId = false) :
    (relAge env.curTime (env.getQueuedTime qi) ≤ st.pstats.queue_age_cap →
      relAge env.curTime v.dataAge < st.pstats.min_data_age →
      (st.flushOneDelOrSet env qi).2.rejectQueue = st.rejectQueue ++ [qi] ∧
      (st.flushOneDelOrSet env qi).2.io = st.io ∧
      (st.flushOneDelOrSet env qi).2.store.storedValue qi.vbid qi.key = some v ∧
      (st.flushOneDelOrSet env qi).2.pstats.tooYoung = st.pstats.tooYoung + 1 ∧
      (st.flushOneDelOrSet env qi).1
        = st.pstats.min_data_age - relAge env.curTime v.dataAge ∧
      0 < (st.flushOneDelOrSet env qi).1) ∧
    (relAge env.curTime (env.getQueuedTime qi) > st.pstats.queue_age_cap →
      (st.flushOneDelOrSet env qi).2.pstats.tooOld = st.pstats.tooOld + 1 ∧
      (st.flushOneDelOrSet env qi).1 = 0 ∧
      (st.isBucketDeletion qi.vbid = false →
        st.isHighPriorityVbSnapshotScheduled = false →
        (st.flushOneDelOrSet env qi).2.io
          = st.io ++ [IOEvent.storeSet (flushItem qi v)
              ⟨qi, env.getQueuedTime qi, v.dataAge, v.cas⟩] ∧
        (st.flushOneDelOrSet env qi).2.rejectQueue = st.rejectQueue) ∧
      (st.isBucketDeletion qi.vbid = true →
        (st.flushOneDelOrSet env qi).2.io = st.io ∧
        (st.flushOneDelOrSet env qi).2.rejectQueue = st.rejectQueue) ∧
      (st.isBucketDeletion qi.vbid = false →
        st.isHighPriorityVbSnapshotScheduled = true →
        (st.flushOneDelOrSet env qi).2.io = st.io ∧
        (st.flushOneDelOrSet env qi).2.rejectQueue = st.rejectQueue ++ [qi])) ∧
    (∀ (st1 : FlusherState) (q : List QueuedItem), st.enter = some (true, st1) →
      st.flushSome env q
        = (FlusherState.flushReturns env st1.txnSize st1 q).bind
            (fun t => t.2.1.commit.map
              (fun st3 => (minNonZero st1.pstats.min_data_age t.1, st3, t.2.2)))) := by
  have hk := lookup_key b.ht qi.key v hv
  refine ⟨?_, ?_, ?_⟩
  · intro hcap hyoung
    rw [flushOneDelOrSet_young env st qi b v hb hv hdel hdirty hwin hpend hcap hyoung]
    refine ⟨rfl, rfl, ?_, rfl, rfl, ?_⟩
    · have h := storedValue_modifyValue st.store qi.vbid qi.key
        (fun w => w.reDirty v.dataAge) b v hb hv hk
      have hv1 : v.reDirty v.dataAge = v := by
        cases v
        simp only [StoredValue.reDirty] at hdirty ⊢
        simp [hdirty]
      exact h.trans (congrArg some hv1)
    · show 0 < st.pstats.min_data_age - relAge env.curTime v.dataAge
      omega
  · intro hcap
    cases hbd : st.isBucketDeletion qi.vbid with
    | true =>
      rw [flushOneDelOrSet_old_flagged env st qi b v hb hv hdel hdirty hwin hpend hcap hbd]
      exact ⟨rfl, rfl, fun hx => Bool.noConfusion hx, fun _ => ⟨rfl, rfl⟩,
        fun hx => Bool.noConfusion hx⟩
    | false =>
      cases hsnap : st.isHighPriorityVbSnapshotScheduled with
      | true =>
        rw [flushOneDelOrSet_old_snapshot env st qi b v hb hv hdel hdirty hwin hpend hcap hbd
          hsnap]
        exact ⟨rfl, rfl, fun _ hx => Bool.noConfusion hx, fun hx => Bool.noConfusion hx,
          fun _ _ => ⟨rfl, rfl⟩⟩
      | false =>
        rw [flushOneDelOrSet_old env st qi b v hb hv hdel hdirty hwin hpend hcap hbd hsnap]
        refine ⟨?_, rfl, fun _ _ => ?_, fun hx => Bool.noConfusion hx,
          fun _ hx => Bool.noConfusion hx⟩
        · by_cases hid : v.id = -1
          · simp [hid, FlusherState.emit, FlusherState.addCallback, FlusherState.modifyValue,
              FlusherState.incTooOld]
          · simp [hid, FlusherState.emit, FlusherState.addCallback, FlusherState.incTooOld]
        · by_cases hid : v.id = -1
          · simp [hid, FlusherState.emit, FlusherState.addCallback, FlusherState.modifyValue,
              FlusherState.incTooOld]
          · simp [hid, FlusherState.emit, FlusherState.addCallback, FlusherState.incTooOld]
  · intro st1 q h
    exact flushSome_entered env st st1 q h

/-- C17 (amended) on scenario S4: with `min_data_age` 5, a value dirtied one
second before the flush is rejected with return value 4, and `flushSome`
returns 4 for the batch holding it. -/
theorem flush_age_gate_witness :
    ((mkFlusher (mkStore [some (mkVBucket 0 vbucket_state_active
          [mkDirtyValue "b" 7 0 9 (-1)])]) 5 900 [true] [true]).flushOneDelOrSet
        (mkEnv 9 50 10) ⟨"b", 0, queue_op_set, -1, 0⟩).1 = 5 - relAge 10 9 ∧
    5 - relAge 10 9 = 4 ∧
    ((mkFlusher (mkStore [some (mkVBucket 0 vbucket_state_active
          [mkDirtyValue "b" 7 0 9 (-1)])]) 5 900 [true] [true]).flushSome
        (mkEnv 9 50 10) [⟨"b", 0, queue_op_set, -1, 0⟩]).map (fun r => r.1) = some 4 :=
  ⟨((flush_age_gate (mkEnv 9 50 10)
      (mkFlusher (mkStore [some (mkVBucket 0 vbucket_state_active
          [mkDirtyValue "b" 7 0 9 (-1)])]) 5 900 [true] [true])
      ⟨"b", 0, queue_op_set, -1, 0⟩
      (mkVBucket 0 vbucket_state_active [mkDirtyValue "b" 7 0 9 (-1)])
      (mkDirtyValue "b" 7 0 9 (-1)) (by decide) (by decide) (by decide) (by decide)
      (by decide) (by decide)).1 (by decide) (by decide)).2.2.2.2.1,
    by decide, by decide⟩


/-! ### The outgoing queue -/

/-- The loop of `pushToOutgoingQueue` appends, in input order, the items whose
key differs from the key of their predecessor; the predecessor of the first
item is the last item of the queue. -/
theorem pushLoop_eq : ∀ (items writing : List QueuedItem),
    FlusherState.pushLoop writing items
      = writing ++ firstOfRuns (writing.getLast?.map QueuedItem.key) items
  | [], writing => by simp [FlusherState.pushLoop, firstOfRuns]
  | it :: rest, writing => by
    rw [FlusherState.pushLoop, firstOfRuns]
    by_cases h : writing.getLast?.map QueuedItem.key = some it.key
    · have hne : writing.isEmpty = false := by
        cases writing with
        | nil => simp at h
        | cons a l => rfl
      rw [if_neg (by simp [hne, h]), if_pos h]
      exact pushLoop_eq rest writing
    · rw [if_pos (Or.inr h), if_neg h, pushLoop_eq rest (writing ++ [it])]
      simp

/-- Reading back a write through a `StoredValue*` that keeps keys. -/
theorem lookup_modify_map (ht : HashTable) (key : String) (f : StoredValue → StoredValue)
    (hf : ∀ w, (f w).key = w.key) :
    HashTable.lookup (HashTable.modify ht key f) key = (HashTable.lookup ht key).map f := by
  cases h : HashTable.lookup ht key with
  | none => simpa using lookup_modify_none ht key f h
  | some v =>
    have hk := lookup_key ht key v h
    simpa using lookup_modify ht key f v h ((hf v).trans hk)

/-- The stored value after a write through a `StoredValue*` that keeps keys. -/
theorem storedValue_modifyValue_map (s : EventuallyPersistentStore) (vb : Nat) (key : String)
    (f : StoredValue → StoredValue) (hf : ∀ w, (f w).key = w.key) :
    (s.modifyValue vb key f).storedValue vb key = (s.storedValue vb key).map f := by
  unfold EventuallyPersistentStore.modifyValue
  cases hb : s.getVBucket vb with
  | none => simp [EventuallyPersistentStore.storedValue, hb]
  | some b =>
    simp only [EventuallyPersistentStore.storedValue, getVBucket_putVB s vb b _ hb, hb,
      Option.some_bind]
    exact lookup_modify_map b.ht key f hf

/-- The stored value found by a lookup in the vbucket of an id. -/
theorem storedValue_of_lookup (s : EventuallyPersistentStore) (vb : Nat) (key : String)
    (b : VBucket) (v : StoredValue) (hb : s.getVBucket vb = some b)
    (hv : HashTable.lookup b.ht key = some v) : s.storedValue vb key = some v := by
  simp [EventuallyPersistentStore.storedValue, hb, hv]

@[simp] theorem setId_key (v : StoredValue) (i : Int) : (v.setId i).key = v.key := rfl

@[simp] theorem setId_cas (v : StoredValue) (i : Int) : (v.setId i).cas = v.cas := rfl

@[simp] theorem setId_referenced (v : StoredValue) (i : Int) :
    (v.setId i).isReferenced = v.isReferenced := rfl

@[simp] theorem markClean_key (v : StoredValue) : v.markClean.2.key = v.key := rfl

@[simp] theorem ejectValue_key (v : StoredValue) : v.ejectValue.2.key = v.key := by
  unfold StoredValue.ejectValue
  split <;> rfl

@[simp] theorem ejectValue_dirty (v : StoredValue) : v.ejectValue.2.dirty = v.dirty := by
  unfold StoredValue.ejectValue
  split <;> rfl

@[simp] theorem ejectValue_id (v : StoredValue) : v.ejectValue.2.id = v.id := by
  unfold StoredValue.ejectValue
  split <;> rfl

/-- The stored value the set callback leaves behind on status 1, given the value
its lookup found: the row id is stamped when one was assigned, and when the cas
still matches the value is marked clean and, in a vbucket that is neither active
nor pending, ejected if memory is above the low watermark and the value is not
referenced. -/
theorem callback_success (cb : PersistenceCallback) (env : FlushEnv) (st : FlusherState)
    (rowid : Int) (b : VBucket) (v : StoredValue)
    (hb : st.store.getVBucket cb.queuedItem.vbid = some b)
    (hv : HashTable.lookup b.ht cb.queuedItem.key = some v)
    (hvalid : v.deleted = true ∨ v.isExpired env.realTime = false) :
    (cb.callback env st (1, rowid)).store.storedValue cb.queuedItem.vbid cb.queuedItem.key
      = some (
          if v.cas = cb.cas then
            if (b.state ≠ vbucket_state_active ∧ b.state ≠ vbucket_state_pending) ∧
                (st.pstats.totalMemoryUsed > st.pstats.mem_low_wat ∧ v.isReferenced = false)
            then (if rowid > 0 then v.setId rowid else v).markClean.2.ejectValue.2
            else (if rowid > 0 then v.setId rowid else v).markClean.2
          else (if rowid > 0 then v.setId rowid else v)) ∧
    (cb.callback env st (1, rowid)).io
      = st.io ++ (if rowid > 0
          then [IOEvent.log_newItem cb.queuedItem.vbid cb.queuedItem.key rowid] else []) ∧
    (cb.callback env st (1, rowid)).pstats.totalPersisted = st.pstats.totalPersisted + 1 ∧
    (cb.callback env st (1, rowid)).pstats.newItems
      = st.pstats.newItems + (if rowid > 0 then 1 else 0) ∧
    (cb.callback env st (1, rowid)).rejectQueue = st.rejectQueue := by
  have hb1 : st.incTotalPersisted.store.getVBucket cb.queuedItem.vbid = some b := hb
  have hf : st.incTotalPersisted.store.fetchValidValue env.ops cb.queuedItem.vbid
      cb.queuedItem.key true false env.realTime = (some v, st.incTotalPersisted.store) :=
    fetchValidValue_flush env.ops st.store _ _ env.realTime b v hb hv hvalid
  have hsv := storedValue_of_lookup st.store _ _ b v hb hv
  unfold PersistenceCallback.callback
  simp only [if_true, hb1, hf, withStore_self]
  by_cases hr : rowid > 0 <;> by_cases hc : v.cas = cb.cas <;>
    by_cases hs : (b.state ≠ vbucket_state_active ∧ b.state ≠ vbucket_state_pending) <;>
    by_cases hm : (st.pstats.totalMemoryUsed > st.pstats.mem_low_wat ∧
      v.isReferenced = false) <;>
    simp [hr, hc, hs, hm, FlusherState.emit, FlusherState.modifyValue,
      FlusherState.incNewItems, FlusherState.incTotalPersisted,
      storedValue_modifyValue_map, hsv]

/-- C19 refuted at a concrete input: the hash table of the active vbucket 0 holds
key k with a live value that expired (at 40) before the callback runs (at 50);
the set callback is invoked with status 1, assigned row id 5 and the matching
cas 7: no record is written to the mutation log and the row id is not
stamped. -/
theorem callback_expired_value_not_stamped :
    (mkFlusher (mkStore [some (mkVBucket 0 vbucket_state_active
        [mkDirtyValue "k" 7 40 9 (-1)])]) 0 0 [] []).store.storedValue 0 "k"
      = some (mkDirtyValue "k" 7 40 9 (-1)) ∧
    (PersistenceCallback.callback ⟨⟨"k", 0, queue_op_set, -1, 0⟩, 9, 9, 7⟩ (mkEnv 9 50 10)
      (mkFlusher (mkStore [some (mkVBucket 0 vbucket_state_active
        [mkDirtyValue "k" 7 40 9 (-1)])]) 0 0 [] []) (1, 5)).io = [] ∧
    ((PersistenceCallback.callback ⟨⟨"k", 0, queue_op_set, -1, 0⟩, 9, 9, 7⟩ (mkEnv 9 50 10)
      (mkFlusher (mkStore [some (mkVBucket 0 vbucket_state_active
        [mkDirtyValue "k" 7 40 9 (-1)])]) 0 0 [] []) (1, 5)).store.storedValue 0 "k").map
        StoredValue.id = some (-1) := by
  decide

/-- C19, amended: let the set callback be invoked with status 1 on an existing
vbucket whose hash table still holds the key with a value that is deleted or not
expired at the time of the callback (so that the lookup of the callback returns
it). Then the value is marked clean if its current cas equals the cas captured
when the write was issued, and its dirty flag is left as it was when the cas
differs; independently of the cas comparison, when the store reports an
assigned row id > 0 that row id is stamped on the value and exactly one
new(vb, key, row-id) record is written to the mutation log, and otherwise the
row id is kept and nothing is written to the log. -/
theorem callback_marks_clean_on_matching_cas (cb : PersistenceCallback) (env : FlushEnv)
    (st : FlusherState) (rowid : Int) (b : VBucket) (v : StoredValue)
    (hb : st.store.getVBucket cb.queuedItem.vbid = some b)
    (hv : HashTable.lookup b.ht cb.queuedItem.key = some v)
    (hvalid : v.deleted = true ∨ v.isExpired env.realTime = false) :
    ((cb.callback env st (1, rowid)).store.storedValue cb.queuedItem.vbid
        cb.queuedItem.key).map StoredValue.dirty
      = some (if v.cas = cb.cas then false else v.dirty) ∧
    ((cb.callback env st (1, rowid)).store.storedValue cb.queuedItem.vbid
        cb.queuedItem.key).map StoredValue.id
      = some (if rowid > 0 then rowid else v.id) ∧
    (cb.callback env st (1, rowid)).io
      = st.io ++ (if rowid > 0
          then [IOEvent.log_newItem cb.queuedItem.vbid cb.queuedItem.key rowid] else []) := by
  have h := callback_success cb env st rowid b v hb hv hvalid
  refine ⟨?_, ?_, h.2.1⟩
  · rw [h.1]
    by_cases hr : rowid > 0 <;> by_cases hc : v.cas = cb.cas <;>
      by_cases hs : (b.state ≠ vbucket_state_active ∧ b.state ≠ vbucket_state_pending) ∧
        (st.pstats.totalMemoryUsed > st.pstats.mem_low_wat ∧ v.isReferenced = false) <;>
      simp [hr, hc, hs, StoredValue.markClean, StoredValue.setId]
  · rw [h.1]
    by_cases hr : rowid > 0 <;> by_cases hc : v.cas = cb.cas <;>
      by_cases hs : (b.state ≠ vbucket_state_active ∧ b.state ≠ vbucket_state_pending) ∧
        (st.pstats.totalMemoryUsed > st.pstats.mem_low_wat ∧ v.isReferenced = false) <;>
      simp [hr, hc, hs, StoredValue.markClean, StoredValue.setId]

/-- C19 (amended) at a concrete input: the dirty value of key k with cas 7 is
marked clean by the callback that captured cas 7 and is stamped with the
assigned row id 5. -/
theorem callback_marks_clean_on_matching_cas_witness :
    ((PersistenceCallback.callback ⟨⟨"k", 0, queue_op_set, -1, 0⟩, 9, 9, 7⟩ (mkEnv 9 50 10)
      (mkFlusher (mkStore [some (mkVBucket 0 vbucket_state_active
        [mkDirtyValue "k" 7 0 9 (-1)])]) 0 0 [] []) (1, 5)).store.storedValue 0 "k").map
        StoredValue.dirty = some false ∧
    ((PersistenceCallback.callback ⟨⟨"k", 0, queue_op_set, -1, 0⟩, 9, 9, 7⟩ (mkEnv 9 50 10)
      (mkFlusher (mkStore [some (mkVBucket 0 vbucket_state_active
        [mkDirtyValue "k" 7 0 9 (-1)])]) 0 0 [] []) (1, 5)).store.storedValue 0 "k").map
        StoredValue.id = some 5 :=
  ⟨(callback_marks_clean_on_matching_cas ⟨⟨"k", 0, queue_op_set, -1, 0⟩, 9, 9, 7⟩
      (mkEnv 9 50 10) (mkFlusher (mkStore [some (mkVBucket 0 vbucket_state_active
        [mkDirtyValue "k" 7 0 9 (-1)])]) 0 0 [] []) 5
      (mkVBucket 0 vbucket_state_active [mkDirtyValue "k" 7 0 9 (-1)])
      (mkDirtyValue "k" 7 0 9 (-1)) (by decide) (by decide) (by decide)).1,
   (callback_marks_clean_on_matching_cas ⟨⟨"k", 0, queue_op_set, -1, 0⟩, 9, 9, 7⟩
      (mkEnv 9 50 10) (mkFlusher (mkStore [some (mkVBucket 0 vbucket_state_active
        [mkDirtyValue "k" 7 0 9 (-1)])]) 0 0 [] []) 5
      (mkVBucket 0 vbucket_state_active [mkDirtyValue "k" 7 0 9 (-1)])
      (mkDirtyValue "k" 7 0 9 (-1)) (by decide) (by decide) (by decide)).2.1⟩

/-- C20 refuted at concrete inputs: with total memory used (100) above
`mem_low_wat` (10), an unreferenced, resident value and a matching cas, the
callback of a successful set keeps the payload in a pending vbucket and ejects
it in a dead vbucket. -/
theorem callback_keeps_payload_in_pending_vbucket :
    ((PersistenceCallback.callback ⟨⟨"k", 0, queue_op_set, 3, 0⟩, 9, 9, 7⟩ (mkEnv 9 50 10)
      (withMemory (mkFlusher (mkStore [some (mkVBucket 0 vbucket_state_pending
        [mkDirtyValue "k" 7 0 9 3])]) 0 0 [] []) 100 10) (1, 0)).store.storedValue 0 "k")
      = some { mkDirtyValue "k" 7 0 9 3 with dirty := false } ∧
    ({ mkDirtyValue "k" 7 0 9 3 with dirty := false } : StoredValue).resident = true ∧
    ((PersistenceCallback.callback ⟨⟨"k", 0, queue_op_set, 3, 0⟩, 9, 9, 7⟩ (mkEnv 9 50 10)
      (withMemory (mkFlusher (mkStore [some (mkVBucket 0 vbucket_state_dead
        [mkDirtyValue "k" 7 0 9 3])]) 0 0 [] []) 100 10) (1, 0)).store.storedValue 0 "k").map
        StoredValue.resident = some false := by
  decide

/-- C20, amended: after a successful set persistence (status 1) whose cas still
matches, on a value the lookup of the callback returns, the callback ejects the
value payload if and only if the vbucket is replica or dead, total memory used
is above `mem_low_wat`, and the value is not referenced: in that case the stored
value is the cleaned value after `ejectValue`, which for a resident value is
non-resident and without payload; in every other case the stored value is the
cleaned value, payload and residency untouched. In particular the payload is
never ejected for an active or a pending vbucket. -/
theorem callback_ejects_replica_or_dead (cb : PersistenceCallback) (env : FlushEnv)
    (st : FlusherState) (rowid : Int) (b : VBucket) (v : StoredValue)
    (hb : st.store.getVBucket cb.queuedItem.vbid = some b)
    (hv : HashTable.lookup b.ht cb.queuedItem.key = some v)
    (hvalid : v.deleted = true ∨ v.isExpired env.realTime = false)
    (hcas : v.cas = cb.cas) :
    ((b.state = vbucket_state_replica ∨ b.state = vbucket_state_dead) ∧
        st.pstats.totalMemoryUsed > st.pstats.mem_low_wat ∧ v.isReferenced = false →
      (cb.callback env st (1, rowid)).store.storedValue cb.queuedItem.vbid cb.queuedItem.key
        = some (if rowid > 0 then v.setId rowid else v).markClean.2.ejectValue.2 ∧
      (v.resident = true →
        (if rowid > 0 then v.setId rowid else v).markClean.2.ejectValue.2.resident = false ∧
        (if rowid > 0 then v.setId rowid else v).markClean.2.ejectValue.2.value = none)) ∧
    (¬ ((b.state = vbucket_state_replica ∨ b.state = vbucket_state_dead) ∧
        st.pstats.totalMemoryUsed > st.pstats.mem_low_wat ∧ v.isReferenced = false) →
      (cb.callback env st (1, rowid)).store.storedValue cb.queuedItem.vbid cb.queuedItem.key
        = some (if rowid > 0 then v.setId rowid else v).markClean.2 ∧
      (if rowid > 0 then v.setId rowid else v).markClean.2.resident = v.resident ∧
      (if rowid > 0 then v.setId rowid else v).markClean.2.value = v.value) := by
  have h := (callback_success cb env st rowid b v hb hv hvalid).1
  have hstate : (b.state ≠ vbucket_state_active ∧ b.state ≠ vbucket_state_pending) ↔
      (b.state = vbucket_state_replica ∨ b.state = vbucket_state_dead) := by
    cases b.state <;> simp
  rw [if_pos hcas] at h
  refine ⟨?_, ?_⟩
  · rintro ⟨hs, hm⟩
    rw [if_pos ⟨hstate.mpr hs, hm⟩] at h
    refine ⟨h, ?_⟩
    intro hres
    by_cases hr : rowid > 0 <;>
      simp [hr, StoredValue.ejectValue, StoredValue.markClean, StoredValue.setId, hres]
  · intro hn
    have hn1 : ¬ ((b.state ≠ vbucket_state_active ∧ b.state ≠ vbucket_state_pending) ∧
        (st.pstats.totalMemoryUsed > st.pstats.mem_low_wat ∧ v.isReferenced = false)) :=
      fun hc => hn ⟨hstate.mp hc.1, hc.2⟩
    rw [if_neg hn1] at h
    refine ⟨h, ?_⟩
    by_cases hr : rowid > 0 <;> simp [hr, StoredValue.markClean, StoredValue.setId]

/-- C20 (amended) at a concrete input: in a replica vbucket with memory above the
low watermark, the unreferenced resident value of key k is ejected by the
callback of its successful set. -/
theorem callback_ejects_replica_or_dead_witness :
    ((PersistenceCallback.callback ⟨⟨"k", 0, queue_op_set, 3, 0⟩, 9, 9, 7⟩ (mkEnv 9 50 10)
      (withMemory (mkFlusher (mkStore [some (mkVBucket 0 vbucket_state_replica
        [mkDirtyValue "k" 7 0 9 3])]) 0 0 [] []) 100 10) (1, 0)).store.storedValue 0 "k")
      = some (if (0 : Int) > 0 then (mkDirtyValue "k" 7 0 9 3).setId 0
          else mkDirtyValue "k" 7 0 9 3).markClean.2.ejectValue.2 :=
  ((callback_ejects_replica_or_dead ⟨⟨"k", 0, queue_op_set, 3, 0⟩, 9, 9, 7⟩ (mkEnv 9 50 10)
      (withMemory (mkFlusher (mkStore [some (mkVBucket 0 vbucket_state_replica
        [mkDirtyValue "k" 7 0 9 3])]) 0 0 [] []) 100 10) 0
      (mkVBucket 0 vbucket_state_replica [mkDirtyValue "k" 7 0 9 3])
      (mkDirtyValue "k" 7 0 9 3) (by decide) (by decide) (by decide) (by decide)).1
    (by decide)).1


/-! ### Completion of background fetches -/

@[simp] theorem restoreValue_key (v : StoredValue) (itm : Item) :
    (v.unlocked_restoreValue itm).key = v.key := rfl

@[simp] theorem ioCompletions_append (t u : List Event) :
    ioCompletions (t ++ u) = ioCompletions t ++ ioCompletions u := by
  simp [ioCompletions]

/-- A write through a `StoredValue*` leaves the trace as it is. -/
@[simp] theorem modifyValue_trace (s : EventuallyPersistentStore) (vb : Nat) (key : String)
    (f : StoredValue → StoredValue) : (s.modifyValue vb key f).trace = s.trace := by
  unfold EventuallyPersistentStore.modifyValue
  cases s.getVBucket vb <;> rfl

/-- A call of `queueDirty` notifies no cookie. -/
@[simp] theorem queueDirty_ioCompletions (s : EventuallyPersistentStore) (vb : Nat)
    (key : String) (vbid : Nat) (op : queue_operation) (seqno : Nat) (rowid : Int)
    (tapBackfill : Bool) :
    ioCompletions (s.queueDirty vb key vbid op seqno rowid tapBackfill).trace
      = ioCompletions s.trace := by
  rcases queueDirty_trace s vb key vbid op seqno rowid tapBackfill with h | h <;>
    rw [h] <;> simp [ioCompletions, Event.isIOComplete]

/-- A lookup that wants deleted values and tracks references finds the value of
the key and sets its referenced bit. -/
theorem unlocked_find_wanted (ht : HashTable) (key : String) (v : StoredValue)
    (h : HashTable.lookup ht key = some v) :
    HashTable.unlocked_find ht key true true
      = (some v.reference, HashTable.modify ht key StoredValue.reference) := by
  have hk := lookup_key ht key v h
  have hm := lookup_modify ht key StoredValue.reference v h (by simp [hk])
  unfold HashTable.unlocked_find
  simp only [if_true]
  rw [hm]
  simp

/-- The lookup of a fetch completion hands back a stored value that is deleted
or unexpired, with its referenced bit set. -/
theorem fetchValidValue_wanted (ops : HashTableOps) (s : EventuallyPersistentStore) (vb : Nat)
    (key : String) (now : Nat) (b : VBucket) (v : StoredValue)
    (hb : s.getVBucket vb = some b) (h : HashTable.lookup b.ht key = some v)
    (hv : v.deleted = true ∨ v.isExpired now = false) :
    s.fetchValidValue ops vb key true true now
      = (some v.reference,
          s.putVB vb { b with ht := HashTable.modify b.ht key StoredValue.reference }) := by
  unfold EventuallyPersistentStore.fetchValidValue
  simp only [hb, unlocked_find_wanted b.ht key v h]
  rcases hv with hd | he
  · simp [hd]
  · simp [he]

/-- What the restore block does with a non-resident value after a successful
disk read, when the value is dirty if its expiry differs from the fetched
one. -/
theorem restoreFetchedValue_restores (s : EventuallyPersistentStore) (key : String)
    (vbucket : Nat) (v : StoredValue) (gcb : GetValue) (itm : Item)
    (hres : v.resident = false) (hst : gcb.status = ENGINE_SUCCESS)
    (hitm : gcb.value = some itm) (hd : v.exptime ≠ itm.exptime → v.dirty = true) :
    s.restoreFetchedValue key vbucket v gcb
      = some (if v.exptime ≠ itm.exptime then
          (s.modifyValue vbucket key (fun w => w.unlocked_restoreValue itm)).queueDirty
            vbucket key vbucket queue_op_set v.seqno v.id false
        else s.modifyValue vbucket key (fun w => w.unlocked_restoreValue itm)) := by
  unfold EventuallyPersistentStore.restoreFetchedValue
  simp only [hres, hst, hitm, if_true]
  by_cases he : v.exptime = itm.exptime
  · simp [he, StoredValue.unlocked_restoreValue]
  · simp [he, hd he, StoredValue.unlocked_restoreValue]

/-- The lookup `fetchValidValue` notifies no cookie. -/
theorem fetchValidValue_ioCompletions (ops : HashTableOps) (s : EventuallyPersistentStore)
    (vb : Nat) (key : String) (wantDeleted trackReference : Bool) (now : Nat) :
    ioCompletions (s.fetchValidValue ops vb key wantDeleted trackReference now).2.trace
      = ioCompletions s.trace := by
  unfold EventuallyPersistentStore.fetchValidValue
  cases hb : s.getVBucket vb with
  | none => rfl
  | some b =>
    simp only []
    cases hf : (HashTable.unlocked_find b.ht key wantDeleted trackReference).1 with
    | none => simp
    | some v =>
      simp only []
      by_cases hd : v.deleted = false
      · by_cases he : v.isExpired now = true
        · rw [if_pos hd, if_pos he, queueDirty_ioCompletions]
          simp [ioCompletions, Event.isIOComplete, EventuallyPersistentStore.emit,
            EventuallyPersistentStore.incExpirationStat]
        · rw [if_pos hd, if_neg he]
          simp
      · rw [if_neg hd]
        simp

/-- The restore block notifies no cookie. -/
theorem restoreFetchedValue_ioCompletions (s s1 : EventuallyPersistentStore) (key : String)
    (vbucket : Nat) (v : StoredValue) (gcb : GetValue)
    (h : s.restoreFetchedValue key vbucket v gcb = some s1) :
    ioCompletions s1.trace = ioCompletions s.trace := by
  unfold EventuallyPersistentStore.restoreFetchedValue at h
  cases hi : gcb.value with
  | none =>
    rw [hi] at h
    split_ifs at h
    · cases h
      rfl
  | some itm =>
    rw [hi] at h
    simp only [] at h
    split_ifs at h <;> cases h <;> simp

/-- A value fetch that completes notifies its cookie exactly once, with the
status of the disk read. -/
theorem completeBGFetch_ioCompletions (ops : HashTableOps)
    (restoreMeta : StoredValue → Option Item → ENGINE_ERROR_CODE → Bool × StoredValue)
    (s s1 : EventuallyPersistentStore) (key : String) (vbucket : Nat) (cookie : Cookie)
    (type : bg_fetch_type_t) (gcb : GetValue) (now : Nat)
    (htype : type ≠ bg_fetch_type_t.BG_FETCH_METADATA)
    (h : s.completeBGFetch ops restoreMeta key vbucket cookie type gcb now = some s1) :
    ioCompletions s1.trace = ioCompletions s.trace ++ [Event.ioComplete cookie gcb.status] := by
  have hfio := fetchValidValue_ioCompletions ops s vbucket key true true now
  unfold EventuallyPersistentStore.completeBGFetch at h
  cases hb : s.getVBucket vbucket with
  | none =>
    rw [hb] at h
    cases h
    simp [EventuallyPersistentStore.emit, ioCompletions, Event.isIOComplete]
  | some b =>
    rw [hb] at h
    simp only [] at h
    by_cases hact : b.state = vbucket_state_active
    · rw [if_pos hact] at h
      cases hf : (s.fetchValidValue ops vbucket key true true now).1 with
      | none =>
        rw [hf] at h
        cases h
        simp only [emit_trace, ioCompletions_append, hfio]
        rfl
      | some v =>
        rw [hf] at h
        simp only [if_neg htype] at h
        cases hr : (s.fetchValidValue ops vbucket key true true now).2.restoreFetchedValue
            key vbucket v gcb with
        | none =>
          rw [hr] at h
          cases h
        | some s2 =>
          rw [hr] at h
          cases h
          have h2 := restoreFetchedValue_ioCompletions _ s2 key vbucket v gcb hr
          simp only [emit_trace, ioCompletions_append, h2, hfio]
          rfl
    · rw [if_neg hact] at h
      cases h
      simp [EventuallyPersistentStore.emit, ioCompletions, Event.isIOComplete]

/-- What a completed value fetch does in an active vbucket with a non-resident
value the lookup returns, after a successful disk read. -/
theorem completeBGFetch_restore (ops : HashTableOps)
    (restoreMeta : StoredValue → Option Item → ENGINE_ERROR_CODE → Bool × StoredValue)
    (s : EventuallyPersistentStore) (key : String) (vbucket : Nat) (cookie : Cookie)
    (type : bg_fetch_type_t) (gcb : GetValue) (now : Nat) (b : VBucket) (v : StoredValue)
    (itm : Item)
    (htype : type ≠ bg_fetch_type_t.BG_FETCH_METADATA)
    (hb : s.getVBucket vbucket = some b) (hact : b.state = vbucket_state_active)
    (hv : HashTable.lookup b.ht key = some v)
    (hvalid : v.deleted = true ∨ v.isExpired now = false)
    (hres : v.resident = false) (hst : gcb.status = ENGINE_SUCCESS)
    (hitm : gcb.value = some itm) (hd : v.exptime ≠ itm.exptime → v.dirty = true) :
    ∃ s1, s.completeBGFetch ops restoreMeta key vbucket cookie type gcb now = some s1 ∧
      s.completeBGFetchMulti ops vbucket [⟨key, gcb, cookie⟩] now = some s1 ∧
      s1.storedValue vbucket key = some (v.reference.unlocked_restoreValue itm) ∧
      (v.reference.unlocked_restoreValue itm).resident = true ∧
      (v.reference.unlocked_restoreValue itm).value = itm.value ∧
      queueDirtyCalls s1.trace
        = queueDirtyCalls s.trace ++
          (if v.exptime ≠ itm.exptime
            then [Event.queueDirty vbucket key vbucket queue_op_set v.seqno v.id false]
            else []) ∧
      ioCompletions s1.trace
        = ioCompletions s.trace ++ [Event.ioComplete cookie gcb.status] := by
  have hf := fetchValidValue_wanted ops s vbucket key now b v hb hv hvalid
  have hr := restoreFetchedValue_restores
    (s.putVB vbucket { b with ht := HashTable.modify b.ht key StoredValue.reference })
    key vbucket v.reference gcb itm (by simpa using hres) hst hitm (by simpa using hd)
  have hsv := storedValue_after_fetch s vbucket key b v hb hv
  have hsv1 : ((s.putVB vbucket
      { b with ht := HashTable.modify b.ht key StoredValue.reference }).modifyValue vbucket key
      (fun w => w.unlocked_restoreValue itm)).storedValue vbucket key
      = some (v.reference.unlocked_restoreValue itm) := by
    rw [storedValue_modifyValue_map _ vbucket key (fun w => w.unlocked_restoreValue itm)
      (fun w => rfl), hsv]
    rfl
  have h1 : ∀ s1, (s.putVB vbucket
          { b with ht := HashTable.modify b.ht key StoredValue.reference }).restoreFetchedValue
        key vbucket v.reference gcb = some s1 →
      s.completeBGFetch ops restoreMeta key vbucket cookie type gcb now
        = some (s1.emit (Event.ioComplete cookie gcb.status)) := by
    intro s1 hs1
    unfold EventuallyPersistentStore.completeBGFetch
    simp only [hb]
    rw [if_pos hact]
    simp only [hf, if_neg htype, hs1, Option.map_some']
  have h2 : ∀ s1, (s.putVB vbucket
          { b with ht := HashTable.modify b.ht key StoredValue.reference }).restoreFetchedValue
        key vbucket v.reference gcb = some s1 →
      s.completeBGFetchMulti ops vbucket [⟨key, gcb, cookie⟩] now
        = some (s1.emit (Event.ioComplete cookie gcb.status)) := by
    intro s1 hs1
    have hact1 : some b.state = some vbucket_state_active := congrArg some hact
    unfold EventuallyPersistentStore.completeBGFetchMulti
    simp only [hb, List.foldlM, EventuallyPersistentStore.completeBGFetchMultiItem,
      Option.map_some']
    rw [if_pos hact1]
    simp only [hf, hs1, Option.map_some']
    rfl
  by_cases he : v.exptime = itm.exptime
  · have he1 : ¬ v.reference.exptime ≠ itm.exptime := by simpa using he
    rw [if_neg he1] at hr
    refine ⟨_, h1 _ hr, h2 _ hr, ?_, rfl, rfl, ?_, ?_⟩
    · exact hsv1
    · simp [he, EventuallyPersistentStore.emit, Event.isQueueDirty]
    · simp [EventuallyPersistentStore.emit, ioCompletions, Event.isIOComplete]
  · have he1 : v.reference.exptime ≠ itm.exptime := by simpa using he
    rw [if_pos he1] at hr
    refine ⟨_, h1 _ hr, h2 _ hr, ?_, rfl, rfl, ?_, ?_⟩
    · show (EventuallyPersistentStore.queueDirty _ _ _ _ _ _ _ _).storedValue vbucket key = _
      rw [storedValue_queueDirty]
      exact hsv1
    · show queueDirtyCalls ((EventuallyPersistentStore.queueDirty _ _ _ _ _ _ _ _).trace
        ++ [Event.ioComplete cookie gcb.status]) = _
      simp [he, Event.isQueueDirty]
    · show ioCompletions ((EventuallyPersistentStore.queueDirty _ _ _ _ _ _ _ _).trace
        ++ [Event.ioComplete cookie gcb.status]) = _
      rw [ioCompletions_append, queueDirty_ioCompletions, modifyValue_trace, putVB_trace]
      simp [ioCompletions, Event.isIOComplete]

/-- What a completed value fetch does in a vbucket that is not active: nothing
but the notification of the cookie, on the single path and on the batch of this
one item alike. -/
theorem completeBGFetch_not_active (ops : HashTableOps)
    (restoreMeta : StoredValue → Option Item → ENGINE_ERROR_CODE → Bool × StoredValue)
    (s : EventuallyPersistentStore) (key : String) (vbucket : Nat) (cookie : Cookie)
    (type : bg_fetch_type_t) (gcb : GetValue) (now : Nat) (b : VBucket)
    (hb : s.getVBucket vbucket = some b) (hact : b.state ≠ vbucket_state_active) :
    s.completeBGFetch ops restoreMeta key vbucket cookie type gcb now
      = some (s.emit (Event.ioComplete cookie gcb.status)) ∧
    s.completeBGFetchMulti ops vbucket [⟨key, gcb, cookie⟩] now
      = some (s.emit (Event.ioComplete cookie gcb.status)) := by
  constructor
  · unfold EventuallyPersistentStore.completeBGFetch
    simp only [hb]
    rw [if_neg hact]
    rfl
  · have hact1 : ¬ (some b.state = some vbucket_state_active) := by
      intro hx
      exact hact (Option.some.inj hx)
    unfold EventuallyPersistentStore.completeBGFetchMulti
    simp only [hb, List.foldlM, EventuallyPersistentStore.completeBGFetchMultiItem,
      Option.map_some']
    rw [if_neg hact1]
    rfl

/-- C13 refuted at a concrete input: while the log is open, a stored value that
is not resident but referenced, unexpired and not deleted gets a `new` record. -/
theorem visit_logs_non_resident_value :
    ({ mkNonResident "k" 7 0 false with referenced := true } : StoredValue).resident = false ∧
    ((mkVisitor 10 (mkVBucket 3 vbucket_state_active []) []).visit
        { mkNonResident "k" 7 0 false with referenced := true }).log
      = some [LogRecord.new 3 "k" 1] := by
  decide

/-- C13, amended: while the access log is open, `ItemAccessVisitor::visit` emits
exactly one new(vb, key, row-id) record for a stored value if and only if the
value is referenced, not expired at the scan's start time and not deleted,
whether or not it is resident; for every other stored value it emits no
record. -/
theorem visit_logs_referenced_live_values (vis : ItemAccessVisitor) (v : StoredValue)
    (recs : List LogRecord) (hlog : vis.log = some recs) :
    (v.isReferenced = true ∧ v.isExpired vis.startTime = false ∧ v.deleted = false →
      (vis.visit v).log = some (recs ++ [LogRecord.new vis.currentBucket.id v.key v.id])) ∧
    (¬ (v.isReferenced = true ∧ v.isExpired vis.startTime = false ∧ v.deleted = false) →
      (vis.visit v).log = some recs) := by
  unfold ItemAccessVisitor.visit
  rw [hlog]
  constructor
  · rintro ⟨hr, he, hd⟩
    simp [hr, he, hd]
  · intro hn
    by_cases hr : v.isReferenced = true
    · by_cases he : v.isExpired vis.startTime = true
      · simp [hr, he, hlog]
      · have hd : v.deleted = true := by
          by_contra hd
          exact hn ⟨hr, by simpa using he, by simpa using hd⟩
        simp [hr, hd, hlog]
    · simp [hr, hlog]

/-- C13 (amended) at a concrete input: a resident, referenced, live value of
vbucket 3 gets one record. -/
theorem visit_logs_referenced_live_values_witness :
    ((mkVisitor 10 (mkVBucket 3 vbucket_state_active []) []).visit
        { mkStoredValue "k" 7 0 0 true with referenced := true }).log
      = some ([] ++ [LogRecord.new 3 "k" 1]) :=
  (visit_logs_referenced_live_values (mkVisitor 10 (mkVBucket 3 vbucket_state_active []) [])
    { mkStoredValue "k" 7 0 0 true with referenced := true } [] rfl).1 (by decide)

/-- C14: when every `remove` and `rename` succeeds, `complete()` on a scan with
an open log that logged at least one item leaves the newly written log in
`<path>`, the content `<path>` had before in `<path>.old` (when `<path>`
existed), and no `<path>.next`; and on a scan that logged no item it removes
`<path>.next` and leaves `<path>` and `<path>.old` exactly as they were. -/
theorem complete_rotates (vis : ItemAccessVisitor) (fs : AccessLogFiles)
    (recs : List LogRecord) (hlog : vis.log = some recs) :
    (0 < itemsLogged_ML_NEW recs →
      (vis.complete allCallsSucceed fs).2.name
        = some (recs ++ [LogRecord.commit1, LogRecord.commit2]) ∧
      (fs.name.isSome = true → (vis.complete allCallsSucceed fs).2.prev = fs.name) ∧
      (vis.complete allCallsSucceed fs).2.next = none) ∧
    (itemsLogged_ML_NEW recs = 0 →
      (vis.complete allCallsSucceed fs).2.next = none ∧
      (vis.complete allCallsSucceed fs).2.name = fs.name ∧
      (vis.complete allCallsSucceed fs).2.prev = fs.prev) := by
  unfold ItemAccessVisitor.complete
  rw [hlog]
  constructor
  · intro hpos
    have hne : ¬ itemsLogged_ML_NEW recs = 0 := Nat.pos_iff_ne_zero.mp hpos
    cases hp : fs.prev <;> cases hn : fs.name <;>
      simp [hne, hp, hn, allCallsSucceed, ItemAccessVisitor.removeNext]
  · intro hz
    simp [hz, allCallsSucceed, ItemAccessVisitor.removeNext]

/-- C14 at a concrete input: a scan that logged one item rotates the three
files. -/
theorem complete_rotates_witness :
    ((mkVisitor 10 (mkVBucket 3 vbucket_state_active []) [LogRecord.new 3 "k" 1]).complete
        allCallsSucceed ⟨some [LogRecord.new 3 "old" 2], none, some []⟩).2.name
      = some [LogRecord.new 3 "k" 1, LogRecord.commit1, LogRecord.commit2] ∧
    ((mkVisitor 10 (mkVBucket 3 vbucket_state_active []) [LogRecord.new 3 "k" 1]).complete
        allCallsSucceed ⟨some [LogRecord.new 3 "old" 2], none, some []⟩).2.prev
      = some [LogRecord.new 3 "old" 2] ∧
    ((mkVisitor 10 (mkVBucket 3 vbucket_state_active []) [LogRecord.new 3 "k" 1]).complete
        allCallsSucceed ⟨some [LogRecord.new 3 "old" 2], none, some []⟩).2.next = none :=
  ⟨((complete_rotates
      (mkVisitor 10 (mkVBucket 3 vbucket_state_active []) [LogRecord.new 3 "k" 1])
      ⟨some [LogRecord.new 3 "old" 2], none, some []⟩ [LogRecord.new 3 "k" 1] rfl).1
      (by decide)).1,
    ((complete_rotates
      (mkVisitor 10 (mkVBucket 3 vbucket_state_active []) [LogRecord.new 3 "k" 1])
      ⟨some [LogRecord.new 3 "old" 2], none, some []⟩ [LogRecord.new 3 "k" 1] rfl).1
      (by decide)).2.1 rfl,
    ((complete_rotates
      (mkVisitor 10 (mkVBucket 3 vbucket_state_active []) [LogRecord.new 3 "k" 1])
      ⟨some [LogRecord.new 3 "old" 2], none, some []⟩ [LogRecord.new 3 "k" 1] rfl).1
      (by decide)).2.2⟩

/-- C15 refuted at a concrete input: `<path>` holds a log, there is no
`<path>.old`, and the last step of the rotation, the rename of `<path>.next` to
`<path>`, fails: afterwards `<path>` does not exist any more, and the log it
held is in `<path>.old`. -/
theorem complete_failed_last_rename_loses_path :
    ((mkVisitor 10 (mkVBucket 3 vbucket_state_active []) [LogRecord.new 3 "k" 1]).complete
        ⟨true, true, false, true⟩ ⟨some [LogRecord.new 3 "old" 2], none, some []⟩).2
      = ⟨none, some [LogRecord.new 3 "old" 2], none⟩ := by
  decide

/-- C15, amended: on a scan with an open log that logged at least one item, if
a step of the rotation fails, `complete()` calls `remove` on `<path>.next`, which
is gone afterwards when that call succeeds. When the failing step is the removal
of `<path>.old`, the files `<path>` and `<path>.old` are as before. When it is
the rename of `<path>` to `<path>.old`, `<path>` still holds the log it held
before and `<path>.old` is gone. When it is the rename of `<path>.next` to
`<path>`, the file `<path>` does not exist and `<path>.old` holds the log that
`<path>` held before the scan. -/
theorem complete_failure_keeps_previous_log (ok : RotationCalls) (vis : ItemAccessVisitor)
    (fs : AccessLogFiles) (recs : List LogRecord) (hlog : vis.log = some recs)
    (hpos : 0 < itemsLogged_ML_NEW recs) :
    (fs.prev.isSome = true ∧ ok.removePrev = false →
      (vis.complete ok fs).2.name = fs.name ∧ (vis.complete ok fs).2.prev = fs.prev ∧
      (ok.removeNext = true → (vis.complete ok fs).2.next = none)) ∧
    (¬ (fs.prev.isSome = true ∧ ok.removePrev = false) →
      fs.name.isSome = true ∧ ok.renameNamePrev = false →
      (vis.complete ok fs).2.name = fs.name ∧ (vis.complete ok fs).2.prev = none ∧
      (ok.removeNext = true → (vis.complete ok fs).2.next = none)) ∧
    (¬ (fs.prev.isSome = true ∧ ok.removePrev = false) →
      ¬ (fs.name.isSome = true ∧ ok.renameNamePrev = false) →
      ok.renameNextName = false →
      (vis.complete ok fs).2.name = none ∧ (vis.complete ok fs).2.prev = fs.name ∧
      (ok.removeNext = true → (vis.complete ok fs).2.next = none)) := by
  have hne : ¬ itemsLogged_ML_NEW recs = 0 := Nat.pos_iff_ne_zero.mp hpos
  unfold ItemAccessVisitor.complete
  rw [hlog]
  refine ⟨?_, ?_, ?_⟩
  · rintro ⟨hp, hr⟩
    cases hx : ok.removeNext <;>
      simp [hne, hp, hr, hx, ItemAccessVisitor.removeNext]
  · intro h1 ⟨hn, hr⟩
    cases hx : ok.removeNext <;> cases hp : fs.prev <;> cases hq : ok.removePrev <;>
      simp_all [ItemAccessVisitor.removeNext]
  · intro h1 h2 hr
    cases hx : ok.removeNext <;> cases hp : fs.prev <;> cases hq : ok.removePrev <;>
      cases hn : fs.name <;> cases hm : ok.renameNamePrev <;>
      simp_all [ItemAccessVisitor.removeNext]

/-- C15 (amended) at a concrete input: the removal of `<path>.old` fails, and
`<path>` keeps its log. -/
theorem complete_failure_keeps_previous_log_witness :
    ((mkVisitor 10 (mkVBucket 3 vbucket_state_active []) [LogRecord.new 3 "k" 1]).complete
        ⟨false, true, true, true⟩
        ⟨some [LogRecord.new 3 "old" 2], some [], some []⟩).2.name
      = some [LogRecord.new 3 "old" 2] :=
  ((complete_failure_keeps_previous_log ⟨false, true, true, true⟩
    (mkVisitor 10 (mkVBucket 3 vbucket_state_active []) [LogRecord.new 3 "k" 1])
    ⟨some [LogRecord.new 3 "old" 2], some [], some []⟩ [LogRecord.new 3 "k" 1] rfl
    (by decide)).1 (by decide)).1


/-! ### Persistence callbacks: failures and deletions -/

@[simp] theorem reDirty_key (v : StoredValue) (d : Nat) : (v.reDirty d).key = v.key := rfl

@[simp] theorem clearId_key (v : StoredValue) : v.clearId.key = v.key := rfl

/-- What `redirty` does: the failure is counted, the stored value of the key, if
there is one, is dirty again with the dirtied time the callback captured, and
the queued item is pushed onto the reject queue. -/
theorem redirty_effect (cb : PersistenceCallback) (st : FlusherState) :
    (cb.redirty st).rejectQueue = st.rejectQueue ++ [cb.queuedItem] ∧
    (cb.redirty st).pstats.flushFailed = st.pstats.flushFailed + 1 ∧
    (cb.redirty st).pstats.totalPersisted = st.pstats.totalPersisted ∧
    (cb.redirty st).store.storedValue cb.queuedItem.vbid cb.queuedItem.key
      = (st.store.storedValue cb.queuedItem.vbid cb.queuedItem.key).map
          (fun w => w.reDirty cb.dirtied) ∧
    (cb.redirty st).io = st.io := by
  refine ⟨rfl, rfl, rfl, ?_, rfl⟩
  exact storedValue_modifyValue_map st.store cb.queuedItem.vbid cb.queuedItem.key
    (fun w => w.reDirty cb.dirtied) (fun _ => rfl)

/-- The set callback on a negative status: a warning, then `redirty`. -/
theorem callback_negative (cb : PersistenceCallback) (env : FlushEnv) (st : FlusherState)
    (value : Int × Int) (h : value.1 < 0) :
    cb.callback env st value = cb.redirty (st.emit IOEvent.warning) := by
  have h1 : ¬ value.1 = 1 := by omega
  have h0 : ¬ value.1 = 0 := by omega
  unfold PersistenceCallback.callback
  simp only [if_neg h1, if_neg h0]
  cases st.store.getVBucket cb.queuedItem.vbid <;> rfl

/-- The delete callback on a negative value: a warning, then `redirty`. -/
theorem callbackDel_negative (cb : PersistenceCallback) (env : FlushEnv) (st : FlusherState)
    (value : Int) (h : value < 0) :
    cb.callbackDel env st value = some (cb.redirty (st.emit IOEvent.warning)) := by
  have h1 : value < 2 := by omega
  have h0 : ¬ value ≥ 0 := by omega
  unfold PersistenceCallback.callbackDel
  simp only [if_pos h1, if_neg h0]

/-- C21: when the set callback receives a negative status, or the delete callback
a negative value, a warning is written, the queued item is pushed onto the reject
queue exactly once, `flushFailed` grows by one, the stored value of the key is
dirty again with the dirtied time the callback captured, and `totalPersisted`
is unchanged. When the set callback receives status 0 for an existing vbucket,
only a warning is written: the reject queue and the statistics are as before. -/
theorem callback_negative_requeues (cb : PersistenceCallback) (env : FlushEnv)
    (st : FlusherState) :
    (∀ value : Int × Int, value.1 < 0 →
      (cb.callback env st value).rejectQueue = st.rejectQueue ++ [cb.queuedItem] ∧
      (cb.callback env st value).pstats.flushFailed = st.pstats.flushFailed + 1 ∧
      (cb.callback env st value).pstats.totalPersisted = st.pstats.totalPersisted ∧
      (cb.callback env st value).store.storedValue cb.queuedItem.vbid cb.queuedItem.key
        = (st.store.storedValue cb.queuedItem.vbid cb.queuedItem.key).map
            (fun w => w.reDirty cb.dirtied) ∧
      (cb.callback env st value).io = st.io ++ [IOEvent.warning]) ∧
    (∀ value : Int, value < 0 →
      ∃ r, cb.callbackDel env st value = some r ∧
        r.rejectQueue = st.rejectQueue ++ [cb.queuedItem] ∧
        r.pstats.flushFailed = st.pstats.flushFailed + 1 ∧
        r.pstats.totalPersisted = st.pstats.totalPersisted ∧
        r.store.storedValue cb.queuedItem.vbid cb.queuedItem.key
          = (st.store.storedValue cb.queuedItem.vbid cb.queuedItem.key).map
              (fun w => w.reDirty cb.dirtied) ∧
        r.io = st.io ++ [IOEvent.warning]) ∧
    (∀ (rowid : Int) (b : VBucket), st.store.getVBucket cb.queuedItem.vbid = some b →
      (cb.callback env st (0, rowid)).io = st.io ++ [IOEvent.warning] ∧
      (cb.callback env st (0, rowid)).rejectQueue = st.rejectQueue ∧
      (cb.callback env st (0, rowid)).pstats = st.pstats) := by
  refine ⟨?_, ?_, ?_⟩
  · intro value h
    rw [callback_negative cb env st value h]
    exact redirty_effect cb (st.emit IOEvent.warning)
  · intro value h
    exact ⟨_, callbackDel_negative cb env st value h,
      redirty_effect cb (st.emit IOEvent.warning)⟩
  · intro rowid b hb
    unfold PersistenceCallback.callback
    simp only [hb]
    rw [if_pos trivial]
    exact ⟨rfl, rfl, rfl⟩

/-- C21 at a concrete input: the set of the dirty value of key k, dirtied at 9,
fails with status −1 after a concurrent write moved its data age to 12: the
item is pushed onto the reject queue and the value carries data age 9 again. -/
theorem callback_negative_requeues_witness :
    (PersistenceCallback.callback ⟨⟨"k", 0, queue_op_set, 3, 0⟩, 9, 9, 7⟩ (mkEnv 9 50 10)
      (mkFlusher (mkStore [some (mkVBucket 0 vbucket_state_active
        [mkDirtyValue "k" 7 0 12 3])]) 0 0 [] []) (-1, 0)).rejectQueue
      = [] ++ [⟨"k", 0, queue_op_set, 3, 0⟩] ∧
    (PersistenceCallback.callback ⟨⟨"k", 0, queue_op_set, 3, 0⟩, 9, 9, 7⟩ (mkEnv 9 50 10)
      (mkFlusher (mkStore [some (mkVBucket 0 vbucket_state_active
        [mkDirtyValue "k" 7 0 12 3])]) 0 0 [] []) (-1, 0)).store.storedValue 0 "k"
      = some (mkDirtyValue "k" 7 0 9 3) :=
  ⟨((callback_negative_requeues ⟨⟨"k", 0, queue_op_set, 3, 0⟩, 9, 9, 7⟩ (mkEnv 9 50 10)
      (mkFlusher (mkStore [some (mkVBucket 0 vbucket_state_active
        [mkDirtyValue "k" 7 0 12 3])]) 0 0 [] [])).1 (-1, 0) (by decide)).1,
    ((callback_negative_requeues ⟨⟨"k", 0, queue_op_set, 3, 0⟩, 9, 9, 7⟩ (mkEnv 9 50 10)
      (mkFlusher (mkStore [some (mkVBucket 0 vbucket_state_active
        [mkDirtyValue "k" 7 0 12 3])]) 0 0 [] [])).1 (-1, 0) (by decide)).2.2.2.1.trans
      (by decide)⟩


/-- When the lookup of the flusher hands back a value, the vbucket exists
afterwards and its hash table holds that value under the key. -/
theorem fetchValidValue_flush_some (ops : HashTableOps) (s : EventuallyPersistentStore)
    (vb : Nat) (key : String) (now : Nat) (v : StoredValue)
    (h : (s.fetchValidValue ops vb key true false now).1 = some v) :
    ∃ b, (s.fetchValidValue ops vb key true false now).2.getVBucket vb = some b ∧
      HashTable.lookup b.ht key = some v := by
  unfold EventuallyPersistentStore.fetchValidValue at h ⊢
  cases hb : s.getVBucket vb with
  | none =>
    rw [hb] at h
    cases h
  | some b =>
    rw [hb] at h
    simp only [HashTable.unlocked_find, Bool.false_eq_true, if_false, Bool.true_or,
      if_true] at h ⊢
    cases hl : HashTable.lookup b.ht key with
    | none =>
      rw [hl] at h
      cases h
    | some w =>
      rw [hl] at h
      simp only [] at h ⊢
      by_cases hd : w.deleted = false
      · by_cases he : w.isExpired now = true
        · rw [if_pos hd, if_pos he] at h
          cases h
        · rw [if_pos hd, if_neg he] at h ⊢
          cases h
          exact ⟨_, getVBucket_putVB s vb b _ hb, hl⟩
      · rw [if_neg hd] at h ⊢
        cases h
        exact ⟨_, getVBucket_putVB s vb b _ hb, hl⟩

/-- The delete callback returns for the values 0 and 1, writes one `del` record
and counts the deletion when the value is 1. -/
theorem callbackDel_returns (cb : PersistenceCallback) (env : FlushEnv) (st : FlusherState)
    (value : Int) (hv : value = 0 ∨ value = 1) :
    ∃ r, cb.callbackDel env st value = some r ∧
      r.io = st.io ++ [IOEvent.log_delItem cb.queuedItem.vbid cb.queuedItem.key] ∧
      r.pstats.totalPersisted = st.pstats.totalPersisted + (if value = 1 then 1 else 0) ∧
      r.pstats.delItems = st.pstats.delItems + (if value = 1 then 1 else 0) ∧
      r.rejectQueue = st.rejectQueue := by
  have h2 : value < 2 := by omega
  have h0 : value ≥ 0 := by omega
  have hst : ∀ st1 : FlusherState,
      st1 = (if value > 0 then st.incTotalPersisted.incDelItems else st) →
      st1.io = st.io ∧
      st1.pstats.totalPersisted = st.pstats.totalPersisted + (if value = 1 then 1 else 0) ∧
      st1.pstats.delItems = st.pstats.delItems + (if value = 1 then 1 else 0) ∧
      st1.rejectQueue = st.rejectQueue := by
    intro st1 h1
    subst h1
    rcases hv with h | h <;> subst h <;> exact ⟨rfl, rfl, rfl, rfl⟩
  unfold PersistenceCallback.callbackDel
  simp only [if_pos h2, if_pos h0]
  generalize hg : (if value > 0 then st.incTotalPersisted.incDelItems else st) = st1
  obtain ⟨e1, e2, e3, e4⟩ := hst st1 hg.symm
  have hio : (st1.emit (IOEvent.log_delItem cb.queuedItem.vbid cb.queuedItem.key)).io
      = st.io ++ [IOEvent.log_delItem cb.queuedItem.vbid cb.queuedItem.key] := by
    simp [FlusherState.emit, e1]
  cases hb : (st1.emit (IOEvent.log_delItem cb.queuedItem.vbid
      cb.queuedItem.key)).store.getVBucket cb.queuedItem.vbid with
  | none => exact ⟨_, rfl, hio, e2, e3, e4⟩
  | some b =>
    simp only []
    cases hf : ((st1.emit (IOEvent.log_delItem cb.queuedItem.vbid
        cb.queuedItem.key)).store.fetchValidValue env.ops cb.queuedItem.vbid cb.queuedItem.key
        true false env.realTime).1 with
    | none => exact ⟨_, rfl, hio, e2, e3, e4⟩
    | some v =>
      simp only []
      by_cases hd : v.deleted = true
      · obtain ⟨b3, hb3, hl3⟩ := fetchValidValue_flush_some env.ops _ _ _ _ v hf
        have hb3' : ((st1.emit (IOEvent.log_delItem cb.queuedItem.vbid
            cb.queuedItem.key)).withStore
            ((st1.emit (IOEvent.log_delItem cb.queuedItem.vbid
              cb.queuedItem.key)).store.fetchValidValue env.ops cb.queuedItem.vbid
              cb.queuedItem.key true false env.realTime).2).store.getVBucket
            cb.queuedItem.vbid = some b3 := hb3
        rw [if_pos hd]
        simp only [hb3', HashTable.unlocked_del, hl3, Option.isSome_some, if_true]
        exact ⟨_, rfl, hio, e2, e3, e4⟩
      · rw [if_neg hd]
        exact ⟨_, rfl, hio, e2, e3, e4⟩

@[simp] theorem withStore_store (st : FlusherState) (s : EventuallyPersistentStore) :
    (st.withStore s).store = s := rfl

@[simp] theorem emit_store (st : FlusherState) (e : IOEvent) : (st.emit e).store = st.store :=
  rfl

/-- The facade state the delete callback leaves behind for the values 0 and 1,
by what its lookup finds in an existing vbucket. -/
theorem callbackDel_store (cb : PersistenceCallback) (env : FlushEnv) (st : FlusherState)
    (value : Int) (hv : value = 0 ∨ value = 1) (b : VBucket) (r : FlusherState)
    (hb : st.store.getVBucket cb.queuedItem.vbid = some b)
    (hr : cb.callbackDel env st value = some r) :
    (∀ v, HashTable.lookup b.ht cb.queuedItem.key = some v → v.deleted = true →
      r.store = st.store.putVB cb.queuedItem.vbid
        { b with ht := (HashTable.unlocked_del b.ht cb.queuedItem.key).2 }) ∧
    (∀ v, HashTable.lookup b.ht cb.queuedItem.key = some v → v.deleted = false →
      v.isExpired env.realTime = false →
      r.store = st.store.modifyValue cb.queuedItem.vbid cb.queuedItem.key StoredValue.clearId) ∧
    (HashTable.lookup b.ht cb.queuedItem.key = none → r.store = st.store) := by
  have h2 : value < 2 := by omega
  have h0 : value ≥ 0 := by omega
  have hs : (if value > 0 then st.incTotalPersisted.incDelItems else st).store = st.store := by
    split <;> rfl
  unfold PersistenceCallback.callbackDel at hr
  simp only [if_pos h2, if_pos h0] at hr
  generalize (if value > 0 then st.incTotalPersisted.incDelItems else st) = st1 at hs hr
  simp only [emit_store, hs, hb] at hr
  refine ⟨?_, ?_, ?_⟩
  · intro v hl hd
    rw [fetchValidValue_flush env.ops st.store _ _ env.realTime b v hb hl (Or.inl hd)] at hr
    simp only [hd, if_true, withStore_store, hb, HashTable.unlocked_del, hl,
      Option.isSome_some, Option.some.injEq] at hr
    rw [← hr]
    rfl
  · intro v hl hd he
    rw [fetchValidValue_flush env.ops st.store _ _ env.realTime b v hb hl (Or.inr he)] at hr
    simp only [hd, Bool.false_eq_true, if_false, Option.some.injEq] at hr
    rw [← hr]
    rfl
  · intro hl
    rw [fetchValidValue_flush_none env.ops st.store _ _ env.realTime b hb hl] at hr
    simp only [Option.some.injEq] at hr
    rw [← hr]
    rfl

/-- C22 refuted at a concrete input: the hash table of vbucket 0 holds key k
with a value that is not deleted, carries row id 3 and expired (at 40) before
the delete callback runs (at 50) with value 1: the entry is kept, and its row id
is not cleared. -/
theorem callbackDel_expired_entry_keeps_row_id :
    (mkFlusher (mkStore [some (mkVBucket 0 vbucket_state_active
        [mkDirtyValue "k" 7 40 9 3])]) 0 0 [] []).store.storedValue 0 "k"
      = some (mkDirtyValue "k" 7 40 9 3) ∧
    (mkDirtyValue "k" 7 40 9 3).deleted = false ∧
    (PersistenceCallback.callbackDel ⟨⟨"k", 0, queue_op_del, 3, 0⟩, 9, 0, 0⟩ (mkEnv 9 50 10)
      (mkFlusher (mkStore [some (mkVBucket 0 vbucket_state_active
        [mkDirtyValue "k" 7 40 9 3])]) 0 0 [] []) 1).map
        (fun r => (r.store.storedValue 0 "k").map StoredValue.id) = some (some 3) := by
  decide

/-- C22, amended: the delete callback invoked with value 0 or 1 returns, having
written exactly one del(vb, key) record to the mutation log; `totalPersisted`
and `delItems` are incremented if and only if the value is 1. In an existing
vbucket, an entry for the key that is still marked deleted is hard-removed from
the hash table; an entry that is no longer deleted and not expired at the time
of the callback is kept with its row id cleared; and when the key has no entry
the facade state is as before. -/
theorem callbackDel_removes_deleted_entry (cb : PersistenceCallback) (env : FlushEnv)
    (st : FlusherState) (value : Int) (hv : value = 0 ∨ value = 1) :
    ∃ r, cb.callbackDel env st value = some r ∧
      r.io = st.io ++ [IOEvent.log_delItem cb.queuedItem.vbid cb.queuedItem.key] ∧
      r.pstats.totalPersisted = st.pstats.totalPersisted + (if value = 1 then 1 else 0) ∧
      r.pstats.delItems = st.pstats.delItems + (if value = 1 then 1 else 0) ∧
      (∀ b v, st.store.getVBucket cb.queuedItem.vbid = some b →
        HashTable.lookup b.ht cb.queuedItem.key = some v → v.deleted = true →
        r.store.getVBucket cb.queuedItem.vbid
          = some { b with ht := b.ht.eraseP (fun w => w.key == cb.queuedItem.key) }) ∧
      (∀ b v, st.store.getVBucket cb.queuedItem.vbid = some b →
        HashTable.lookup b.ht cb.queuedItem.key = some v → v.deleted = false →
        v.isExpired env.realTime = false →
        r.store.storedValue cb.queuedItem.vbid cb.queuedItem.key = some v.clearId ∧
        v.clearId.id = -1) ∧
      (∀ b, st.store.getVBucket cb.queuedItem.vbid = some b →
        HashTable.lookup b.ht cb.queuedItem.key = none → r.store = st.store) := by
  obtain ⟨r, hr, hio, htp, hdi, _⟩ := callbackDel_returns cb env st value hv
  refine ⟨r, hr, hio, htp, hdi, ?_, ?_, ?_⟩
  · intro b v hb hl hd
    rw [(callbackDel_store cb env st value hv b r hb hr).1 v hl hd]
    exact getVBucket_putVB st.store _ b _ hb
  · intro b v hb hl hd he
    rw [(callbackDel_store cb env st value hv b r hb hr).2.1 v hl hd he]
    exact ⟨storedValue_modifyValue st.store _ _ StoredValue.clearId b v hb hl
      (lookup_key b.ht _ v hl), rfl⟩
  · intro b hb hl
    exact (callbackDel_store cb env st value hv b r hb hr).2.2 hl

/-- C22 (amended) at a concrete input: the deleted entry of key k is removed by
the delete callback invoked with value 1. -/
theorem callbackDel_removes_deleted_entry_witness :
    ∃ r, PersistenceCallback.callbackDel ⟨⟨"k", 0, queue_op_del, 3, 0⟩, 9, 0, 0⟩
        (mkEnv 9 50 10) (mkFlusher (mkStore [some (mkVBucket 0 vbucket_state_active
          [{ mkDirtyValue "k" 7 0 9 3 with deleted := true }])]) 0 0 [] []) 1 = some r ∧
      r.io = [] ++ [IOEvent.log_delItem 0 "k"] ∧
      r.store.getVBucket 0 = some (mkVBucket 0 vbucket_state_active []) :=
  (callbackDel_removes_deleted_entry ⟨⟨"k", 0, queue_op_del, 3, 0⟩, 9, 0, 0⟩
    (mkEnv 9 50 10) (mkFlusher (mkStore [some (mkVBucket 0 vbucket_state_active
      [{ mkDirtyValue "k" 7 0 9 3 with deleted := true }])]) 0 0 [] []) 1
    (Or.inr rfl)).imp
    (fun _ h => ⟨h.1, h.2.1, h.2.2.2.2.1
      (mkVBucket 0 vbucket_state_active [{ mkDirtyValue "k" 7 0 9 3 with deleted := true }])
      { mkDirtyValue "k" 7 0 9 3 with deleted := true } (by decide) (by decide)
      (by decide)⟩)


/-! ### The flusher: a batch -/

/-- C23: when the transaction context is not in a transaction and the store's
`begin()` fails, `flushSome` returns 1, leaves the input queue empty, appends
every input item to the reject queue in its original order behind the previous
contents, increments `beginFailed` by exactly one, and makes two outside calls
only, the failed `begin()` and a warning: no store write and no commit; the
facade state and the transaction context are as before. -/
theorem flushSome_begin_failure (env : FlushEnv) (st : FlusherState) (q : List QueuedItem)
    (rest : List Bool) (hin : st.tctx.intxn = false) (hbegin : st.beginAnswers = false :: rest) :
    ∃ st1, st.flushSome env q = some (1, st1, []) ∧
      st1.rejectQueue = st.rejectQueue ++ q ∧
      st1.pstats.beginFailed = st.pstats.beginFailed + 1 ∧
      st1.io = st.io ++ [IOEvent.storeBegin false, IOEvent.warning] ∧
      storeWrites st1.io = storeWrites st.io ∧
      st1.io.countP IOEvent.isStoreCommit = st.io.countP IOEvent.isStoreCommit ∧
      st1.store = st.store ∧ st1.tctx = st.tctx := by
  have he : st.enter = some (false, { st.emit (IOEvent.storeBegin false) with
      tctx := { st.tctx with intxn := false }, beginAnswers := rest }) := by
    unfold FlusherState.enter
    simp [hin, hbegin]
  unfold FlusherState.flushSome
  simp only [he, if_true]
  refine ⟨_, rfl, rfl, rfl, ?_, ?_, ?_, rfl, ?_⟩
  · simp [FlusherState.emit]
  · simp [FlusherState.emit, storeWrites, IOEvent.isStoreSet, IOEvent.isStoreDel]
  · simp [FlusherState.emit, IOEvent.isStoreCommit]
  · simp [FlusherState.emit, ← hin]

/-- C23 at a concrete input: a batch of two items is routed to the reject queue
when `begin()` fails. -/
theorem flushSome_begin_failure_witness :
    ∃ st1, (mkFlusher (mkStore []) 0 0 [false] []).flushSome (mkEnv 9 50 10)
        [⟨"a", 0, queue_op_set, -1, 0⟩, ⟨"b", 0, queue_op_del, 2, 0⟩] = some (1, st1, []) ∧
      st1.rejectQueue
        = [] ++ [⟨"a", 0, queue_op_set, -1, 0⟩, ⟨"b", 0, queue_op_del, 2, 0⟩] :=
  (flushSome_begin_failure (mkEnv 9 50 10) (mkFlusher (mkStore []) 0 0 [false] [])
    [⟨"a", 0, queue_op_set, -1, 0⟩, ⟨"b", 0, queue_op_del, 2, 0⟩] [] rfl rfl).imp
    (fun _ h => ⟨h.1, h.2.1⟩)


/-- C24 at its failing input: `beginFlush` pushes the items of vbucket 0 and then
those of vbucket 1, each list holding one set for the key k: the second item is
taken for a duplicate of the first, and the persistence queue ends up without
any item of vbucket 1. -/
theorem pushToOutgoingQueue_drops_item_of_other_vbucket :
    ((((mkFlusher (mkStore []) 0 0 [] []).pushToOutgoingQueue (fun l => l)
        [⟨"k", 0, queue_op_set, -1, 1⟩]).1.pushToOutgoingQueue (fun l => l)
        [⟨"k", 1, queue_op_set, -1, 1⟩]).1.writing
      = [⟨"k", 0, queue_op_set, -1, 1⟩]) ∧
    ((((mkFlusher (mkStore []) 0 0 [] []).pushToOutgoingQueue (fun l => l)
        [⟨"k", 0, queue_op_set, -1, 1⟩]).1.pushToOutgoingQueue (fun l => l)
        [⟨"k", 1, queue_op_set, -1, 1⟩]).1.writing.any
      (fun qi => qi.vbid == 1 && qi.key == "k")) = false := by
  decide

/-- C25 at its failing input: the stored value of key k is a dirty tombstone
(deleted, row id 3) dirtied one second before the flush, with `min_data_age` 5:
`flushOneDelOrSet` pushes the item onto the reject queue as too young and, in
the same call, issues a store delete for it. -/
theorem flushOneDelOrSet_rejects_and_deletes_tombstone :
    ((mkFlusher (mkStore [some (mkVBucket 0 vbucket_state_active
          [{ mkDirtyValue "k" 7 0 9 3 with deleted := true }])]) 5 900 [] []).flushOneDelOrSet
        (mkEnv 9 50 10) ⟨"k", 0, queue_op_del, 3, 0⟩).2.rejectQueue
      = [⟨"k", 0, queue_op_del, 3, 0⟩] ∧
    ((mkFlusher (mkStore [some (mkVBucket 0 vbucket_state_active
          [{ mkDirtyValue "k" 7 0 9 3 with deleted := true }])]) 5 900 [] []).flushOneDelOrSet
        (mkEnv 9 50 10) ⟨"k", 0, queue_op_del, 3, 0⟩).2.pstats.tooYoung = 1 ∧
    storeWrites ((mkFlusher (mkStore [some (mkVBucket 0 vbucket_state_active
          [{ mkDirtyValue "k" 7 0 9 3 with deleted := true }])]) 5 900 [] []).flushOneDelOrSet
        (mkEnv 9 50 10) ⟨"k", 0, queue_op_del, 3, 0⟩).2.io
      = [IOEvent.storeDel (flushItem ⟨"k", 0, queue_op_del, 3, 0⟩
            { mkDirtyValue "k" 7 0 9 3 with deleted := true }) 3
          ⟨⟨"k", 0, queue_op_del, 3, 0⟩, 9, 9, 0⟩] := by
  decide


/-! ### The SQLite store -/

/-- Whatever the inserts answered without throwing, the loop of `storeMap`
finishes. -/
theorem mapSetterLoop_returns (insert : Nat → Option Int)
    (hins : ∀ i, (insert i).isSome = true) :
    ∀ (m : List (String × String)) (i : Nat) (output : Bool) (calls : List SqlCall),
      (StrategicSqlite3.mapSetterLoop insert m i output calls).isSome = true
  | [], _, _, _ => rfl
  | p :: rest, i, output, calls => by
    obtain ⟨n, hn⟩ := Option.isSome_iff_exists.mp (hins i)
    rw [StrategicSqlite3.mapSetterLoop, hn]
    exact mapSetterLoop_returns insert hins rest (i + 1) _ _

/-- What `storeMap` returns when the transaction began and no call threw: the
answer of `commit()`, whatever the clear and insert statements reported. -/
theorem storeMap_returns_commit (ans : StoreMapAnswers) (m : List (String × String)) (c : Int)
    (hbegin : ans.begin = true) (hclear : ans.clear = some c)
    (hins : ∀ i, (ans.insert i).isSome = true) :
    (StrategicSqlite3.storeMap ans m).1 = ans.commit := by
  unfold StrategicSqlite3.storeMap
  rw [if_neg (by simp [hbegin])]
  simp only [hclear]
  split
  · next hnone =>
    have h := mapSetterLoop_returns ans.insert hins m 0 (false && decide (c ≥ 0))
      ([SqlCall.begin true, SqlCall.executeClear] ++ [SqlCall.resetStatement])
    rw [hnone] at h
    cases h
  · rfl

/-- C26 at its failing input: the transaction begins, the clear statement
succeeds, the insert of the only map entry changes no row (the result −1 gives
the same), and the commit succeeds: `storeMap` returns true, and so does the
snapshot built on it, without a warning or a reopen. -/
theorem storeMap_true_after_failed_insert :
    (StrategicSqlite3.storeMap ⟨true, some 0, fun _ => some 0, true⟩ [("0", "active")]).1
      = true ∧
    (StrategicSqlite3.storeMap ⟨true, some 0, fun _ => some (-1), true⟩ [("0", "active")]).1
      = true ∧
    StrategicSqlite3.snapshot ⟨true, some 0, fun _ => some 0, true⟩ [("0", "active")]
      = (true, [SqlCall.begin true, SqlCall.executeClear, SqlCall.resetStatement,
          SqlCall.bindInsert "0" "active", SqlCall.executeInsert, SqlCall.resetStatement,
          SqlCall.commit true]) := by
  decide

/-- C27 at its failing input: `flushOneDelOrSet` passes row id −1 for a value
that was never persisted; as the `uint64_t` parameter it is 2^64 − 1, the test
`rowid <= 0` is false, and the delete statement is bound and executed before
the callback gets its result. Only row id 0 is answered without a statement. -/
theorem del_executes_statement_for_minus_one :
    StrategicSqlite3.toUInt64 (-1) = 2 ^ 64 - 1 ∧
    StrategicSqlite3.del 0 (StrategicSqlite3.toUInt64 (-1))
      = [SqlCall.bind64 1 (2 ^ 64 - 1), SqlCall.executeDelete, SqlCall.callback 0,
          SqlCall.resetStatement] ∧
    StrategicSqlite3.del 0 (StrategicSqlite3.toUInt64 0) = [SqlCall.callback 0] := by
  decide

/-! ### Configuration changes -/

/-- C28 at its failing input: a change of `klog_compactor_queue_cap` to any value
leaves the queue cap of the compactor as it was and writes the value to the
max entry ratio, whereas the constructor wires the configured value of the same
key to the queue cap. -/
theorem sizeValueChanged_queue_cap_writes_entry_ratio (store : StoreSettings) (value : Nat)
    (a b c d : Nat) :
    (sizeValueChanged store "klog_compactor_queue_cap" value).mlogCompactorConfig.queueCap
      = store.mlogCompactorConfig.queueCap ∧
    (sizeValueChanged store "klog_compactor_queue_cap" value).mlogCompactorConfig.maxEntryRatio
      = value ∧
    (constructorWiring a b c d store.mlogCompactorConfig).queueCap = c ∧
    (sizeValueChanged ⟨0, 0, 0, 0, 0, 0, ⟨1, 2, 3, 4⟩, 0, 0, 0⟩
        "klog_compactor_queue_cap" 7).mlogCompactorConfig = ⟨1, 7, 3, 4⟩ := by
  refine ⟨?_, ?_, rfl, by decide⟩
  · unfold sizeValueChanged
    simp
  · unfold sizeValueChanged
    simp


/-! ### The vbucket visitor adaptor -/

theorem visitedBuckets_append (t u : List AdaptorCall) :
    visitedBuckets (t ++ u) = visitedBuckets t ++ visitedBuckets u := by
  induction t with
  | nil => rfl
  | cons c t ih => cases c <;> simp [visitedBuckets, ih]

theorem completions_append (t u : List AdaptorCall) :
    completions (t ++ u) = completions t + completions u := by
  simp [completions]

/-- One invocation with a visitor that does not pause, on a queue whose front
vbucket exists: the front vbucket, and only it, is handed to `visitBucket` and
removed from the queue; the invocation returns whether ids are left, and calls
`complete()` when none is left. -/
theorem callback_visits_front (vbuckets : VBucketMap) (visits : Nat → Bool) (a : VBCBAdaptor)
    (v : Nat) (rest : List Nat) (hl : a.vbList = v :: rest)
    (hex : (vbuckets.getBucket v).isSome = true) :
    (VBCBAdaptor.callback vbuckets false visits a).1 = !rest.isEmpty ∧
    (VBCBAdaptor.callback vbuckets false visits a).2.vbList = rest ∧
    visitedBuckets (VBCBAdaptor.callback vbuckets false visits a).2.calls
      = visitedBuckets a.calls ++ [v] ∧
    completions (VBCBAdaptor.callback vbuckets false visits a).2.calls
      = completions a.calls + (if rest = [] then 1 else 0) := by
  obtain ⟨b, hb⟩ := Option.isSome_iff_exists.mp hex
  unfold VBCBAdaptor.callback
  simp only [hl, hb]
  cases rest with
  | nil =>
    cases hv : visits v <;>
      simp [visitedBuckets_append, completions_append, visitedBuckets, completions]
  | cons w rest =>
    cases hv : visits v <;>
      simp [visitedBuckets_append, completions_append, visitedBuckets, completions]

/-- Repeated invocation on a non-empty queue whose vbuckets all exist. -/
theorem invocations_run (vbuckets : VBucketMap) (visits : Nat → Bool) :
    ∀ (l : List Nat) (a : VBCBAdaptor), l ≠ [] → a.vbList = l →
      (∀ v ∈ l, (vbuckets.getBucket v).isSome = true) →
      (VBCBAdaptor.invocations vbuckets visits l.length a).1
        = List.replicate (l.length - 1) true ++ [false] ∧
      (VBCBAdaptor.invocations vbuckets visits l.length a).2.vbList = [] ∧
      visitedBuckets (VBCBAdaptor.invocations vbuckets visits l.length a).2.calls
        = visitedBuckets a.calls ++ l ∧
      completions (VBCBAdaptor.invocations vbuckets visits l.length a).2.calls
        = completions a.calls + 1
  | [], _, hne, _, _ => absurd rfl hne
  | [v], a, _, hl, hex => by
    obtain ⟨h1, h2, h3, h4⟩ := callback_visits_front vbuckets visits a v [] hl
      (hex v (List.mem_singleton.mpr rfl))
    simp only [List.length_singleton, VBCBAdaptor.invocations]
    refine ⟨?_, h2, h3, ?_⟩
    · simp [h1]
    · simpa using h4
  | v :: w :: rest, a, _, hl, hex => by
    obtain ⟨h1, h2, h3, h4⟩ := callback_visits_front vbuckets visits a v (w :: rest) hl
      (hex v (List.mem_cons_self v _))
    obtain ⟨i1, i2, i3, i4⟩ := invocations_run vbuckets visits (w :: rest)
      (VBCBAdaptor.callback vbuckets false visits a).2 (List.cons_ne_nil w rest) h2
      (fun u hu => hex u (List.mem_cons_of_mem v hu))
    have hlen : (v :: w :: rest).length = (w :: rest).length + 1 := rfl
    rw [hlen, VBCBAdaptor.invocations]
    refine ⟨?_, i2, ?_, ?_⟩
    · simp only [i1, h1]
      simp [List.replicate_succ]
    · rw [i3, h3]
      simp
    · rw [i4, h4]
      simp

/-- C29: the adaptor built by the constructor queues exactly the selected
vbuckets, each once and in ascending order: an id is queued if and only if it
is below the size of the map, has a vbucket and passes the visitor's filter; no
call has been made yet. With a visitor that never pauses and a map in which
every queued vbucket still exists, the invocations of `callback`, as many as
there are queued ids, hand each queued vbucket to the visitor exactly once, in
queue order, one per invocation (each invocation visits the front id and
removes only it); every invocation returns true except the last, which leaves
the queue empty, returns false and is the only one to call `complete()`. On an
empty queue the one invocation visits nothing, calls `complete()` and returns
false. When the visitor reports pause, the invocation hands no vbucket to the
visitor, leaves the queue as it is, snoozes and returns true. -/
theorem callback_visits_each_vbucket_once (vbuckets0 vbuckets : VBucketMap)
    (vbFilter visits : Nat → Bool) (a : VBCBAdaptor)
    (hcreate : VBCBAdaptor.create vbuckets0 vbFilter = some a) :
    List.Pairwise (fun x y => x < y) a.vbList ∧
    (∀ i : Nat, i ∈ a.vbList ↔
      (i < vbuckets0.getSize ∧ (vbuckets0.getBucket i).isSome = true ∧ vbFilter i = true)) ∧
    a.calls = [] ∧
    (a.vbList ≠ [] → (∀ v ∈ a.vbList, (vbuckets.getBucket v).isSome = true) →
      (VBCBAdaptor.invocations vbuckets visits a.vbList.length a).1
        = List.replicate (a.vbList.length - 1) true ++ [false] ∧
      (VBCBAdaptor.invocations vbuckets visits a.vbList.length a).2.vbList = [] ∧
      visitedBuckets (VBCBAdaptor.invocations vbuckets visits a.vbList.length a).2.calls
        = a.vbList ∧
      completions (VBCBAdaptor.invocations vbuckets visits a.vbList.length a).2.calls = 1) ∧
    (a.vbList = [] →
      VBCBAdaptor.callback vbuckets false visits a
        = (false, { a with calls := [AdaptorCall.complete] })) ∧
    (∀ (b : VBCBAdaptor) (v : Nat) (rest : List Nat), b.vbList = v :: rest →
      (vbuckets.getBucket v).isSome = true →
      (VBCBAdaptor.callback vbuckets false visits b).1 = !rest.isEmpty ∧
      (VBCBAdaptor.callback vbuckets false visits b).2.vbList = rest ∧
      visitedBuckets (VBCBAdaptor.callback vbuckets false visits b).2.calls
        = visitedBuckets b.calls ++ [v] ∧
      completions (VBCBAdaptor.callback vbuckets false visits b).2.calls
        = completions b.calls + (if rest = [] then 1 else 0)) ∧
    (∀ (b : VBCBAdaptor) (v : Nat) (rest : List Nat), b.vbList = v :: rest →
      (vbuckets.getBucket v).isSome = true →
      VBCBAdaptor.callback vbuckets true visits b
        = (true, { b with currentvb := v, calls := b.calls ++
            [AdaptorCall.pauseVisitor true, AdaptorCall.snooze] })) := by
  unfold VBCBAdaptor.create at hcreate
  split at hcreate
  · cases hcreate
    refine ⟨?_, ?_, rfl, ?_, ?_, ?_, ?_⟩
    · exact List.Pairwise.filter _ (List.pairwise_lt_range _)
    · intro i
      simp [List.mem_filter, List.mem_range]
    · intro hne hex
      obtain ⟨h1, h2, h3, h4⟩ := invocations_run vbuckets visits _
        ⟨(List.range vbuckets0.getSize).filter
          (fun i => (vbuckets0.getBucket i).isSome && vbFilter i), 0, []⟩ hne rfl hex
      exact ⟨h1, h2, by simpa [visitedBuckets] using h3, by simpa [completions] using h4⟩
    · intro hnil
      unfold VBCBAdaptor.callback
      simp only [] at hnil
      simp [hnil]
    · intro b v rest hl hex
      exact callback_visits_front vbuckets visits b v rest hl hex
    · intro b v rest hl hex
      obtain ⟨vb, hvb⟩ := Option.isSome_iff_exists.mp hex
      unfold VBCBAdaptor.callback
      simp only [hl, hvb, if_true]
  · cases hcreate

/-- C29 at a concrete input: the map has vbuckets 0 and 2 and no vbucket 1; the
constructor queues 0 and 2, and two invocations visit 0 and then 2, returning
true and then false, with one call of `complete()`. -/
theorem callback_visits_each_vbucket_once_witness :
    VBCBAdaptor.create (mkStore [some (mkVBucket 0 vbucket_state_active []), none,
        some (mkVBucket 2 vbucket_state_replica [])]).vbuckets (fun _ => true)
      = some ⟨[0, 2], 0, []⟩ ∧
    (VBCBAdaptor.invocations (mkStore [some (mkVBucket 0 vbucket_state_active []), none,
        some (mkVBucket 2 vbucket_state_replica [])]).vbuckets (fun _ => true) 2
      ⟨[0, 2], 0, []⟩).1 = [true, false] ∧
    visitedBuckets (VBCBAdaptor.invocations (mkStore [some (mkVBucket 0 vbucket_state_active []),
        none, some (mkVBucket 2 vbucket_state_replica [])]).vbuckets (fun _ => true) 2
      ⟨[0, 2], 0, []⟩).2.calls = [0, 2] :=
  ⟨by decide,
    ((callback_visits_each_vbucket_once
      (mkStore [some (mkVBucket 0 vbucket_state_active []), none,
        some (mkVBucket 2 vbucket_state_replica [])]).vbuckets
      (mkStore [some (mkVBucket 0 vbucket_state_active []), none,
        some (mkVBucket 2 vbucket_state_replica [])]).vbuckets
      (fun _ => true) (fun _ => true) ⟨[0, 2], 0, []⟩ (by decide)).2.2.2.1 (by decide)
      (by decide)).1,
    ((callback_visits_each_vbucket_once
      (mkStore [some (mkVBucket 0 vbucket_state_active []), none,
        some (mkVBucket 2 vbucket_state_replica [])]).vbuckets
      (mkStore [some (mkVBucket 0 vbucket_state_active []), none,
        some (mkVBucket 2 vbucket_state_replica [])]).vbuckets
      (fun _ => true) (fun _ => true) ⟨[0, 2], 0, []⟩ (by decide)).2.2.2.1 (by decide)
      (by decide)).2.2.1⟩


/-! ### Warmup of one shard -/

/-- The text the inner loop writes for a batch: every id followed by a comma. -/
theorem gatherBatch_eq (batchSize : Nat) : ∀ (l : List Nat) (num : Nat) (ss : List Char),
    num ≤ batchSize →
    StrategicSqlite3.gatherBatch batchSize l num ss
      = (num + (l.take (batchSize - num)).length,
          ss ++ ((l.take (batchSize - num)).map (fun id => Nat.toDigits 10 id ++ [','])).flatten,
          l.drop (batchSize - num))
  | [], num, ss, _ => by simp [StrategicSqlite3.gatherBatch]
  | id :: rest, num, ss, h => by
    rw [StrategicSqlite3.gatherBatch]
    by_cases hlt : num < batchSize
    · rw [if_pos hlt, gatherBatch_eq batchSize rest (num + 1) _ hlt]
      have hs : batchSize - num = (batchSize - (num + 1)) + 1 := by omega
      rw [hs]
      simp only [List.take_succ_cons, List.drop_succ_cons, List.length_cons, List.map_cons,
        List.flatten_cons, List.append_assoc, Prod.mk.injEq, and_true]
      omega
    · rw [if_neg hlt]
      have hz : batchSize - num = 0 := by omega
      simp [hz]

/-- The text written for a non-empty batch is its comma-separated ids followed
by one comma. -/
theorem join_commas : ∀ (b : List Nat), b ≠ [] →
    (b.map (fun id => Nat.toDigits 10 id ++ [','])).flatten = commaSeparated b ++ [',']
  | [], h => absurd rfl h
  | [x], _ => by simp [commaSeparated]
  | x :: y :: t, _ => by
    have ih := join_commas (y :: t) (List.cons_ne_nil y t)
    simp only [List.map_cons, List.flatten_cons] at ih ⊢
    rw [ih]
    simp [commaSeparated]

/-- The query text built for a non-empty batch: the trailing comma is cut off
and the parenthesis closed. -/
theorem query_text_eq (queryHead : List Char) (b : List Nat) (hb : b ≠ []) :
    (queryHead ++ ([] ++ (b.map (fun id => Nat.toDigits 10 id ++ [','])).flatten)).dropLast
        ++ [')']
      = queryText queryHead b := by
  rw [join_commas b hb, List.nil_append, ← List.append_assoc, List.dropLast_concat]
  rfl

/-- One round of the loop on a non-empty remainder: it issues the query for the
next `batchSize` ids (or for all that are left) and goes on with the rest. -/
theorem queryLoop_round (queryHead : List Char) (batchSize : Nat) (hbs : 0 < batchSize)
    (fuel : Nat) (x : Nat) (t : List Nat) (issued : List (List Char)) :
    StrategicSqlite3.queryLoop queryHead batchSize (fuel + 1) (x :: t) issued
      = if (x :: t).drop batchSize ≠ [] then
          StrategicSqlite3.queryLoop queryHead batchSize fuel ((x :: t).drop batchSize)
            (issued ++ [queryText queryHead ((x :: t).take batchSize)])
        else some (issued ++ [queryText queryHead ((x :: t).take batchSize)]) := by
  have htk : (x :: t).take batchSize ≠ [] := by
    cases batchSize with
    | zero => omega
    | succ n => simp
  have hlen : ¬ 0 + ((x :: t).take batchSize).length = 0 := by
    rw [Nat.zero_add]
    exact fun h => htk (List.length_eq_zero.mp h)
  rw [StrategicSqlite3.queryLoop, gatherBatch_eq batchSize (x :: t) 0 [] (Nat.zero_le _)]
  simp only [ne_eq, Nat.sub_zero]
  rw [query_text_eq queryHead _ htk]
  simp only [hlen, not_false_eq_true, if_true]

/-- With a batch size of at least one, a round for every id suffices: the loop
ends, and the queries it issued are the texts of consecutive batches of the
remaining ids, each non-empty and of at most `batchSize` ids, all but the last
of exactly `batchSize`. -/
theorem queryLoop_batches (queryHead : List Char) (batchSize : Nat) (hbs : 0 < batchSize) :
    ∀ (fuel : Nat) (iter : List Nat) (issued : List (List Char)), iter.length ≤ fuel →
      ∃ batches : List (List Nat),
        StrategicSqlite3.queryLoop queryHead batchSize (fuel + 1) iter issued
          = some (issued ++ batches.map (queryText queryHead)) ∧
        batches.flatten = iter ∧
        (∀ b ∈ batches, b ≠ [] ∧ b.length ≤ batchSize) ∧
        (∀ b ∈ batches.dropLast, b.length = batchSize) := by
  intro fuel
  induction fuel with
  | zero =>
    intro iter issued hlen
    have hnil : iter = [] := List.length_eq_zero.mp (Nat.le_zero.mp hlen)
    subst hnil
    exact ⟨[], by simp [StrategicSqlite3.queryLoop, StrategicSqlite3.gatherBatch], rfl,
      by simp, by simp⟩
  | succ fuel ih =>
    intro iter issued hlen
    cases iter with
    | nil =>
      exact ⟨[], by simp [StrategicSqlite3.queryLoop, StrategicSqlite3.gatherBatch], rfl,
        by simp, by simp⟩
    | cons x t =>
      have htk : (x :: t).take batchSize ≠ [] := by
        cases batchSize with
        | zero => omega
        | succ n => simp
      have htl : ((x :: t).take batchSize).length ≤ batchSize := by
        simp [List.length_take]
      rw [queryLoop_round queryHead batchSize hbs (fuel + 1) x t issued]
      by_cases hdr : (x :: t).drop batchSize = []
      · refine ⟨[(x :: t).take batchSize], ?_, ?_, ?_, ?_⟩
        · simp [hdr]
        · have h := List.take_append_drop batchSize (x :: t)
          rw [hdr, List.append_nil] at h
          simp [h]
        · intro b hb
          rw [List.mem_singleton] at hb
          subst hb
          exact ⟨htk, htl⟩
        · simp
      · have hdl : ((x :: t).drop batchSize).length ≤ fuel := by
          rw [List.length_drop]
          simp only [List.length_cons] at hlen ⊢
          omega
        have hfull : ((x :: t).take batchSize).length = batchSize := by
          rw [List.length_take]
          have : batchSize < (x :: t).length := by
            by_contra hc
            exact hdr (List.drop_eq_nil_of_le (Nat.le_of_not_lt hc))
          omega
        obtain ⟨bs, h1, h2, h3, h4⟩ := ih ((x :: t).drop batchSize)
          (issued ++ [queryText queryHead ((x :: t).take batchSize)]) hdl
        refine ⟨(x :: t).take batchSize :: bs, ?_, ?_, ?_, ?_⟩
        · rw [if_pos hdr, h1]
          simp
        · rw [List.flatten_cons, h2, List.take_append_drop]
        · intro b hb
          rcases List.mem_cons.mp hb with hb | hb
          · subst hb
            exact ⟨htk, htl⟩
          · exact h3 b hb
        · intro b hb
          cases bs with
          | nil => simp at hb
          | cons c cs =>
            rw [List.dropLast_cons₂] at hb
            rcases List.mem_cons.mp hb with hb | hb
            · subst hb
              exact hfull
            · exact h4 b hb

/-- C30: for every list of row ids and every batch size of at least one, the
batching loop of `warmupSingleShard` ends within one round per id plus one, and
the queries it issues are the texts of consecutive batches of the ids sorted in
ascending order: the batches concatenated are the sorted list (so every id is
in the list of exactly one query, and the ids ascend within and across
queries), each batch is non-empty and has at most `batchSize` ids, every batch
but the last has exactly `batchSize`, each query text is the head followed by
the comma-separated ids of its batch and a closing parenthesis, and for an
empty id list no query is issued. -/
theorem warmupSingleShard_batches (table : String) (ids : List Nat) (batchSize : Nat)
    (hbs : 1 ≤ batchSize) :
    ∃ batches : List (List Nat),
      StrategicSqlite3.warmupSingleShard table ids batchSize (ids.length + 1)
        = some (batches.map (queryText (StrategicSqlite3.queryHead table))) ∧
      batches.flatten = ids.insertionSort (fun a b => a ≤ b) ∧
      List.Sorted (fun a b => a ≤ b) batches.flatten ∧
      List.Perm batches.flatten ids ∧
      (∀ b ∈ batches, b ≠ [] ∧ b.length ≤ batchSize) ∧
      (∀ b ∈ batches.dropLast, b.length = batchSize) ∧
      (ids = [] → batches = []) := by
  obtain ⟨batches, h1, h2, h3, h4⟩ := queryLoop_batches (StrategicSqlite3.queryHead table)
    batchSize hbs ids.length (ids.insertionSort (fun a b => a ≤ b)) []
    (le_of_eq (List.length_insertionSort _ ids))
  refine ⟨batches, ?_, h2, ?_, ?_, h3, h4, ?_⟩
  · unfold StrategicSqlite3.warmupSingleShard
    rw [h1]
    rfl
  · rw [h2]
    exact List.sorted_insertionSort _ ids
  · rw [h2]
    exact List.perm_insertionSort _ ids
  · intro hnil
    subst hnil
    cases batches with
    | nil => rfl
    | cons b bs =>
      have hb := (h3 b (List.mem_cons_self b bs)).1
      have hf : (b :: bs).flatten = [] := h2
      rw [List.flatten_cons] at hf
      exact absurd (List.append_eq_nil.mp hf).1 hb

/-- C30 at a concrete input: the ids 5, 1, 3 of table kv with batch size 2 give
the query for 1 and 3 and then the query for 5. -/
theorem warmupSingleShard_batches_witness :
    (∃ batches : List (List Nat),
      StrategicSqlite3.warmupSingleShard "kv" [5, 1, 3] 2 ([5, 1, 3].length + 1)
        = some (batches.map (queryText (StrategicSqlite3.queryHead "kv"))) ∧
      batches.flatten = [5, 1, 3].insertionSort (fun a b => a ≤ b)) ∧
    StrategicSqlite3.warmupSingleShard "kv" [5, 1, 3] 2 4
      = some ["select k, v, flags, exptime, cas, vbucket, rowid from kv where rowid in (1,3)".toList,
          "select k, v, flags, exptime, cas, vbucket, rowid from kv where rowid in (5)".toList] :=
  ⟨(warmupSingleShard_batches "kv" [5, 1, 3] 2 (by decide)).imp (fun _ h => ⟨h.1, h.2.1⟩),
    by decide⟩

end EPEngine
